import Mathlib

/-!
# libmapper control plane: name/port allocator and replica database

A shallow embedding of the allocator of `src/admin.c` (`check_collisions`,
`on_collision`, the `/port/probe` and `/name/probe` handlers,
`mapper_admin_poll`) and of the device table of `src/db.c`.

Conventions of the embedding
* `unsigned int` is a `Nat` reduced modulo 2^32 at every arithmetic step;
  `int` counters are `Int` (signed overflow is undefined behaviour in C and is
  outside the model).
* A C string is the `List Char` of its bytes before the terminator.
* `get_current_time()` is `(double) tv_sec + tv_usec / 1000000.0`; a clock
  reading is kept as the integer number of microseconds it was built from
  (`tv_sec * 1000000 + tv_usec`, an `Int`), so the thresholds `2.0` and `0.5`
  seconds are `2000000` and `500000`.  Every
  call of `get_current_time()` is a separate argument of the function that
  makes it.
* `rand()` is an argument holding the value the call returned.
* Calls that leave the allocator (sending on the bus, the `on_lock` callback)
  are recorded, in order, in a list of `effect`s.
-/

namespace Mapper

/-! ## Machine integers and text -/

/-- Conversion of an `int` value to `unsigned int`: reduction modulo 2^32. -/
def to_unsigned (i : Int) : Nat := (i % 4294967296).toNat

/-- Conversion of an `unsigned int` to `int`: two's complement reading. -/
def to_int (u : Nat) : Int :=
  if u % 4294967296 < 2147483648 then ((u % 4294967296 : Nat) : Int)
  else ((u % 4294967296 : Nat) : Int) - 4294967296

/-- Output of the `%d` conversion of `printf` for an `int`. -/
def fmt_d (i : Int) : List Char :=
  if i < 0 then '-' :: Nat.toDigits 10 i.natAbs else Nat.toDigits 10 i.toNat

/-- Text stored by `snprintf(buf, size, ...)` when the formatted text is `text`:
at most `size - 1` bytes are kept. -/
def snprintf (size : Nat) (text : List Char) : List Char := text.take (size - 1)

/-- The formatted text of `"/%s.%d"` for an identifier and an `unsigned int`
passed where `%d` expects an `int`. -/
def fmt_name (identifier : List Char) (value : Nat) : List Char :=
  '/' :: (identifier ++ '.' :: fmt_d (to_int value))

/-- White space as `isspace` sees it in the C locale. -/
def isspace (c : Char) : Bool :=
  c = ' ' || c = '\t' || c = '\n' || c = '\x0b' || c = '\x0c' || c = '\r'

/-- Value of a leading run of decimal digits, given the value read so far. -/
def atoi_digits : List Char → Int → Int
  | [], acc => acc
  | c :: cs, acc => if c.isDigit then atoi_digits cs (acc * 10 + ((c.toNat - 48 : Nat) : Int)) else acc

/-- The libc function `atoi`: skip white space, read an optional sign, read the
leading digits; the `long` result is cut to `int` (wrapping modulo 2^32). -/
def atoi (s : List Char) : Int :=
  match s.dropWhile isspace with
  | '-' :: cs => to_int (to_unsigned (- atoi_digits cs 0))
  | '+' :: cs => to_int (to_unsigned (atoi_digits cs 0))
  | cs => to_int (to_unsigned (atoi_digits cs 0))

/-! ## Messages on the admin bus -/

/-- One typed OSC argument: `i` int32, `f` float, `s` string, `S` symbol; every
other type tag is kept as `other`. -/
inductive lo_arg where
  | i (v : Int)
  | f (v : ℚ)
  | s (v : List Char)
  | S (v : List Char)
  | other (tag : Char)
deriving DecidableEq, Repr

/-- The two allocated resources of an admin, i.e. the targets of the pointers
`&admin->port` and `&admin->ordinal`. -/
inductive resource_ref where
  | port
  | ordinal
deriving DecidableEq, Repr

/-- The functions installed as `on_collision` callback:
`mapper_admin_port_registered` and `mapper_admin_name_registered`. -/
inductive collision_handler where
  | port_registered
  | name_registered
deriving DecidableEq, Repr

/-- Allocated resource (`mapper_admin_allocated_t`).  `on_lock` records whether
the callback pointer is set; the callback itself belongs to the device. -/
structure mapper_admin_allocated_t where
  value : Nat
  collision_count : Int
  count_time : Int
  locked : Bool
  on_lock : Bool
  on_collision : Option collision_handler
deriving DecidableEq, Repr

/-- What the allocator does to the outside: a message sent to the bus address,
or a call of a resource's `on_lock` callback with the resource as it is then. -/
inductive effect where
  | send (path : String) (args : List lo_arg)
  | on_lock (resource : mapper_admin_allocated_t)
deriving DecidableEq, Repr

/-- The admin structure, restricted to the fields the allocator reads or writes. -/
structure mapper_admin_t where
  identifier : List Char
  name : Option (List Char)
  ordinal : mapper_admin_allocated_t
  port : mapper_admin_allocated_t
  registered : Bool
deriving DecidableEq, Repr

/-- Read through a resource pointer. -/
def mapper_admin_t.get (admin : mapper_admin_t) : resource_ref → mapper_admin_allocated_t
  | .port => admin.port
  | .ordinal => admin.ordinal

/-- Write through a resource pointer. -/
def mapper_admin_t.set (admin : mapper_admin_t) (r : resource_ref)
    (v : mapper_admin_allocated_t) : mapper_admin_t :=
  match r with
  | .port => { admin with port := v }
  | .ordinal => { admin with ordinal := v }

/-! ## admin.c -/

/-- Result of `check_collisions`: the returned `int`, the resource afterwards
and the callbacks made. -/
structure check_result where
  ret : Int
  resource : mapper_admin_allocated_t
  out : List effect
deriving DecidableEq, Repr

/-- `check_collisions` (admin.c).  `now` is the clock reading used for
`timediff`, `now2` the one stored in `count_time`, `rnd` the value of `rand()`. -/
def check_collisions (resource : mapper_admin_allocated_t) (now now2 : Int) (rnd : Nat) :
    check_result :=
  if resource.locked then ⟨0, resource, []⟩
  else
    let timediff := now - resource.count_time
    if timediff ≥ 2000000 then
      let locked := { resource with locked := true }
      ⟨0, locked, if resource.on_lock then [effect.on_lock locked] else []⟩
    else if timediff ≥ 500000 ∧ resource.collision_count > 0 then
      ⟨1, { resource with
              value := to_unsigned (resource.value + Int.tmod rnd (resource.collision_count + 1))
              collision_count := -1
              count_time := now2 }, []⟩
    else ⟨0, resource, []⟩

/-- `_real_mapper_admin_name` (admin.c): the cached name, built on first use once
the ordinal is locked; a null result is `none`. -/
def _real_mapper_admin_name (admin : mapper_admin_t) : Option (List Char) × mapper_admin_t :=
  if !admin.ordinal.locked then (none, admin)
  else
    match admin.name with
    | some n => (some n, admin)
    | none =>
      let len := admin.identifier.length + 6
      let n := snprintf len (fmt_name admin.identifier admin.ordinal.value)
      (some n, { admin with name := some n })

/-- `mapper_admin_port_probe` (admin.c). -/
def mapper_admin_port_probe (admin : mapper_admin_t) : List effect :=
  [effect.send "/port/probe" [lo_arg.i (to_int admin.port.value)]]

/-- `mapper_admin_name_probe` (admin.c). -/
def mapper_admin_name_probe (admin : mapper_admin_t) : List effect :=
  [effect.send "/name/probe" [lo_arg.s (snprintf 256 (fmt_name admin.identifier admin.ordinal.value))]]

/-- `mapper_admin_port_registered` (admin.c). -/
def mapper_admin_port_registered (admin : mapper_admin_t) : mapper_admin_t × List effect :=
  if admin.port.locked then
    (admin, [effect.send "/port/registered" [lo_arg.i (to_int admin.port.value)]])
  else (admin, [])

/-- `mapper_admin_name_registered` (admin.c); `mapper_admin_send_osc` is given a
path without `%s` and the single string argument. -/
def mapper_admin_name_registered (admin : mapper_admin_t) : mapper_admin_t × List effect :=
  if admin.ordinal.locked then
    let (name, admin1) := _real_mapper_admin_name admin
    (admin1, [effect.send "/name/registered" [lo_arg.s (name.getD [])]])
  else (admin, [])

/-- Call through an `on_collision` function pointer. -/
def collision_handler.call : collision_handler → mapper_admin_t → mapper_admin_t × List effect
  | .port_registered => mapper_admin_port_registered
  | .name_registered => mapper_admin_name_registered

/-- `on_collision` (admin.c) for the resource `r` of `admin`; `now` is the
clock reading stored in `count_time`. -/
def on_collision (r : resource_ref) (admin : mapper_admin_t) (now : Int) :
    mapper_admin_t × List effect :=
  let called :=
    match (admin.get r).locked, (admin.get r).on_collision with
    | true, some h => h.call admin
    | _, _ => (admin, [])
  let resource := called.1.get r
  (called.1.set r { resource with
      collision_count := resource.collision_count + 1
      count_time := now }, called.2)

/-- A message as a handler receives it: path, typed arguments, the clock reading
the handler gets should it call `get_current_time()`, and `beyond`, the bytes
of the receive buffer that start two positions after the terminator of the
first string argument (read by `handler_device_alloc_name` only when that
string has no `'.'`). -/
structure incoming where
  path : String
  args : List lo_arg
  now : Int
  beyond : List Char
deriving DecidableEq, Repr

/-- Truncation toward zero, as the conversion of a float to an integer type does. -/
def trunc (v : ℚ) : Int := if 0 ≤ v then Int.floor v else Int.ceil v

/-- `handler_device_alloc_port` (admin.c), bound to `/port/probe` and
`/port/registered`. -/
def handler_device_alloc_port (admin : mapper_admin_t) (m : incoming) :
    mapper_admin_t × List effect :=
  match m.args with
  | [] => (admin, [])
  | lo_arg.i v :: _ =>
    if to_unsigned v = admin.port.value then on_collision .port admin m.now else (admin, [])
  | lo_arg.f v :: _ =>
    if to_unsigned (trunc v) = admin.port.value then on_collision .port admin m.now
    else (admin, [])
  | _ :: _ => (admin, [])

/-- The tail of `handler_device_alloc_name` once `probed_name` is known: the
leading `'/'` test, the scan for `'.'`, `atoi`, `strtok(probed_name, ".")`,
`probed_name++` and the comparison with the identifier and the ordinal. -/
def alloc_name_parse (admin : mapper_admin_t) (probed_name : List Char) (m : incoming) :
    mapper_admin_t × List effect :=
  match probed_name with
  | '/' :: rest =>
    let probed_ordinal : Nat :=
      match rest.dropWhile (fun c => c ≠ '.') with
      | _ :: after_dot => to_unsigned (atoi after_dot)
      | [] => to_unsigned (atoi m.beyond)
    let token := rest.takeWhile (fun c => c ≠ '.')
    if token = admin.identifier ∧ probed_ordinal = admin.ordinal.value then
      on_collision .ordinal admin m.now
    else (admin, [])
  | _ => (admin, [])

/-- `handler_device_alloc_name` (admin.c), bound to `/name/probe` and
`/name/registered`. -/
def handler_device_alloc_name (admin : mapper_admin_t) (m : incoming) :
    mapper_admin_t × List effect :=
  match m.args with
  | [] => (admin, [])
  | lo_arg.s probed_name :: _ => alloc_name_parse admin probed_name m
  | lo_arg.S probed_name :: _ => alloc_name_parse admin probed_name m
  | _ :: _ => (admin, [])

/-- Method lookup of the admin server for one received message.  The four
allocation methods are added by `mapper_admin_new`; `mapper_admin_poll` deletes
`/port/registered` and `/name/registered` when it sets `registered`.  The
methods it adds then (the `handlers` table) neither read nor write the
allocator fields and send none of the four allocation paths; they are left
out, so every other path leaves the admin as it is. -/
def dispatch (admin : mapper_admin_t) (m : incoming) : mapper_admin_t × List effect :=
  if m.path = "/port/probe" then handler_device_alloc_port admin m
  else if m.path = "/name/probe" then handler_device_alloc_name admin m
  else if m.path = "/port/registered" then
    if admin.registered then (admin, []) else handler_device_alloc_port admin m
  else if m.path = "/name/registered" then
    if admin.registered then (admin, []) else handler_device_alloc_name admin m
  else (admin, [])

/-- The receive loop of `mapper_admin_poll` on the messages it takes from the
socket, in order. -/
def recv_loop : mapper_admin_t → List incoming → mapper_admin_t × List effect
  | admin, [] => (admin, [])
  | admin, m :: ms =>
    let r := dispatch admin m
    let rest := recv_loop r.1 ms
    (rest.1, r.2 ++ rest.2)

/-- What the environment supplies during one call of `mapper_admin_poll`: the
messages waiting on the socket, the clock readings and the `rand()` values of
the two `check_collisions` calls. -/
structure poll_env where
  inbox : List incoming
  port_now : Int
  port_now2 : Int
  port_rnd : Nat
  ordinal_now : Int
  ordinal_now2 : Int
  ordinal_rnd : Nat
deriving DecidableEq, Repr

/-- Result of one poll: the admin afterwards, what it did, and the messages
still waiting on the socket. -/
structure poll_result where
  admin : mapper_admin_t
  out : List effect
  pending : List incoming
deriving DecidableEq, Repr

/-- The port section of `mapper_admin_poll`. -/
def poll_port (admin : mapper_admin_t) (e : poll_env) : mapper_admin_t × List effect :=
  if !admin.port.locked then
    let c := check_collisions admin.port e.port_now e.port_now2 e.port_rnd
    let admin1 := { admin with port := c.resource }
    if c.ret ≠ 0 then (admin1, c.out ++ mapper_admin_port_probe admin1) else (admin1, c.out)
  else (admin, [])

/-- The ordinal section of `mapper_admin_poll`. -/
def poll_ordinal (admin : mapper_admin_t) (e : poll_env) : mapper_admin_t × List effect :=
  if !admin.ordinal.locked then
    let c := check_collisions admin.ordinal e.ordinal_now e.ordinal_now2 e.ordinal_rnd
    let admin1 := { admin with ordinal := c.resource }
    if c.ret ≠ 0 then (admin1, c.out ++ mapper_admin_name_probe admin1) else (admin1, c.out)
  else (admin, [])

/-- The registration section of `mapper_admin_poll`: building the method paths
calls `mapper_admin_name`, then `registered` is set and `/who` is sent. -/
def poll_register (admin : mapper_admin_t) : mapper_admin_t × List effect :=
  if !admin.registered ∧ admin.port.locked ∧ admin.ordinal.locked then
    let named := (_real_mapper_admin_name admin).2
    ({ named with registered := true }, [effect.send "/who" []])
  else (admin, [])

/-- `mapper_admin_poll` (admin.c): receive at most 10 messages, run the two
collision checks, register once both resources are locked. -/
def mapper_admin_poll (admin : mapper_admin_t) (e : poll_env) : poll_result :=
  let r := recv_loop admin (e.inbox.take 10)
  let p := poll_port r.1 e
  let o := poll_ordinal p.1 e
  let g := poll_register o.1
  ⟨g.1, r.2 ++ p.2 ++ o.2 ++ g.2, e.inbox.drop 10⟩

/-- `mapper_admin_new` (admin.c) when the allocation and both liblo calls
succeed.  `t_ordinal` and `t_port` are the two clock readings; the `on_lock`
fields are not written by the function, so their content is an argument. -/
def mapper_admin_new (identifier : List Char) (initial_port : Int) (t_ordinal t_port : Int)
    (ordinal_on_lock port_on_lock : Bool) : mapper_admin_t × List effect :=
  let admin : mapper_admin_t :=
    { identifier := identifier
      name := none
      ordinal :=
        { value := 1, locked := false, collision_count := -1, count_time := t_ordinal,
          on_lock := ordinal_on_lock, on_collision := some .name_registered }
      port :=
        { value := to_unsigned initial_port, locked := false, collision_count := -1,
          count_time := t_port, on_lock := port_on_lock,
          on_collision := some .port_registered }
      registered := false }
  (admin, mapper_admin_port_probe admin ++ mapper_admin_name_probe admin)

/-! ## A bus of devices

Every device joined to the multicast group receives every message sent to it,
its own included, in the order sent; a message waits in the device's socket
until one of its polls takes it.  In this model of the bus a poll is
instantaneous: all clock readings of one poll are the same `now`.  The
devices are created without `on_lock` callbacks. -/

/-- A message as it travels on the bus. -/
structure osc_message where
  path : String
  args : List lo_arg
deriving DecidableEq, Repr

/-- One device on the bus: its admin and the messages waiting on its socket. -/
structure bus_device where
  admin : mapper_admin_t
  socket : List osc_message
deriving DecidableEq, Repr

/-- The messages among a list of effects. -/
def sent : List effect → List osc_message
  | [] => []
  | effect.send path args :: es => ⟨path, args⟩ :: sent es
  | effect.on_lock _ :: es => sent es

/-- Multicast delivery: the messages are queued on every device's socket. -/
def deliver (b : List bus_device) (ms : List osc_message) : List bus_device :=
  b.map (fun d => { d with socket := d.socket ++ ms })

/-- A waiting message as the handler sees it at time `now`; after the
terminator of its first string the buffer holds padding only. -/
def receive (now : Int) (m : osc_message) : incoming := ⟨m.path, m.args, now, []⟩

/-- What happens on the bus: a device is created (`mapper_admin_new`) or the
device at position `i` runs `mapper_admin_poll`. -/
inductive bus_event where
  | join (identifier : List Char) (initial_port : Int) (now : Int)
  | poll (i : Nat) (now : Int) (port_rnd ordinal_rnd : Nat)
deriving DecidableEq, Repr

/-- The environment of a poll of device `d` at time `now`. -/
def bus_poll_env (d : bus_device) (now : Int) (port_rnd ordinal_rnd : Nat) : poll_env :=
  ⟨d.socket.map (receive now), now, now, port_rnd, now, now, ordinal_rnd⟩

/-- One event on the bus. -/
def bus_step (b : List bus_device) : bus_event → List bus_device
  | .join identifier initial_port now =>
    let made := mapper_admin_new identifier initial_port now now false false
    deliver (b ++ [⟨made.1, []⟩]) (sent made.2)
  | .poll i now port_rnd ordinal_rnd =>
    match b.get? i with
    | none => b
    | some d =>
      let r := mapper_admin_poll d.admin (bus_poll_env d now port_rnd ordinal_rnd)
      deliver (b.set i ⟨r.admin, d.socket.drop 10⟩) (sent r.out)

/-- The bus after a sequence of events, starting with no device. -/
def bus_run (events : List bus_event) : List bus_device := events.foldl bus_step []

/-! ## Reachable states of one admin -/

/-- One step of an admin: a poll, or one message handed to the method lookup. -/
inductive admin_step : mapper_admin_t → mapper_admin_t → Prop where
  | poll (a : mapper_admin_t) (e : poll_env) : admin_step a (mapper_admin_poll a e).admin
  | handler (a : mapper_admin_t) (m : incoming) : admin_step a (dispatch a m).1

/-- States reachable from `a0` by polls and message handlers. -/
inductive admin_reachable (a0 : mapper_admin_t) : mapper_admin_t → Prop where
  | init : admin_reachable a0 a0
  | step {a b : mapper_admin_t} : admin_reachable a0 a → admin_step a b → admin_reachable a0 b

/-- Repeated `check_collisions` on one resource: each call is given its two
clock readings and its `rand()` value; the result is the resource after the
last call and the list of returned values. -/
def check_collisions_seq :
    mapper_admin_allocated_t → List (Int × Int × Nat) → mapper_admin_allocated_t × List Int
  | resource, [] => (resource, [])
  | resource, c :: cs =>
    let r := check_collisions resource c.1 c.2.1 c.2.2
    let rest := check_collisions_seq r.resource cs
    (rest.1, r.ret :: rest.2)

/-- Repeated `on_collision` on the resource `r`, one call per clock reading. -/
def on_collision_seq (r : resource_ref) : mapper_admin_t → List Int → mapper_admin_t
  | admin, [] => admin
  | admin, t :: ts => on_collision_seq r (on_collision r admin t).1 ts

/-- The callback `mapper_admin_new` installs on each resource. -/
def installed_handler : resource_ref → collision_handler
  | .port => .port_registered
  | .ordinal => .name_registered

/-- The announcement a locked resource makes when it meets a collision. -/
def announcement (admin : mapper_admin_t) : resource_ref → effect
  | .port => effect.send "/port/registered" [lo_arg.i (to_int admin.port.value)]
  | .ordinal =>
    effect.send "/name/registered" [lo_arg.s ((_real_mapper_admin_name admin).1.getD [])]

/-! ## db.c: device records -/

/-- Timetag (`mapper_timetag_t`): seconds and fraction. -/
structure mapper_timetag_t where
  sec : Nat
  frac : Nat
deriving DecidableEq, Repr

/-- Event passed to a record callback. -/
inductive mapper_record_event where
  | MAPPER_ADDED
  | MAPPER_MODIFIED
  | MAPPER_REMOVED
  | MAPPER_EXPIRED
deriving DecidableEq, Repr

/-- A device record of the database.  `name`, `id` and `synced` are the fields
`mapper_db_add_or_update_device_params` writes itself; `props` stands for all
the others (host, port, counts, version, the `extra` table, ...), the ones a
message can set. -/
structure mapper_device (α : Type) where
  name : List Char
  id : Nat
  synced : mapper_timetag_t
  props : α

/-- An entry of a callback list (`fptr_list`): the function and its context. -/
structure fptr where
  f : Nat
  context : Nat
deriving DecidableEq, Repr

/-- The database, restricted to the device table, its callbacks and the clock
of its network (`db->network->clock.now`). -/
structure mapper_db (α : Type) where
  devices : List (mapper_device α)
  device_callbacks : List fptr
  clock_now : mapper_timetag_t

/-- One call of a device callback `h(dev, event, context)`. -/
structure device_call (α : Type) where
  cb : fptr
  dev : mapper_device α
  event : mapper_record_event

/-- The parts of the library that `mapper_db_add_or_update_device_params` calls
and that are defined outside db.c: zlib's `crc32`, the content of the other
fields of a newly made record (zeroed by the list allocator, with new `extra`
and `updater` tables), and `mapper_device_set_from_message` of device.c, which
returns how many properties the message `μ` changed. -/
structure device_env (α μ : Type) where
  crc32 : List Char → Nat
  blank : α
  mapper_device_set_from_message : mapper_device α → μ → α × Int

/-- Modelled from the spec: `skip_slash` of mapper_internal.h, which is not
under src/; the name with its leading slash ignored. -/
def skip_slash : List Char → List Char
  | '/' :: rest => rest
  | name => name

/-- Modelled from the spec: `mapper_list_add_item` of list.c, which is not under
src/; the new record is linked into the list, at its head. -/
def mapper_list_add_item {α : Type} (list : List (mapper_device α)) (item : mapper_device α) :
    List (mapper_device α) :=
  item :: list

/-- The list walk of `mapper_db_device_by_name`: position, counted from `i`, of
the first record whose name is `no_slash`. -/
def device_by_name_from {α : Type} (no_slash : List Char) :
    List (mapper_device α) → Nat → Option Nat
  | [], _ => none
  | d :: ds, i => if d.name = no_slash then some i else device_by_name_from no_slash ds (i + 1)

/-- `mapper_db_device_by_name` (db.c); the pointer it returns is the position of
the record in the device list. -/
def mapper_db_device_by_name {α : Type} (db : mapper_db α) (name : List Char) : Option Nat :=
  device_by_name_from (skip_slash name) db.devices 0

/-- The loop over `db->device_callbacks` calling each handler with `event`. -/
def fire_device_callbacks {α : Type} (cbs : List fptr) (dev : mapper_device α)
    (event : mapper_record_event) : List (device_call α) :=
  cbs.map (fun cb => ⟨cb, dev, event⟩)

/-- Result of `mapper_db_add_or_update_device_params`: the database afterwards,
the position of the returned record and the callback calls made, in order. -/
structure add_or_update_result (α : Type) where
  db : mapper_db α
  dev : Option Nat
  calls : List (device_call α)

/-- The second half of `mapper_db_add_or_update_device_params`, for the record
at position `i`: set it from the message, refresh the clock and `synced`, call
the callbacks when the record is new (`rc`) or was changed. -/
def update_device_at {α μ : Type} (env : device_env α μ) (db : mapper_db α) (i : Nat)
    (rc : Bool) (params : μ) (now : mapper_timetag_t) : add_or_update_result α :=
  match db.devices.get? i with
  | none => ⟨db, none, []⟩
  | some dev =>
    let set := env.mapper_device_set_from_message dev params
    let dev1 : mapper_device α := { dev with props := set.1, synced := now }
    let db1 : mapper_db α := { db with devices := db.devices.set i dev1, clock_now := now }
    if rc ∨ set.2 ≠ 0 then
      ⟨db1, some i, fire_device_callbacks db.device_callbacks dev1
        (if rc then .MAPPER_ADDED else .MAPPER_MODIFIED)⟩
    else ⟨db1, some i, []⟩

/-- `mapper_db_add_or_update_device_params` (db.c).  `now` is the time
`mapper_clock_now` reads. -/
def mapper_db_add_or_update_device_params {α μ : Type} (env : device_env α μ)
    (db : mapper_db α) (name : List Char) (params : μ) (now : mapper_timetag_t) :
    add_or_update_result α :=
  let no_slash := skip_slash name
  match mapper_db_device_by_name db no_slash with
  | none =>
    let dev : mapper_device α :=
      { name := no_slash
        id := (env.crc32 no_slash * 4294967296) % 18446744073709551616
        synced := ⟨0, 0⟩
        props := env.blank }
    update_device_at env { db with devices := mapper_list_add_item db.devices dev } 0 true params now
  | some i => update_device_at env db i false params now

/-! ## Predicates used in the proofs -/

/-- The fields of an admin that no message handler writes. -/
def handler_frame (a b : mapper_admin_t) : Prop :=
  b.identifier = a.identifier ∧ b.registered = a.registered ∧
  (∀ r : resource_ref, (b.get r).locked = (a.get r).locked ∧ (b.get r).value = (a.get r).value ∧
    (b.get r).on_lock = (a.get r).on_lock ∧ (b.get r).on_collision = (a.get r).on_collision)

/-- The only messages a handler sends: the announcement of a resource that is locked. -/
def announces_locked (a : mapper_admin_t) (out : List effect) : Prop :=
  ∀ x ∈ out, ((∃ args, x = effect.send "/port/registered" args) ∧ a.port.locked = true) ∨
    ((∃ args, x = effect.send "/name/registered" args) ∧ a.ordinal.locked = true)

/-- What the allocator sections of a poll do to the outside: `on_lock` calls,
probes and `/who`. -/
def poll_effect (x : effect) : Prop :=
  (∃ res, x = effect.on_lock res) ∨ (∃ args, x = effect.send "/port/probe" args) ∨
    (∃ args, x = effect.send "/name/probe" args) ∨ x = effect.send "/who" []

/-- Registration invariant of one admin state. -/
def registered_locked (a : mapper_admin_t) : Prop :=
  a.registered = true → a.port.locked = true ∧ a.ordinal.locked = true

/-- A handler either leaves the ordinal as it is or counts one collision on it. -/
def ordinal_counted (a b : mapper_admin_t) (now : Int) : Prop :=
  b.ordinal = a.ordinal ∨
    b.ordinal = { a.ordinal with
      collision_count := a.ordinal.collision_count + 1, count_time := now }

/-! ## Concrete inputs used by the examples below -/

/-- A device created with `initial_port = -1`, stored as the `unsigned int`
4294967295, whose port probe has met two collisions. -/
def wrap_admin : mapper_admin_t :=
  on_collision_seq .port (mapper_admin_new "d".toList (-1) 0 0 false false).1 [100000, 100000]

/-- A device alone on the bus, just created at time 0 without `on_lock` callbacks. -/
def test_admin : mapper_admin_t := (mapper_admin_new "test".toList 9000 0 0 false false).1

/-- A poll two seconds after time 0 with nothing waiting on the socket. -/
def quiet_poll : poll_env := ⟨[], 2000000, 2000000, 0, 2000000, 2000000, 0⟩

/-- A device alone on the bus after the poll that locks both resources and
registers it. -/
def registered_admin : mapper_admin_t := (mapper_admin_poll test_admin quiet_poll).admin

/-- A device whose identifier contains a dot, just created. -/
def dotted_admin : mapper_admin_t := (mapper_admin_new "a.b".toList 9000 0 0 false false).1

/-- A device with identifier `a` whose ordinal is locked at 1000, before its
name is first built. -/
def thousand_admin : mapper_admin_t :=
  { identifier := "a".toList
    name := none
    ordinal :=
      { value := 1000, locked := true, collision_count := 0, count_time := 0,
        on_lock := false, on_collision := some .name_registered }
    port :=
      { value := 9000, locked := true, collision_count := 0, count_time := 0,
        on_lock := false, on_collision := some .port_registered }
    registered := false }

/-- Device A (identifier `d`, port 9000) is created at time 0, handles its own
probes at 0.1 s and locks at 2.1 s.  Device B (identifier `d`, port 9100) is
created at 3.0 s; its probes reach both sockets.  B handles its own probes at
3.1 s and polls again at 5.1 s; A does not poll in between. -/
def late_answer_trace : List bus_event :=
  [.join "d".toList 9000 0, .poll 0 100000 0 0, .poll 0 2100000 0 0,
   .join "d".toList 9100 3000000, .poll 1 3100000 0 0, .poll 1 5100000 0 0]

/-- A stand-in for the parts outside db.c: messages and properties are numbers,
a message sets the property to its number and reports one change when that
differs from the old one. -/
def count_env : device_env Nat Nat :=
  ⟨fun _ => 0, 0, fun d m => (m, if d.props = m then 0 else 1)⟩

/-- A database holding the device `foo` and two callbacks. -/
def one_device_db : mapper_db Nat :=
  ⟨[⟨"foo".toList, 0, ⟨0, 0⟩, 7⟩], [⟨1, 0⟩, ⟨2, 0⟩], ⟨0, 0⟩⟩

/-- A first announcement of the device `name` with the message 7, received by
`one_device_db` at second 5. -/
def announced_once (name : List Char) : add_or_update_result Nat :=
  mapper_db_add_or_update_device_params count_env one_device_db name 7 ⟨5, 0⟩

/-- The same announcement received again, at second 6, by the database the
first one left. -/
def announced_twice (name : List Char) : add_or_update_result Nat :=
  mapper_db_add_or_update_device_params count_env (announced_once name).db name 7 ⟨6, 0⟩

/-! ## db.c: value comparison for property queries -/

/-- Comparison operators of a property query (`mapper_op`). -/
inductive mapper_op where
  | MAPPER_OP_UNDEFINED
  | MAPPER_OP_DOES_NOT_EXIST
  | MAPPER_OP_EQUAL
  | MAPPER_OP_EXISTS
  | MAPPER_OP_GREATER_THAN
  | MAPPER_OP_GREATER_THAN_OR_EQUAL
  | MAPPER_OP_LESS_THAN
  | MAPPER_OP_LESS_THAN_OR_EQUAL
  | MAPPER_OP_NOT_EQUAL
deriving DecidableEq, Repr

/-- The memory behind a property value, read as the element type it was stored
with: `int`, `float`, `double`, `char`, `uint64_t` or `char*`. -/
inductive value_array where
  | ints (v : List Int)
  | floats (v : List ℚ)
  | doubles (v : List ℚ)
  | chars (v : List Char)
  | times (v : List Nat)
  | strings (v : List (List Char))
deriving DecidableEq, Repr

/-- The libc function `strcmp`: the difference of the first two bytes that
differ, 0 for equal strings. -/
def strcmp : List Char → List Char → Int
  | [], [] => 0
  | [], c :: _ => - (c.toNat : Int)
  | c :: _, [] => (c.toNat : Int)
  | c :: cs, e :: es => if c = e then strcmp cs es else (c.toNat : Int) - (e.toNat : Int)

/-- The element loop of `compare_value` for a numeric type, on the first `length`
elements of both arrays and the running `(compare, difference)`:
`compare += a > b; compare -= a < b; difference += abs(compare)`.  Reading past
the end of an array is not modelled: the loop stops there. -/
def compare_loop {α : Type} (lt : α → α → Bool) :
    Nat → List α → List α → Int × Int → Int × Int
  | 0, _, _, acc => acc
  | n + 1, a :: as, b :: bs, acc =>
    let compare := acc.1 + (if lt b a then 1 else 0) - (if lt a b then 1 else 0)
    compare_loop lt n as bs (compare, acc.2 + |compare|)
  | _ + 1, _, _, acc => acc

/-- The element loop of `compare_value` for a vector of strings:
`compare += strcmp(a, b); difference += abs(compare)`. -/
def compare_strings : Nat → List (List Char) → List (List Char) → Int × Int → Int × Int
  | 0, _, _, acc => acc
  | n + 1, a :: as, b :: bs, acc =>
    let compare := acc.1 + strcmp a b
    compare_strings n as bs (compare, acc.2 + |compare|)
  | _ + 1, _, _, acc => acc

/-- The first `switch` of `compare_value`: the pair `(compare, difference)` for
the type tag, or `none` for the `default` case.  The two values are read as the
type the tag names; values stored with another type are not modelled and give
`(0, 0)`. -/
def compare_accumulate (length : Nat) (type : Char) (val1 val2 : value_array) :
    Option (Int × Int) :=
  if type = 's' then
    match val1, val2 with
    | .strings a, .strings b =>
      if length = 1 then some (strcmp (a.headD []) (b.headD []), 0)
      else some (compare_strings length a b (0, 0))
    | _, _ => some (0, 0)
  else if type = 'i' then
    match val1, val2 with
    | .ints a, .ints b => some (compare_loop (fun x y => decide (x < y)) length a b (0, 0))
    | _, _ => some (0, 0)
  else if type = 'f' then
    match val1, val2 with
    | .floats a, .floats b => some (compare_loop (fun x y => decide (x < y)) length a b (0, 0))
    | _, _ => some (0, 0)
  else if type = 'd' then
    match val1, val2 with
    | .doubles a, .doubles b => some (compare_loop (fun x y => decide (x < y)) length a b (0, 0))
    | _, _ => some (0, 0)
  else if type = 'c' ∨ type = 'h' then
    match val1, val2 with
    | .chars a, .chars b => some (compare_loop (fun x y => decide (x < y)) length a b (0, 0))
    | _, _ => some (0, 0)
  else if type = 't' then
    match val1, val2 with
    | .times a, .times b => some (compare_loop (fun x y => decide (x < y)) length a b (0, 0))
    | _, _ => some (0, 0)
  else none

/-- `compare_value` (db.c): the C truth value, 1 or 0. -/
def compare_value (op : mapper_op) (length : Nat) (type : Char) (val1 val2 : value_array) :
    Int :=
  match compare_accumulate length type val1 val2 with
  | none => 0
  | some (compare, difference) =>
    match op with
    | .MAPPER_OP_EQUAL => if compare = 0 ∧ difference = 0 then 1 else 0
    | .MAPPER_OP_GREATER_THAN => if compare > 0 then 1 else 0
    | .MAPPER_OP_GREATER_THAN_OR_EQUAL => if compare ≥ 0 then 1 else 0
    | .MAPPER_OP_LESS_THAN => if compare < 0 then 1 else 0
    | .MAPPER_OP_LESS_THAN_OR_EQUAL => if compare ≤ 0 then 1 else 0
    | .MAPPER_OP_NOT_EQUAL => if compare ≠ 0 ∨ difference ≠ 0 then 1 else 0
    | _ => 0

/-- The sum over `i` of `sign(a[i] - b[i])`. -/
def sign_sum : List Int → List Int → Int
  | a :: as, b :: bs => Int.sign (a - b) + sign_sum as bs
  | _, _ => 0

/-! ## db.c: the database with its signal, map and subscription tables

Records live at heap addresses (`ptr`); a pointer field holds the address of
the record it points to and is followed by looking the address up in the
table.  The device table, its callbacks and the clock are the `mapper_db` of
the section on device records, with `device_props` for the fields that section
leaves open. -/

/-- The fields of a device record beside `name`, `id` and `synced`: its address,
whether `dev->local` is set, and the signal counters. -/
structure device_props where
  ptr : Nat
  is_local : Bool
  num_inputs : Int
  num_outputs : Int
deriving DecidableEq, Repr

deriving instance DecidableEq for mapper_device
deriving instance DecidableEq for mapper_db
deriving instance DecidableEq for device_call
deriving instance DecidableEq for add_or_update_result

/-- A signal record: its address, the device it points to, its name (the path
without the leading slash), whether `sig->local` is set, and the two bits of
`direction`. -/
structure mapper_signal_t where
  ptr : Nat
  device : Nat
  name : List Char
  is_local : Bool
  incoming : Bool
  outgoing : Bool
deriving DecidableEq, Repr

/-- A slot of a map: the signal it points to and its slot id. -/
structure mapper_slot_t where
  signal : Nat
  id : Int
deriving DecidableEq, Repr

/-- A map record: its address, its id, whether `map->local` is set, the
`sources` array (`num_sources` is its length) and the destination slot. -/
structure mapper_map_t where
  ptr : Nat
  id : Nat
  is_local : Bool
  sources : List mapper_slot_t
  destination : mapper_slot_t
deriving DecidableEq, Repr

/-- An autorenewing subscription (`struct _mapper_subscription`). -/
structure mapper_subscription where
  device : Nat
  flags : Nat
  lease_expiration_sec : Nat
deriving DecidableEq, Repr

/-- The database (`mapper_db_t`) with the clock field `next_ping` of its network
and `heap_next`, the address the next allocation returns. -/
structure mapper_db_t where
  base : mapper_db device_props
  signals : List mapper_signal_t
  maps : List mapper_map_t
  signal_callbacks : List fptr
  map_callbacks : List fptr
  autosubscribe : Nat
  subscriptions : List mapper_subscription
  timeout_sec : Int
  next_ping : Nat
  heap_next : Nat
deriving DecidableEq

/-- What the database does to the outside, in order: a record callback called
with the record as it is then, a message handed to the network for sending,
or a call of `mapper_network_poll`. -/
inductive db_effect where
  | device_cb (cb : fptr) (dev : mapper_device device_props) (event : mapper_record_event)
  | signal_cb (cb : fptr) (sig : mapper_signal_t) (event : mapper_record_event)
  | map_cb (cb : fptr) (map : mapper_map_t) (event : mapper_record_event)
  | send (path : List Char) (args : List lo_arg)
  | network_poll
deriving DecidableEq

/-- The record a device pointer points to, if it is in the device table. -/
def device_at (db : mapper_db_t) (p : Nat) : Option (mapper_device device_props) :=
  db.base.devices.find? (fun d => d.props.ptr = p)

/-- The record a signal pointer points to, if it is in the signal table. -/
def signal_at (db : mapper_db_t) (p : Nat) : Option mapper_signal_t :=
  db.signals.find? (fun s => s.ptr = p)

/-- The value of `sig->device->id`. -/
def signal_device_id (db : mapper_db_t) (sig : mapper_signal_t) : Option Nat :=
  (device_at db sig.device).map (fun d => d.id)

/-- The value of `slot->signal->device->id`. -/
def slot_device_id (db : mapper_db_t) (slot : mapper_slot_t) : Option Nat :=
  (signal_at db slot.signal).bind (signal_device_id db)

/-- The parts of the library outside db.c that the functions below use: the
address of the database's own device callback `on_device_autosubscribe`, the
bit masks `SUBSCRIBE_*` of mapper_constants.h, and `mapper_network_poll` of
network.c, which handles the received messages and returns their number.  Its
message handlers work on the database (the `/logout` handler calls
`mapper_db_remove_device`, the `/sync` handler makes new subscriptions), so a
call gives the database afterwards, the number of messages, and what the
handlers did to the outside, in order. -/
structure db_env where
  on_device_autosubscribe : Nat
  SUBSCRIBE_ALL : Nat
  SUBSCRIBE_DEVICE : Nat
  SUBSCRIBE_DEVICE_SIGNALS : Nat
  SUBSCRIBE_DEVICE_INPUTS : Nat
  SUBSCRIBE_DEVICE_OUTPUTS : Nat
  SUBSCRIBE_DEVICE_MAPS : Nat
  SUBSCRIBE_DEVICE_MAPS_IN : Nat
  SUBSCRIBE_DEVICE_MAPS_OUT : Nat
  mapper_network_poll : mapper_db_t → mapper_db_t × Int × List db_effect

/-! ### Subscriptions -/

/-- The flag words of a `/subscribe` message, as `subscribe_internal` adds them. -/
def subscribe_flag_args (env : db_env) (flags : Nat) : List lo_arg :=
  if flags &&& env.SUBSCRIBE_ALL ≠ 0 then [lo_arg.s "all".toList]
  else
    (if flags &&& env.SUBSCRIBE_DEVICE ≠ 0 then [lo_arg.s "device".toList] else []) ++
    (if flags &&& env.SUBSCRIBE_DEVICE_SIGNALS ≠ 0 then [lo_arg.s "signals".toList]
      else if flags &&& env.SUBSCRIBE_DEVICE_INPUTS ≠ 0 then [lo_arg.s "inputs".toList]
      else if flags &&& env.SUBSCRIBE_DEVICE_OUTPUTS ≠ 0 then [lo_arg.s "outputs".toList]
      else []) ++
    (if flags &&& env.SUBSCRIBE_DEVICE_MAPS ≠ 0 then [lo_arg.s "maps".toList]
      else if flags &&& env.SUBSCRIBE_DEVICE_MAPS_IN ≠ 0 then [lo_arg.s "incoming_maps".toList]
      else if flags &&& env.SUBSCRIBE_DEVICE_MAPS_OUT ≠ 0 then [lo_arg.s "outgoing_maps".toList]
      else [])

/-- `subscribe_internal` (db.c) for the device record `dev`, when the message can
be allocated: the message `/<name>/subscribe` handed to the network. -/
def subscribe_internal (env : db_env) (dev : mapper_device device_props) (flags : Nat)
    (timeout version : Int) : List db_effect :=
  [db_effect.send (snprintf 1024 ('/' :: (dev.name ++ "/subscribe".toList)))
    (subscribe_flag_args env flags ++ [lo_arg.s "@lease".toList, lo_arg.i timeout] ++
      (if version ≥ 0 then [lo_arg.s "@version".toList, lo_arg.i version] else []))]

/-- The list walk of `unsubscribe_internal`: the first record of the device is
unlinked; with `send_message` the message `/<name>/unsubscribe` is sent first. -/
def unsubscribe_walk (dev : mapper_device device_props) (send_message : Bool) :
    List mapper_subscription → List mapper_subscription × List db_effect
  | [] => ([], [])
  | s :: rest =>
    if s.device = dev.props.ptr then
      (rest, if send_message then
        [db_effect.send (snprintf 1024 ('/' :: (dev.name ++ "/unsubscribe".toList))) []] else [])
    else
      let r := unsubscribe_walk dev send_message rest
      (s :: r.1, r.2)

/-- `unsubscribe_internal` (db.c). -/
def unsubscribe_internal (db : mapper_db_t) (dev : mapper_device device_props)
    (send_message : Bool) : mapper_db_t × List db_effect :=
  let r := unsubscribe_walk dev send_message db.subscriptions
  ({ db with subscriptions := r.1 }, r.2)

/-- The list walk of `subscription`: position, counted from `i`, of the first
record whose device pointer is `p`. -/
def subscription_from (p : Nat) : List mapper_subscription → Nat → Option Nat
  | [], _ => none
  | s :: rest, i => if s.device = p then some i else subscription_from p rest (i + 1)

/-- `subscription` (db.c); the pointer it returns is the position of the record
in the subscription list. -/
def subscription (db : mapper_db_t) (dev : mapper_device device_props) : Option Nat :=
  subscription_from dev.props.ptr db.subscriptions 0

/-- The writes `s->flags = flags; s->lease_expiration_sec = lease` through the
pointer to the record at position `i`. -/
def write_subscription (flags lease : Nat) : Nat → List mapper_subscription →
    List mapper_subscription
  | _, [] => []
  | 0, s :: rest => { s with flags := flags, lease_expiration_sec := lease } :: rest
  | i + 1, s :: rest => s :: write_subscription flags lease i rest

/-- `AUTOSUBSCRIBE_INTERVAL` (db.c). -/
def AUTOSUBSCRIBE_INTERVAL : Nat := 60

/-- The lease stored by an autorenewing subscription:
`now.sec + AUTOSUBSCRIBE_INTERVAL - 10` in `uint32_t`. -/
def renewed_lease (now : mapper_timetag_t) : Nat :=
  (now.sec + AUTOSUBSCRIBE_INTERVAL - 10) % 4294967296

/-- `mapper_db_subscribe` (db.c) for a non-null `dev`; `now` is the time
`mapper_clock_now` reads when `timeout` is -1. -/
def mapper_db_subscribe (env : db_env) (db : mapper_db_t) (dev : mapper_device device_props)
    (flags : Nat) (timeout : Int) (now : mapper_timetag_t) : mapper_db_t × List db_effect :=
  if timeout = -1 then
    let subs : List mapper_subscription :=
      match subscription db dev with
      | some i => write_subscription flags (renewed_lease now) i db.subscriptions
      | none =>
        write_subscription flags (renewed_lease now) 0 (⟨dev.props.ptr, 0, 0⟩ :: db.subscriptions)
    ({ db with subscriptions := subs, base := { db.base with clock_now := now } },
      subscribe_internal env dev flags AUTOSUBSCRIBE_INTERVAL 0)
  else (db, subscribe_internal env dev flags timeout 0)

/-- `mapper_db_unsubscribe` (db.c) for a non-null `dev`. -/
def mapper_db_unsubscribe (db : mapper_db_t) (dev : mapper_device device_props) :
    mapper_db_t × List db_effect :=
  unsubscribe_internal db dev true

/-! ### Removing records -/

/-- The loop over `db->map_callbacks`. -/
def fire_map_callbacks (cbs : List fptr) (map : mapper_map_t) (event : mapper_record_event) :
    List db_effect :=
  cbs.map (fun cb => db_effect.map_cb cb map event)

/-- The loop over `db->signal_callbacks`. -/
def fire_signal_callbacks (cbs : List fptr) (sig : mapper_signal_t)
    (event : mapper_record_event) : List db_effect :=
  cbs.map (fun cb => db_effect.signal_cb cb sig event)

/-- `mapper_db_remove_map` (db.c) for a non-null map: the record at the map's
address is unlinked and the map callbacks are called with `MAPPER_REMOVED`. -/
def mapper_db_remove_map (db : mapper_db_t) (map : mapper_map_t) : mapper_db_t × List db_effect :=
  ({ db with maps := db.maps.filter (fun m => m.ptr ≠ map.ptr) },
    fire_map_callbacks db.map_callbacks map .MAPPER_REMOVED)

/-- `mapper_db_remove_maps_by_query` (db.c) over the maps the query yields. -/
def mapper_db_remove_maps_by_query :
    mapper_db_t → List mapper_map_t → mapper_db_t × List db_effect
  | db, [] => (db, [])
  | db, map :: maps =>
    if !map.is_local then
      let r := mapper_db_remove_map db map
      let rest := mapper_db_remove_maps_by_query r.1 maps
      (rest.1, r.2 ++ rest.2)
    else mapper_db_remove_maps_by_query db maps

/-- `cmp_query_device_maps` (db.c) with `direction` 0: some source slot or the
destination slot has a signal of a device with this id. -/
def cmp_query_device_maps (db : mapper_db_t) (dev_id : Nat) (map : mapper_map_t) : Bool :=
  map.sources.any (fun slot => slot_device_id db slot = some dev_id) ||
    slot_device_id db map.destination = some dev_id

/-- Modelled from the spec: the query cursor of list.c, which is not under
src/.  `mapper_db_device_maps(db, dev, 0)`: the maps of the table that
`cmp_query_device_maps` accepts, in table order. -/
def mapper_db_device_maps (db : mapper_db_t) (dev : mapper_device device_props) :
    List mapper_map_t :=
  db.maps.filter (cmp_query_device_maps db dev.id)

/-- `cmp_query_signal_maps` (db.c) with `direction` 0: some source slot or the
destination slot points to the signal. -/
def cmp_query_signal_maps (sig : mapper_signal_t) (map : mapper_map_t) : Bool :=
  map.sources.any (fun slot => slot.signal = sig.ptr) || map.destination.signal = sig.ptr

/-- Modelled from the spec: the query cursor of list.c, which is not under
src/.  `mapper_db_signal_maps(db, sig, 0)`. -/
def mapper_db_signal_maps (db : mapper_db_t) (sig : mapper_signal_t) : List mapper_map_t :=
  db.maps.filter (cmp_query_signal_maps sig)

/-- The writes `sig->device->num_inputs--` and `sig->device->num_outputs--` of
`mapper_db_remove_signal`, on the device record the signal points to. -/
def count_down (sig : mapper_signal_t) (d : mapper_device device_props) :
    mapper_device device_props :=
  if d.props.ptr = sig.device then
    { d with props :=
      { d.props with
        num_inputs := if sig.incoming then d.props.num_inputs - 1 else d.props.num_inputs
        num_outputs := if sig.outgoing then d.props.num_outputs - 1 else d.props.num_outputs } }
  else d

/-- `mapper_db_remove_signal` (db.c). -/
def mapper_db_remove_signal (db : mapper_db_t) (sig : mapper_signal_t) :
    mapper_db_t × List db_effect :=
  let r := mapper_db_remove_maps_by_query db (mapper_db_signal_maps db sig)
  let db1 : mapper_db_t := { r.1 with signals := r.1.signals.filter (fun s => s.ptr ≠ sig.ptr) }
  let calls := fire_signal_callbacks db1.signal_callbacks sig .MAPPER_REMOVED
  ({ db1 with base := { db1.base with devices := db1.base.devices.map (count_down sig) } },
    r.2 ++ calls)

/-- `mapper_db_remove_signals_by_query` (db.c) over the signals the query yields. -/
def mapper_db_remove_signals_by_query :
    mapper_db_t → List mapper_signal_t → mapper_db_t × List db_effect
  | db, [] => (db, [])
  | db, sig :: sigs =>
    if !sig.is_local then
      let r := mapper_db_remove_signal db sig
      let rest := mapper_db_remove_signals_by_query r.1 sigs
      (rest.1, r.2 ++ rest.2)
    else mapper_db_remove_signals_by_query db sigs

/-- `cmp_query_device_signals` (db.c) with `direction` `MAPPER_DIR_ANY`. -/
def cmp_query_device_signals (db : mapper_db_t) (dev_id : Nat) (sig : mapper_signal_t) : Bool :=
  signal_device_id db sig = some dev_id

/-- Modelled from the spec: the query cursor of list.c, which is not under
src/.  `mapper_db_device_signals(db, dev, MAPPER_DIR_ANY)` for a device with a
name. -/
def mapper_db_device_signals (db : mapper_db_t) (dev : mapper_device device_props) :
    List mapper_signal_t :=
  db.signals.filter (cmp_query_device_signals db dev.id)

/-- The loop of `mapper_db_remove_device` over `db->device_callbacks`: each
handler is called with `MAPPER_REMOVED`; the database's own handler
`on_device_autosubscribe` then runs `unsubscribe_internal(db, dev, 0)`. -/
def fire_device_removed (env : db_env) (dev : mapper_device device_props) :
    mapper_db_t → List fptr → mapper_db_t × List db_effect
  | db, [] => (db, [])
  | db, cb :: cbs =>
    let call := db_effect.device_cb cb dev .MAPPER_REMOVED
    let r := if cb.f = env.on_device_autosubscribe then unsubscribe_internal db dev false
      else (db, [])
    let rest := fire_device_removed env dev r.1 cbs
    (rest.1, call :: r.2 ++ rest.2)

/-- `mapper_db_remove_device` (db.c) for a non-null `dev`; the callbacks see the
record as it is when they are called. -/
def mapper_db_remove_device (env : db_env) (db : mapper_db_t)
    (dev : mapper_device device_props) (quiet : Bool) : mapper_db_t × List db_effect :=
  let m := mapper_db_remove_maps_by_query db (mapper_db_device_maps db dev)
  let s := mapper_db_remove_signals_by_query m.1 (mapper_db_device_signals m.1 dev)
  let db1 : mapper_db_t :=
    { s.1 with base :=
      { s.1.base with devices := s.1.base.devices.filter (fun d => d.props.ptr ≠ dev.props.ptr) } }
  if !quiet then
    let c := fire_device_removed env ((device_at s.1 dev.props.ptr).getD dev) db1
      db1.base.device_callbacks
    (c.1, m.2 ++ s.2 ++ c.2)
  else (db1, m.2 ++ s.2)

/-! ### Expiry -/

/-- The test `dev->synced.sec && (dev->synced.sec < last_ping)`. -/
def device_expired (last_ping : Nat) (dev : mapper_device device_props) : Bool :=
  dev.synced.sec ≠ 0 && dev.synced.sec < last_ping

/-- `mapper_db_expired_device` (db.c): the first expired record. -/
def mapper_db_expired_device (db : mapper_db_t) (last_ping : Nat) :
    Option (mapper_device device_props) :=
  db.base.devices.find? (device_expired last_ping)

/-- The inner loop of `mapper_db_flush`: every subscription record of the device
is unlinked, without a message. -/
def drop_subscriptions (p : Nat) : List mapper_subscription → List mapper_subscription
  | [] => []
  | s :: rest => if s.device = p then drop_subscriptions p rest else s :: drop_subscriptions p rest

/-- The outer loop of `mapper_db_flush`, run for at most `fuel` rounds; `none`
when the rounds run out before `mapper_db_expired_device` returns null. -/
def flush_loop (env : db_env) (last_ping : Nat) (quiet : Bool) :
    Nat → mapper_db_t → Option (mapper_db_t × List db_effect)
  | 0, _ => none
  | fuel + 1, db =>
    match mapper_db_expired_device db last_ping with
    | none => some (db, [])
    | some dev =>
      let db1 : mapper_db_t :=
        { db with subscriptions := drop_subscriptions dev.props.ptr db.subscriptions }
      let r := mapper_db_remove_device env db1 dev quiet
      match flush_loop env last_ping quiet fuel r.1 with
      | none => none
      | some rest => some (rest.1, r.2 ++ rest.2)

/-- `mapper_db_flush` (db.c); `now` is the time `mapper_clock_now` reads, and
`last_ping = now.sec - timeout_sec` is computed in `uint32_t`.  Every round
removes a device, so one round more than there are devices is enough. -/
def mapper_db_flush (env : db_env) (db : mapper_db_t) (timeout_sec : Int) (quiet : Bool)
    (now : mapper_timetag_t) : Option (mapper_db_t × List db_effect) :=
  let db0 : mapper_db_t := { db with base := { db.base with clock_now := now } }
  flush_loop env (to_unsigned ((now.sec : Int) - timeout_sec)) quiet
    (db0.base.devices.length + 1) db0

/-- `mapper_db_check_device_status` (db.c): `MAPPER_EXPIRED` is passed to every
device callback for every expired record, in table order;
`time_sec -= db->timeout_sec` is computed in `uint32_t`. -/
def mapper_db_check_device_status (db : mapper_db_t) (time_sec : Nat) : List db_effect :=
  (db.base.devices.filter (device_expired (to_unsigned ((time_sec : Int) - db.timeout_sec)))).flatMap
    (fun dev => db.base.device_callbacks.map (fun cb => db_effect.device_cb cb dev .MAPPER_EXPIRED))

/-- The renewal loop of `mapper_db_update` over the subscription list: a record
whose lease is older than `now.sec` is renewed with `subscribe_internal(db,
s->device, s->flags, AUTOSUBSCRIBE_INTERVAL, -1)` and gets a new lease.  A
record whose device pointer points to no record of the table would make the C
code read freed memory; no message is recorded for it. -/
def renew_subscriptions (env : db_env) (db : mapper_db_t) (now : mapper_timetag_t) :
    List mapper_subscription → List mapper_subscription × List db_effect
  | [] => ([], [])
  | s :: rest =>
    let r := renew_subscriptions env db now rest
    if s.lease_expiration_sec < now.sec then
      let sent := match device_at db s.device with
        | some dev => subscribe_internal env dev s.flags AUTOSUBSCRIBE_INTERVAL (-1)
        | none => []
      ({ s with lease_expiration_sec := renewed_lease now } :: r.1, sent ++ r.2)
    else (s :: r.1, r.2)

/-- The `block_ms` loop of `mapper_db_update`: `n` more calls of
`mapper_network_poll`, each with what its handlers do. -/
def block_polls (env : db_env) : Nat → mapper_db_t → mapper_db_t × Int × List db_effect
  | 0, db => (db, 0, [])
  | n + 1, db =>
    let p := env.mapper_network_poll db
    let rest := block_polls env n p.1
    (rest.1, p.2.1 + rest.2.1, db_effect.network_poll :: p.2.2 ++ rest.2.2)

/-- Result of `mapper_db_update`: the database, the returned count and what was
done. -/
structure update_result where
  db : mapper_db_t
  count : Int
  out : List db_effect

/-- The first part of `mapper_db_update`: the network poll with what its
handlers do, the clock reading and the renewal loop; the database, the count
of the poll and what was done. -/
def update_renew (env : db_env) (db : mapper_db_t) (now : mapper_timetag_t) :
    mapper_db_t × Int × List db_effect :=
  let p := env.mapper_network_poll db
  let db1 : mapper_db_t := { p.1 with base := { p.1.base with clock_now := now } }
  let r := renew_subscriptions env db1 now db1.subscriptions
  ({ db1 with subscriptions := r.1 }, p.2.1, db_effect.network_poll :: p.2.2 ++ r.2)

/-- The `if (block_ms)` part of `mapper_db_update`. -/
def update_block (env : db_env) (block_ms : Int) (rounds : Nat) (db : mapper_db_t) :
    mapper_db_t × Int × List db_effect :=
  if block_ms ≠ 0 then block_polls env rounds db else (db, 0, [])

/-- The housekeeping of `mapper_db_update`, done when `next_ping` is no longer
the `ping_time` read at the start. -/
def update_status (ping_time : Nat) (db : mapper_db_t) : List db_effect :=
  if ping_time ≠ db.next_ping then mapper_db_check_device_status db db.base.clock_now.sec
  else []

/-- `mapper_db_update` (db.c).  `now` is the time `mapper_clock_now` reads;
`rounds` is the number of times the `block_ms` loop runs, which the wall clock
decides (the loop is not entered when `block_ms` is 0). -/
def mapper_db_update (env : db_env) (db : mapper_db_t) (block_ms : Int)
    (now : mapper_timetag_t) (rounds : Nat) : update_result :=
  let a := update_renew env db now
  let b := update_block env block_ms rounds a.1
  ⟨b.1, a.2.1 + b.2.1, a.2.2 ++ b.2.2 ++ update_status db.next_ping b.1⟩

/-- Stand-ins for the parts outside db.c: flag masks with a bit of its own for
`SUBSCRIBE_ALL`, and a network poll that receives nothing and moves
`next_ping` on. -/
def sub_env : db_env :=
  { on_device_autosubscribe := 1000
    SUBSCRIBE_ALL := 128
    SUBSCRIBE_DEVICE := 1
    SUBSCRIBE_DEVICE_SIGNALS := 6
    SUBSCRIBE_DEVICE_INPUTS := 2
    SUBSCRIBE_DEVICE_OUTPUTS := 4
    SUBSCRIBE_DEVICE_MAPS := 24
    SUBSCRIBE_DEVICE_MAPS_IN := 8
    SUBSCRIBE_DEVICE_MAPS_OUT := 16
    mapper_network_poll := fun db => ({ db with next_ping := db.next_ping + 1 }, 0, []) }

/-- The device record `foo` at address 7. -/
def sub_dev : mapper_device device_props :=
  { name := "foo".toList, id := 70, synced := ⟨990, 0⟩,
    props := { ptr := 7, is_local := false, num_inputs := 0, num_outputs := 0 } }

/-- The device record `bar` at address 9, last heard of at second 80. -/
def old_dev : mapper_device device_props :=
  { name := "bar".toList, id := 90, synced := ⟨80, 0⟩,
    props := { ptr := 9, is_local := false, num_inputs := 0, num_outputs := 0 } }

/-- A database holding `foo` and `bar`, one device callback and an autorenewing
subscription to `bar`. -/
def sub_db : mapper_db_t :=
  { base := { devices := [sub_dev, old_dev], device_callbacks := [⟨1, 0⟩], clock_now := ⟨0, 0⟩ }
    signals := []
    maps := []
    signal_callbacks := []
    map_callbacks := []
    autosubscribe := 0
    subscriptions := [⟨9, 1, 20⟩]
    timeout_sec := 10
    next_ping := 0
    heap_next := 10 }

/-- As `sub_env`, with a network poll that receives the `/logout` of `bar`: its
handler calls `mapper_db_remove_device` for the record named `bar`, if there
is one. -/
def logout_env : db_env :=
  { sub_env with
    mapper_network_poll := fun db =>
      match db.base.devices.find? (fun d => d.name = "bar".toList) with
      | some dev =>
        let r := mapper_db_remove_device sub_env { db with next_ping := db.next_ping + 1 } dev false
        (r.1, 1, r.2)
      | none => ({ db with next_ping := db.next_ping + 1 }, 0, []) }

/-- The database `sub_db` with the database's own callback
`on_device_autosubscribe` registered before the callback of the user. -/
def logout_db : mapper_db_t :=
  { sub_db with base := { sub_db.base with device_callbacks := [⟨1000, 0⟩, ⟨1, 0⟩] } }

/-- As `sub_env`, with a network poll in which nothing arrives and no ping is
due: `next_ping` stays. -/
def quiet_env : db_env :=
  { sub_env with mapper_network_poll := fun db => (db, 0, []) }

/-- The database `sub_db` with a record of `bar` that was never synced. -/
def never_synced_db : mapper_db_t :=
  { sub_db with
    base := { sub_db.base with devices := [sub_dev, { old_dev with synced := ⟨0, 0⟩ }] } }

/-- The fields of a device record that removing a signal does not write: the
address, the name, the id, `synced` and `local`. -/
def device_key (d : mapper_device device_props) :
    Nat × List Char × Nat × mapper_timetag_t × Bool :=
  (d.props.ptr, d.name, d.id, d.synced, d.props.is_local)

/-- The device record `baz` at address 5, never heard of (`synced.sec` is 0). -/
def unsynced_dev : mapper_device device_props :=
  { name := "baz".toList, id := 50, synced := ⟨0, 0⟩,
    props := { ptr := 5, is_local := false, num_inputs := 0, num_outputs := 0 } }

/-- A database holding `baz` and `bar`, with a subscription to each. -/
def unsynced_db : mapper_db_t :=
  { sub_db with
    base := { devices := [unsynced_dev, old_dev], device_callbacks := [⟨1, 0⟩],
              clock_now := ⟨0, 0⟩ }
    subscriptions := [⟨5, 1, 2000⟩, ⟨9, 1, 2000⟩] }

/-- The local device record `me` at address 3, with one output. -/
def local_dev : mapper_device device_props :=
  { name := "me".toList, id := 30, synced := ⟨0, 0⟩,
    props := { ptr := 3, is_local := true, num_inputs := 0, num_outputs := 1 } }

/-- The device record `bar` with one input. -/
def peer_dev : mapper_device device_props :=
  { old_dev with props := { old_dev.props with num_inputs := 1 } }

/-- The local output `me/out` at address 4. -/
def local_sig : mapper_signal_t :=
  { ptr := 4, device := 3, name := "out".toList, is_local := true, incoming := false,
    outgoing := true }

/-- The input `bar/in` at address 6. -/
def peer_sig : mapper_signal_t :=
  { ptr := 6, device := 9, name := "in".toList, is_local := false, incoming := true,
    outgoing := false }

/-- A database holding `me` and `bar`, their signals, and no map. -/
def local_db : mapper_db_t :=
  { sub_db with
    base := { devices := [local_dev, peer_dev], device_callbacks := [⟨1, 0⟩],
              clock_now := ⟨0, 0⟩ }
    signals := [local_sig, peer_sig]
    signal_callbacks := [⟨2, 0⟩]
    subscriptions := [] }

/-! ### Signal and map records built from messages -/

/-- `MAX_NUM_MAP_SOURCES` (types_internal.h). -/
def MAX_NUM_MAP_SOURCES : Nat := 8

/-- The parts of the library that `mapper_db_add_or_update_signal_params` and
`mapper_db_add_or_update_map_params` call and that are defined outside db.c,
for messages of type `μ`: what the device records need (see `device_env`);
`mapper_parse_names`, which returns the length of the device name, the text
at the pointer to the device name and the signal name;
`mapper_message_param_if_int64` for `AT_ID`, `none` when it reports that the
parameter is missing; and `mapper_signal_set_from_message` and
`mapper_map_set_from_message`, which return the record and how many properties
the message changed. -/
structure map_env (μ : Type) where
  devices : device_env device_props (Option μ)
  mapper_parse_names : List Char → Nat × List Char × List Char
  mapper_message_param_if_int64 : μ → Option Nat
  mapper_signal_set_from_message : mapper_signal_t → Option μ → mapper_signal_t × Int
  mapper_map_set_from_message : mapper_map_t → Option μ → mapper_map_t × Int

/-- `mapper_db_device_signal_by_name` (db.c) for a non-null device pointer. -/
def mapper_db_device_signal_by_name (db : mapper_db_t) (dev : Nat) (sig_name : List Char) :
    Option mapper_signal_t :=
  db.signals.find? (fun s => s.device = dev && s.name = skip_slash sig_name)

/-- The callback calls of the device table as calls of the database. -/
def device_effects (calls : List (device_call device_props)) : List db_effect :=
  calls.map (fun c => db_effect.device_cb c.cb c.dev c.event)

/-- The record at a signal's address replaced by `sig`. -/
def write_signal (db : mapper_db_t) (sig : mapper_signal_t) : mapper_db_t :=
  { db with signals := db.signals.map (fun s => if s.ptr = sig.ptr then sig else s) }

/-- The record at a map's address replaced by `map`. -/
def write_map (db : mapper_db_t) (map : mapper_map_t) : mapper_db_t :=
  { db with maps := db.maps.map (fun m => if m.ptr = map.ptr then map else m) }

/-- The second half of `mapper_db_add_or_update_signal_params`: set the record
from the message and call the signal callbacks when the record is new (`rc`)
or was changed. -/
def update_signal {μ : Type} (env : map_env μ) (db : mapper_db_t) (sig : mapper_signal_t)
    (rc : Bool) (msg : Option μ) : mapper_db_t × Nat × List db_effect :=
  let set := env.mapper_signal_set_from_message sig msg
  let sig1 : mapper_signal_t := { set.1 with ptr := sig.ptr }
  (write_signal db sig1, sig.ptr,
    if rc ∨ set.2 ≠ 0 then
      db.signal_callbacks.map (fun cb => db_effect.signal_cb cb sig1
        (if rc then .MAPPER_ADDED else .MAPPER_MODIFIED))
    else [])

/-- Modelled from the spec: `mapper_signal_init` of signal.c, which is not under
src/, on the zeroed record the list allocator returns: the name is stored
without its leading slash. -/
def mapper_signal_init (ptr dev : Nat) (name : List Char) : mapper_signal_t :=
  { ptr := ptr, device := dev, name := skip_slash name, is_local := false, incoming := false,
    outgoing := false }

/-- `mapper_db_add_or_update_signal_params` (db.c): the database afterwards, the
pointer returned and the callback calls.  `now` is the time read by
`mapper_db_add_or_update_device_params` when the device is new. -/
def mapper_db_add_or_update_signal_params {μ : Type} (env : map_env μ) (db : mapper_db_t)
    (name device_name : List Char) (msg : Option μ) (now : mapper_timetag_t) :
    mapper_db_t × Nat × List db_effect :=
  match (mapper_db_device_by_name db.base device_name).bind (fun i => db.base.devices.get? i) with
  | some dev =>
    match mapper_db_device_signal_by_name db dev.props.ptr name with
    | some sig => if sig.is_local then (db, sig.ptr, []) else update_signal env db sig false msg
    | none =>
      let sig := mapper_signal_init db.heap_next dev.props.ptr name
      update_signal env { db with signals := sig :: db.signals, heap_next := db.heap_next + 1 }
        sig true msg
  | none =>
    let r := mapper_db_add_or_update_device_params
      { env.devices with blank := { env.devices.blank with ptr := db.heap_next } }
      db.base device_name none now
    let sig := mapper_signal_init (db.heap_next + 1) db.heap_next name
    let u := update_signal env
      { db with base := r.db, signals := sig :: db.signals, heap_next := db.heap_next + 2 }
      sig true msg
    (u.1, u.2.1, device_effects r.calls ++ u.2.2)

/-- `mapper_db_map_by_id` (db.c). -/
def mapper_db_map_by_id (db : mapper_db_t) (id : Nat) : Option mapper_map_t :=
  db.maps.find? (fun m => m.id = id)

/-- The call of `mapper_parse_names` with the test that follows it and the copy
into `devname`: the device name and the signal name, `none` when the length
is 0 or does not fit. -/
def parse_device_name {μ : Type} (env : map_env μ) (full : List Char) :
    Option (Nat × List Char × List Char) :=
  let p := env.mapper_parse_names full
  if p.1 = 0 ∨ p.1 ≥ 256 then none else some (p.1, p.2.1.take p.1, p.2.2)

/-- The loop over `src_names` of the branch that makes a new map, from index
`i`: the database, the slots made (`none` when a name cannot be parsed) and
the callback calls. -/
def create_sources {μ : Type} (env : map_env μ) (now : mapper_timetag_t) :
    mapper_db_t → List (List Char) → Nat → mapper_db_t × Option (List mapper_slot_t) × List db_effect
  | db, [], _ => (db, some [], [])
  | db, n :: ns, i =>
    match parse_device_name env n with
    | none => (db, none, [])
    | some (_, devname, signame) =>
      let r := mapper_db_add_or_update_signal_params env db signame devname none now
      let rest := create_sources env now r.1 ns (i + 1)
      (rest.1, rest.2.1.map (fun l => (⟨r.2.1, (i : Int)⟩ : mapper_slot_t) :: l), r.2.2 ++ rest.2.2)

/-- The names `slot->signal->device->name` and `slot->signal->name`. -/
def slot_names (db : mapper_db_t) (slot : mapper_slot_t) : Option (List Char × List Char) :=
  (signal_at db slot.signal).bind (fun sig =>
    (device_at db sig.device).map (fun dev => (dev.name, sig.name)))

/-- The inner loop of the branch that adds sources: the first index `j` whose
slot has these names, counted from `j`. -/
def find_source (db : mapper_db_t) (devnamelen : Nat) (devname signame : List Char) :
    List mapper_slot_t → Nat → Option Nat
  | [], _ => none
  | s :: rest, j =>
    match slot_names db s with
    | some (dn, sn) =>
      if dn.length = devnamelen ∧ strcmp devname dn = 0 ∧ strcmp signame sn = 0 then some j
      else find_source db devnamelen devname signame rest (j + 1)
    | none => find_source db devnamelen devname signame rest (j + 1)

/-- The loop over `src_names` of the branch that adds sources to the map's
`sources` array, from index `i`: the database, the array, whether every name
was parsed, and the callback calls. -/
def add_sources {μ : Type} (env : map_env μ) (now : mapper_timetag_t) :
    mapper_db_t → List mapper_slot_t → List (List Char) → Nat →
      mapper_db_t × List mapper_slot_t × Bool × List db_effect
  | db, srcs, [], _ => (db, srcs, true, [])
  | db, srcs, n :: ns, i =>
    match parse_device_name env n with
    | none => (db, srcs, false, [])
    | some (devnamelen, devname, signame) =>
      match find_source db devnamelen devname signame srcs 0 with
      | some j =>
        add_sources env now db
          (srcs.modify (fun s => { s with id := (i : Int) }) j) ns (i + 1)
      | none =>
        let r := mapper_db_add_or_update_signal_params env db signame devname none now
        let rest := add_sources env now r.1 (srcs ++ [⟨r.2.1, (i : Int)⟩]) ns (i + 1)
        (rest.1, rest.2.1, rest.2.2.1, r.2.2 ++ rest.2.2.2)

/-- `compare_slot_names` (db.c): device names first, then signal names. -/
def compare_slot_names (db : mapper_db_t) (l r : mapper_slot_t) : Int :=
  let ln := (slot_names db l).getD ([], [])
  let rn := (slot_names db r).getD ([], [])
  if strcmp ln.1 rn.1 = 0 then strcmp ln.2 rn.2 else strcmp ln.1 rn.1

/-- Modelled from the spec: `qsort` of the C library with `compare_slot_names`,
as an insertion sort. -/
def qsort_slots (db : mapper_db_t) : List mapper_slot_t → List mapper_slot_t
  | [] => []
  | s :: rest => List.orderedInsert (fun l r => compare_slot_names db l r ≤ 0) s (qsort_slots db rest)

/-- The end of `mapper_db_add_or_update_map_params` for the record `map`: set it
from the message and call the map callbacks when the record is new (`rc`) or
was changed. -/
def update_map {μ : Type} (env : map_env μ) (db : mapper_db_t) (map : mapper_map_t)
    (rc : Bool) (params : Option μ) : mapper_db_t × List db_effect :=
  let set := env.mapper_map_set_from_message map params
  let map1 : mapper_map_t := { set.1 with ptr := map.ptr }
  (write_map db map1,
    if rc ∨ set.2 ≠ 0 then
      db.map_callbacks.map (fun cb => db_effect.map_cb cb map1
        (if rc then .MAPPER_ADDED else .MAPPER_MODIFIED))
    else [])

/-- Result of `mapper_db_add_or_update_map_params`: the database afterwards, the
pointer returned (`none` for null) and the callback calls. -/
structure map_result where
  db : mapper_db_t
  map : Option Nat
  out : List db_effect
deriving DecidableEq

/-- `mapper_db_add_or_update_map_params` (db.c); `num_sources` is the length of
`src_names`, and `now` is what the clock reads during the call. -/
def mapper_db_add_or_update_map_params {μ : Type} (env : map_env μ) (db : mapper_db_t)
    (src_names : List (List Char)) (dest_name : List Char) (params : Option μ)
    (now : mapper_timetag_t) : map_result :=
  if src_names.length ≥ MAX_NUM_MAP_SOURCES then ⟨db, none, []⟩
  else
    match (match params with
      | some p => env.mapper_message_param_if_int64 p
      | none => some 0) with
    | none => ⟨db, none, []⟩
    | some id =>
      match mapper_db_map_by_id db id with
      | none =>
        let map0 : mapper_map_t :=
          { ptr := db.heap_next, id := 0, is_local := false, sources := [],
            destination := ⟨0, 0⟩ }
        let db0 : mapper_db_t :=
          { db with maps := map0 :: db.maps, heap_next := db.heap_next + 1 }
        let s := create_sources env now db0 src_names 0
        match s.2.1 with
        | none =>
          ⟨{ s.1 with maps := s.1.maps.filter (fun m => m.ptr ≠ map0.ptr) }, none, s.2.2⟩
        | some sources =>
          match parse_device_name env dest_name with
          | none =>
            ⟨{ s.1 with maps := s.1.maps.filter (fun m => m.ptr ≠ map0.ptr) }, none, s.2.2⟩
          | some (_, devname, signame) =>
            let d := mapper_db_add_or_update_signal_params env s.1 signame devname none now
            let map1 : mapper_map_t :=
              { map0 with sources := sources, destination := ⟨d.2.1, 0⟩ }
            let u := update_map env (write_map d.1 map1) map1 true params
            ⟨u.1, some map0.ptr, s.2.2 ++ d.2.2 ++ u.2⟩
      | some map =>
        if map.sources.length < src_names.length then
          let a := add_sources env now db map.sources src_names 0
          if a.2.2.1 then
            let map1 : mapper_map_t := { map with sources := qsort_slots a.1 a.2.1 }
            let u := update_map env (write_map a.1 map1) map1 false params
            ⟨u.1, some map.ptr, a.2.2.2 ++ u.2⟩
          else ⟨write_map a.1 { map with sources := a.2.1 }, none, a.2.2.2⟩
        else
          let u := update_map env db map false params
          ⟨u.1, some map.ptr, u.2⟩

/-- A stand-in for `mapper_parse_names`: the device name is the text between
the leading slash and the next one, the signal name what follows it. -/
def parse_names_sample (full : List Char) : Nat × List Char × List Char :=
  (((skip_slash full).takeWhile (fun c => c ≠ '/')).length, skip_slash full,
    ((skip_slash full).dropWhile (fun c => c ≠ '/')).drop 1)

/-- Stand-ins for the parts outside db.c, for messages that carry just the
`@id`: records are set from nothing but that id. -/
def sample_map_env : map_env Nat :=
  { devices :=
      { crc32 := fun name => name.length
        blank := ⟨0, false, 0, 0⟩
        mapper_device_set_from_message := fun dev _ => (dev.props, 0) }
    mapper_parse_names := parse_names_sample
    mapper_message_param_if_int64 := fun p => some p
    mapper_signal_set_from_message := fun sig _ => (sig, 0)
    mapper_map_set_from_message := fun map p =>
      ({ map with id := p.getD map.id }, if p.getD map.id = map.id then 0 else 1) }

/-- A database with no record and one map callback. -/
def empty_db : mapper_db_t :=
  { base := { devices := [], device_callbacks := [], clock_now := ⟨0, 0⟩ }
    signals := []
    maps := []
    signal_callbacks := []
    map_callbacks := [⟨3, 0⟩]
    autosubscribe := 0
    subscriptions := []
    timeout_sec := 10
    next_ping := 0
    heap_next := 1 }

/-- Eight source names `/a.1/s0` ... `/a.1/s7`. -/
def eight_sources : List (List Char) :=
  (List.range 8).map (fun i => "/a.1/s".toList ++ Nat.toDigits 10 i)

/-- The result of making map 5 from the sources `/b.1/x`, `/a.1/y`, in that
order, in the empty database. -/
def two_source_map : map_result :=
  mapper_db_add_or_update_map_params sample_map_env empty_db
    ["/b.1/x".toList, "/a.1/y".toList] "/c.1/in".toList (some 5) ⟨100, 0⟩

/-- The result of then naming a third source, `/a.1/a`, for map 5. -/
def three_source_map : map_result :=
  mapper_db_add_or_update_map_params sample_map_env two_source_map.db
    ["/b.1/x".toList, "/a.1/y".toList, "/a.1/a".toList] "/c.1/in".toList (some 5) ⟨100, 0⟩

/-! ## Links and connections (admin.c)

The handlers of `/link`, `/link_to`, `/unlink`, `/connect`, `/connect_to`,
`/connection/modify`, `/disconnect` and of the four announcements.  A handler
gets the admin with its device and the typed arguments of the message
(`types[j]` is the tag of `argv[j]`, `argc` their number); where the C code
does something the language leaves undefined the model returns the `fault`. -/

/-- What the handlers can do that C leaves undefined. -/
inductive fault where
  /-- The null pointer `mapper_admin_name` returns before the ordinal is locked, given to `strcmp`. -/
  | null_name
  /-- A read of `argv[j]`, or of `types[j]` behind its terminator, with `j ≥ argc`. -/
  | read_past_end (j : Nat)
  /-- A read of a local variable that was never written. -/
  | uninitialised
  /-- A `strcpy` of 1024 bytes or more into a buffer of 1024. -/
  | overflow
  /-- A read through the null `minimum` or `maximum` pointer of a signal. -/
  | null_value
deriving DecidableEq, Repr

deriving instance DecidableEq for Except

/-- The type tag of an argument. -/
def lo_arg.tag : lo_arg → Char
  | .i _ => 'i'
  | .f _ => 'f'
  | .s _ => 's'
  | .S _ => 'S'
  | .other t => t

/-- Whether `types[j]` is `'s'` or `'S'`. -/
def lo_arg.is_string : lo_arg → Bool
  | .s _ => true
  | .S _ => true
  | _ => false

/-- `types[j]`: the tag of argument `j`, the terminator at `j = argc`. -/
def type_at (args : List lo_arg) (j : Nat) : Except fault Char :=
  match args.get? j with
  | some a => .ok a.tag
  | none => if j = args.length then .ok (Char.ofNat 0) else .error (.read_past_end j)

/-- `argv[j]`. -/
def arg_at (args : List lo_arg) (j : Nat) : Except fault lo_arg :=
  match args.get? j with
  | some a => .ok a
  | none => .error (.read_past_end j)

/-- `&argv[j]->s` for an argument: its text for a string or symbol, and for
any other argument `raw`, the bytes found there read as a C string. -/
def arg_s (raw : lo_arg → List Char) : lo_arg → List Char
  | .s v => v
  | .S v => v
  | a => raw a

/-- `strcpy(buf, s); strtok(buf, "/")` on a buffer of 1024 bytes, read back
from the start of the buffer: leading slashes stay, the first slash after
the token is overwritten by the terminator; without a token nothing is cut. -/
def strtok_slash (s : List Char) : List Char :=
  if s.dropWhile (fun c => c = '/') = [] then s
  else s.takeWhile (fun c => c = '/') ++
    (s.dropWhile (fun c => c = '/')).takeWhile (fun c => c ≠ '/')

/-- The scaling modes of a mapping (`m->type`); `other` is any value beside
the four the handlers name. -/
inductive mapper_scaling_type where
  | BYPASS
  | LINEAR
  | EXPRESSION
  | CALIBRATE
  | other (v : Nat)
deriving DecidableEq, Repr

/-- The clipping modes (`mapper_clipping_type`). -/
inductive mapper_clipping_type where
  | CT_NONE
  | CT_MUTE
  | CT_CLAMP
  | CT_FOLD
  | CT_WRAP
deriving DecidableEq, Repr

/-- The expression tree `get_expr_Tree` builds (the expression parser is not
under src/), known by a number. -/
structure Tree where
  id : Nat
deriving DecidableEq, Repr

/-- The `range` of a mapping; the `float` values are rationals. -/
structure mapper_mapping_range where
  src_min : ℚ
  src_max : ℚ
  dest_min : ℚ
  dest_max : ℚ
deriving DecidableEq, Repr

/-- A mapping of a router (`struct _mapper_mapping`): the name of the target
signal and the transformation. -/
structure _mapper_mapping where
  name : List Char
  type : mapper_scaling_type
  range : mapper_mapping_range
  expression : List Char
  expr_tree : Tree
  clip_lower : mapper_clipping_type
  clip_upper : mapper_clipping_type
deriving DecidableEq, Repr

/-- The mappings of one signal in a router (`struct _mapper_signal_mapping`);
`signal` is the address of the signal. -/
structure _mapper_signal_mapping where
  signal : Nat
  mapping : List _mapper_mapping
deriving DecidableEq, Repr

/-- A router (`struct _mapper_router`). -/
structure _mapper_router where
  target_name : List Char
  host : List Char
  port : Int
  mappings : List _mapper_signal_mapping
deriving DecidableEq, Repr

/-- A signal of the device (`struct _mapper_signal`): its address, name and
type, and what `minimum` and `maximum` point to, `none` for a null pointer. -/
structure _mapper_signal where
  ptr : Nat
  name : List Char
  type : Char
  minimum : Option ℚ
  maximum : Option ℚ
deriving DecidableEq, Repr

/-- The device of an admin (`struct _mapper_device`), restricted to its
signals and routers. -/
structure _mapper_device where
  inputs : List _mapper_signal
  outputs : List _mapper_signal
  routers : List _mapper_router
  num_routers : Int
deriving DecidableEq, Repr

/-- The admin with the device it points to (`admin->device`). -/
structure admin_device where
  admin : mapper_admin_t
  device : _mapper_device
deriving DecidableEq, Repr

/-- The tagged arguments that follow the typed ones in a call of
`mapper_admin_send_osc`. -/
inductive msg_param where
  | AT_IP (v : List Char)
  | AT_PORT (v : Int)
  | AT_CANALIAS (v : Int)
  | AT_TYPE (v : Char)
  | AT_MIN (v : ℚ)
  | AT_MAX (v : ℚ)
  | AT_SCALING (v : List Char)
  | AT_RANGE (src_min src_max dest_min dest_max : ℚ)
  | AT_EXPRESSION (v : List Char)
  | AT_CLIPMIN (v : List Char)
  | AT_CLIPMAX (v : List Char)
deriving DecidableEq, Repr

/-- The parts of the library the handlers use and that are not in admin.c, for
parsed parameters of type `μ`: the bytes at a non-string argument read as a C
string (`raw`) and those at a non-float argument read as a float (`raw_f`),
`inet_ntoa(admin->interface_ip)`, the message arguments
`mapper_msg_prepare_varargs` adds for one tagged parameter and
`mapper_msg_prepare_params` for parsed ones,
`mapper_msg_parse_params` (`none` when it reports an error),
`mapper_msg_get_param_if_string` and `mapper_msg_get_param_if_int` for `AT_IP`
and `AT_PORT`, the expression parser `get_expr_Tree` (`none` when it returns
0), and for each target name the mapping records that
`mapper_router_add_direct_mapping`, `mapper_router_add_blank_mapping` and
`mapper_router_add_linear_range_mapping` make. -/
structure link_env (μ : Type) where
  raw : lo_arg → List Char
  raw_f : lo_arg → ℚ
  interface_ip : List Char
  mapper_msg_prepare_varargs : msg_param → List lo_arg
  mapper_msg_prepare_params : μ → List lo_arg
  mapper_msg_parse_params : List lo_arg → Option μ
  get_param_AT_IP : μ → Option (List Char)
  get_param_AT_PORT : μ → Option Int
  get_expr_Tree : List Char → Option Tree
  direct_mapping : List Char → _mapper_mapping
  blank_mapping : List Char → _mapper_mapping
  linear_range_mapping : List Char → ℚ → ℚ → ℚ → ℚ → _mapper_mapping

/-- The test every handler of two names starts with: `argc < 2`, or neither
`types[0]` nor `types[1]` is `'s'` or `'S'` (the four tests are joined by
`&&`). -/
def two_names_rejected (args : List lo_arg) : Bool :=
  match args with
  | a0 :: a1 :: _ => !a0.is_string && !a1.is_string
  | _ => true

/-- `mapper_admin_name(admin)` handed to `strcmp`. -/
def admin_name (a : admin_device) : Except fault (List Char × admin_device) :=
  match _real_mapper_admin_name a.admin with
  | (some n, admin1) => .ok (n, { a with admin := admin1 })
  | (none, _) => .error .null_name

/-- `mapper_admin_send_osc` with the typed arguments `args` and the tagged
ones `params`, for a path without `%s`; the call builds the cached name. -/
def mapper_admin_send_osc {μ : Type} (env : link_env μ) (a : admin_device) (path : String)
    (args : List lo_arg) (params : List msg_param) : admin_device × List effect :=
  ({ a with admin := (_real_mapper_admin_name a.admin).2 },
    [effect.send path (args ++ params.flatMap env.mapper_msg_prepare_varargs)])

/-- `handler_device_link` (admin.c). -/
def handler_device_link {μ : Type} (env : link_env μ) (a : admin_device) (args : List lo_arg) :
    Except fault (admin_device × List effect) :=
  if two_names_rejected args then .ok (a, [])
  else
    match args with
    | a0 :: a1 :: _ =>
      match admin_name a with
      | .error e => .error e
      | .ok (name, a1s) =>
        if strcmp name (arg_s env.raw a1) = 0 then
          .ok (mapper_admin_send_osc env a1s "/link_to"
            [lo_arg.s (arg_s env.raw a0), lo_arg.s (arg_s env.raw a1)]
            [.AT_IP env.interface_ip, .AT_PORT (to_int a.admin.port.value), .AT_CANALIAS 0])
        else .ok (a1s, [])
    | _ => .ok (a, [])

/-- Modelled from the spec: `mapper_router_new` of router.c, which is not under
src/; a router to the target without mappings. -/
def mapper_router_new (host : List Char) (port : Int) (target_name : List Char) :
    _mapper_router :=
  { target_name := target_name, host := host, port := port, mappings := [] }

/-- Modelled from the spec: `mdev_add_router` of device.c, which is not under
src/; the router is linked into the list, at its head. -/
def mdev_add_router (md : _mapper_device) (router : _mapper_router) : _mapper_device :=
  { md with routers := router :: md.routers }

/-- Modelled from the spec: `mdev_remove_router` of device.c, which is not under
src/; the router at position `i` of the list is unlinked. -/
def mdev_remove_router (md : _mapper_device) (i : Nat) : _mapper_device :=
  { md with routers := md.routers.eraseIdx i }

/-- The list walk `while (router) { if (strcmp(router->target_name, name) == 0)
break; router = router->next; }`: the position of the router found. -/
def find_router (name : List Char) : List _mapper_router → Nat → Option Nat
  | [], _ => none
  | r :: rest, i => if strcmp r.target_name name = 0 then some i else find_router name rest (i + 1)

/-- `handler_device_link_to` (admin.c). -/
def handler_device_link_to {μ : Type} (env : link_env μ) (a : admin_device)
    (args : List lo_arg) : Except fault (admin_device × List effect) :=
  if two_names_rejected args then .ok (a, [])
  else
    match args with
    | a0 :: a1 :: rest =>
      match admin_name a with
      | .error e => .error e
      | .ok (name, a1s) =>
        if strcmp (arg_s env.raw a0) name ≠ 0 then .ok (a1s, [])
        else
          match find_router (arg_s env.raw a1) a.device.routers 0 with
          | some _ => .ok (a1s, [])
          | none =>
            match env.mapper_msg_parse_params rest with
            | none => .ok (a1s, [])
            | some params =>
              match env.get_param_AT_IP params with
              | none => .ok (a1s, [])
              | some host =>
                match env.get_param_AT_PORT params with
                | none => .ok (a1s, [])
                | some port =>
                  let md := mdev_add_router a.device
                    (mapper_router_new host port (arg_s env.raw a1))
                  .ok (mapper_admin_send_osc env
                    { a1s with device := { md with num_routers := md.num_routers + 1 } }
                    "/linked" [lo_arg.s name, lo_arg.s (arg_s env.raw a1)] [])
    | _ => .ok (a, [])

/-- `handler_device_linked` (admin.c): the message is traced, and the body ends
with `//TO DO: record link in database`. -/
def handler_device_linked {μ : Type} (_env : link_env μ) (a : admin_device)
    (_args : List lo_arg) : Except fault (admin_device × List effect) :=
  .ok (a, [])

/-- `handler_device_unlink` (admin.c). -/
def handler_device_unlink {μ : Type} (env : link_env μ) (a : admin_device)
    (args : List lo_arg) : Except fault (admin_device × List effect) :=
  if two_names_rejected args then .ok (a, [])
  else
    match args with
    | a0 :: a1 :: _ =>
      match admin_name a with
      | .error e => .error e
      | .ok (name, a1s) =>
        if strcmp name (arg_s env.raw a0) = 0 then
          match find_router (arg_s env.raw a1) a.device.routers 0 with
          | some i =>
            let md := mdev_remove_router a.device i
            .ok (mapper_admin_send_osc env
              { a1s with device := { md with num_routers := md.num_routers - 1 } }
              "/unlinked" [lo_arg.s name, lo_arg.s (arg_s env.raw a1)] [])
          | none => .ok (a1s, [])
        else .ok (a1s, [])
    | _ => .ok (a, [])

/-- `handler_device_unlinked` (admin.c): the message is traced, and the body
ends with `//TO DO: remove link from database`. -/
def handler_device_unlinked {μ : Type} (_env : link_env μ) (a : admin_device)
    (_args : List lo_arg) : Except fault (admin_device × List effect) :=
  .ok (a, [])

/-- `argv[j]->f`. -/
def arg_f {μ : Type} (env : link_env μ) : lo_arg → ℚ
  | .f v => v
  | a => env.raw_f a

/-- `argv[j]->c`: the first byte of the argument. -/
def arg_c {μ : Type} (env : link_env μ) (a : lo_arg) : Char :=
  (arg_s env.raw a).headD (Char.ofNat 0)

/-- The four `if`s on the value of `@scaling`. -/
def set_scaling (m : _mapper_mapping) (v : List Char) : _mapper_mapping :=
  let m1 := if strcmp v "bypass".toList = 0 then { m with type := .BYPASS } else m
  let m2 := if strcmp v "linear".toList = 0 then { m1 with type := .LINEAR } else m1
  let m3 := if strcmp v "expression".toList = 0 then { m2 with type := .EXPRESSION } else m2
  if strcmp v "calibrate".toList = 0 then { m3 with type := .CALIBRATE } else m3

/-- One value of `@range`: `if (types[k] == 'i') x = (float) argv[k]->i; else if
(types[k] == 'f') x = argv[k]->f;` for the argument at `k`, `none` standing
for the terminator of `types`. -/
def range_value (old : ℚ) : Option lo_arg → ℚ
  | some (.i v) => (v : ℚ)
  | some (.f v) => v
  | _ => old

/-- The four values of `@range` written into the mapping. -/
def set_range (m : _mapper_mapping) (v1 v2 v3 v4 : Option lo_arg) : _mapper_mapping :=
  { m with range :=
    { src_min := range_value m.range.src_min v1
      src_max := range_value m.range.src_max v2
      dest_min := range_value m.range.dest_min v3
      dest_max := range_value m.range.dest_max v4 } }

/-- The `@expression` branch: the value is copied into `received_expr[1024]` and
parsed; the expression and its tree are replaced when the parser succeeds. -/
def set_expression {μ : Type} (env : link_env μ) (m : _mapper_mapping) (v : List Char) :
    Except fault _mapper_mapping :=
  if v.length ≥ 1024 then .error .overflow
  else
    match env.get_expr_Tree v with
    | some T => .ok { m with expression := v, expr_tree := T }
    | none => .ok m

/-- The chain of `strcmp`s on the value of `@clipMin` or `@clipMax`, on the local
`clip` (`none` while it was never written). -/
def read_clip (clip : Option mapper_clipping_type) (v : List Char) :
    Option mapper_clipping_type :=
  if strcmp v "none".toList = 0 then some .CT_NONE
  else if strcmp v "mute".toList = 0 then some .CT_MUTE
  else if strcmp v "clamp".toList = 0 then some .CT_CLAMP
  else if strcmp v "fold".toList = 0 then some .CT_FOLD
  else if strcmp v "wrap".toList = 0 then some .CT_WRAP
  else clip

/-- The `@clipMin` / `@clipMax` branch: `clip` is set from the value and stored
in `clip_lower` for `@clipMin`, in `clip_upper` otherwise. -/
def set_clip (m : _mapper_mapping) (clip : Option mapper_clipping_type) (key v : List Char) :
    Except fault (_mapper_mapping × Option mapper_clipping_type) :=
  match read_clip clip v with
  | none => .error .uninitialised
  | some c =>
    if strcmp key "@clipMin".toList = 0 then .ok ({ m with clip_lower := c }, some c)
    else .ok ({ m with clip_upper := c }, some c)

/-- One round of the property loop of `handler_param_connection_modify` at
position `j`, where `a` is `argv[j]` and `rest` the arguments behind it: the
mapping and the local `clip` afterwards, and by how much `j` grows. -/
def modify_step {μ : Type} (env : link_env μ) (a : lo_arg) (rest : List lo_arg) (j : Nat)
    (st : _mapper_mapping × Option mapper_clipping_type) :
    Except fault ((_mapper_mapping × Option mapper_clipping_type) × Nat) :=
  if !a.is_string then .ok (st, 1)
  else if strcmp (arg_s env.raw a) "@scaling".toList = 0 then
    match rest with
    | [] => .error (.read_past_end (j + 1))
    | v :: _ => .ok ((set_scaling st.1 (arg_s env.raw v), st.2), 2)
  else if strcmp (arg_s env.raw a) "@range".toList = 0 then
    match rest with
    | v1 :: v2 :: v3 :: v4 :: _ =>
      .ok ((set_range st.1 (some v1) (some v2) (some v3) (some v4), st.2), 5)
    | [v1, v2, v3] => .ok ((set_range st.1 (some v1) (some v2) (some v3) none, st.2), 5)
    | [_, _] => .error (.read_past_end (j + 4))
    | [_] => .error (.read_past_end (j + 3))
    | [] => .error (.read_past_end (j + 2))
  else if strcmp (arg_s env.raw a) "@expression".toList = 0 then
    match rest with
    | [] => .error (.read_past_end (j + 1))
    | v :: _ =>
      match set_expression env st.1 (arg_s env.raw v) with
      | .error e => .error e
      | .ok m => .ok ((m, st.2), 2)
  else if strcmp (arg_s env.raw a) "@clipMin".toList = 0 ∨
      strcmp (arg_s env.raw a) "@clipMax".toList = 0 then
    match rest with
    | [] => .error (.read_past_end (j + 1))
    | v :: _ =>
      match set_clip st.1 st.2 (arg_s env.raw a) (arg_s env.raw v) with
      | .error e => .error e
      | .ok st1 => .ok (st1, 2)
  else .ok (st, 1)

/-- The property loop of `handler_param_connection_modify`, `while (j < argc)`,
for at most `n` rounds on the arguments from position `j` on.  Every round
moves `j` on, so as many rounds as there are arguments left end the loop. -/
def modify_loop {μ : Type} (env : link_env μ) :
    Nat → List lo_arg → Nat → _mapper_mapping × Option mapper_clipping_type →
      Except fault (_mapper_mapping × Option mapper_clipping_type)
  | 0, _, _, st => .ok st
  | _ + 1, [], _, st => .ok st
  | n + 1, a :: rest, j, st =>
    match modify_step env a rest j st with
    | .error e => .error e
    | .ok r => modify_loop env n ((a :: rest).drop r.2) (j + r.2) r.1

/-- The property loop of `handler_param_connection_modify` on the arguments
from position `j` on, the mapping `m` and the local `clip`. -/
def modify_props {μ : Type} (env : link_env μ) (args : List lo_arg) (j : Nat)
    (st : _mapper_mapping × Option mapper_clipping_type) :
    Except fault (_mapper_mapping × Option mapper_clipping_type) :=
  modify_loop env args.length args j st

/-- The list walk `while (sm && sm->signal != sig) sm = sm->next;`: the
position of the entry found. -/
def find_signal_mapping (sig : Nat) : List _mapper_signal_mapping → Nat → Option Nat
  | [], _ => none
  | sm :: rest, i => if sm.signal ≠ sig then find_signal_mapping sig rest (i + 1) else some i

/-- The list walk `while (m && strcmp(m->name, name) != 0) m = m->next;`: the
position of the mapping found. -/
def find_mapping (name : List Char) : List _mapper_mapping → Nat → Option Nat
  | [], _ => none
  | m :: rest, i => if strcmp m.name name ≠ 0 then find_mapping name rest (i + 1) else some i

/-- The loop `while (i < n && f1 == 0)` over the signals of the device as far
as it searches: the first signal with this name. -/
def find_signal (name : List Char) : List _mapper_signal → Option _mapper_signal
  | [] => none
  | s :: rest => if strcmp s.name name = 0 then some s else find_signal name rest

/-- The names a handler of two signal names cuts out of its first two
arguments with `strcpy`, `strtok` and `strlen`. -/
structure signal_names where
  src_device_name : List Char
  src_param_name : List Char
  target_device_name : List Char
  target_param_name : List Char
deriving DecidableEq, Repr

/-- The device name cut out of an argument. -/
def device_part (s : List Char) : List Char := strtok_slash s

/-- The text behind the device name: `&argv[k]->s + strlen(device_name)`. -/
def param_part (s : List Char) : List Char := s.drop (strtok_slash s).length

/-- The place of a mapping in the routers of a device: the positions of the
router, of the signal's entry and of the mapping. -/
structure mapping_ref where
  router : Nat
  entry : Nat
  index : Nat
deriving DecidableEq, Repr

/-- The searches of `handler_param_connection_modify` and
`handler_param_disconnect` once the source signal is found: the router to the
target device, the entry of the signal in it and the mapping to the target
signal. -/
def find_connection (md : _mapper_device) (sig : _mapper_signal)
    (target_device_name target_param_name : List Char) : Option mapping_ref :=
  match find_router target_device_name md.routers 0 with
  | none => none
  | some ri =>
    match md.routers.get? ri with
    | none => none
    | some router =>
      match find_signal_mapping sig.ptr router.mappings 0 with
      | none => none
      | some si =>
        match router.mappings.get? si with
        | none => none
        | some sm =>
          match find_mapping target_param_name sm.mapping 0 with
          | none => none
          | some mi => some ⟨ri, si, mi⟩

/-- The mapping at a place. -/
def mapping_at (md : _mapper_device) (r : mapping_ref) : Option _mapper_mapping :=
  (md.routers.get? r.router).bind (fun router =>
    (router.mappings.get? r.entry).bind (fun sm => sm.mapping.get? r.index))

/-- The writes through the pointer `m`: the mapping at the place replaced. -/
def write_mapping (md : _mapper_device) (r : mapping_ref) (m : _mapper_mapping) :
    _mapper_device :=
  { md with routers := md.routers.modify (fun router =>
      { router with mappings := (router.mappings.modify (fun sm =>
          { sm with mapping := sm.mapping.set r.index m }) r.entry) }) r.router }

/-- The `switch (m->type)` that fills `mapping_type`; the buffer is left
unwritten for any other value. -/
def mapping_type_text : mapper_scaling_type → Except fault (List Char)
  | .EXPRESSION => .ok "expression".toList
  | .LINEAR => .ok "linear".toList
  | .BYPASS => .ok "bypass".toList
  | .CALIBRATE => .ok "calibrate".toList
  | .other _ => .error .uninitialised

/-- The test `handler_param_connection_modify` starts with: `argc < 4`, or one
of the first three arguments is not a string. -/
def modify_rejected (args : List lo_arg) : Bool :=
  match args with
  | a0 :: a1 :: a2 :: _ :: _ => !a0.is_string || !a1.is_string || !a2.is_string
  | _ => true

/-- `handler_param_connection_modify` (admin.c). -/
def handler_param_connection_modify {μ : Type} (env : link_env μ) (a : admin_device)
    (args : List lo_arg) : Except fault (admin_device × List effect) :=
  if modify_rejected args then .ok (a, [])
  else
    match args with
    | a0 :: a1 :: rest =>
      if (arg_s env.raw a0).length ≥ 1024 then .error .overflow
      else
        match admin_name a with
        | .error e => .error e
        | .ok (name, a1s) =>
          if strcmp name (device_part (arg_s env.raw a0)) ≠ 0 then .ok (a1s, [])
          else if (arg_s env.raw a1).length ≥ 1024 then .error .overflow
          else
            match find_signal (param_part (arg_s env.raw a0)) a.device.outputs with
            | none => .ok (a1s, [])
            | some sig =>
              match find_connection a.device sig (device_part (arg_s env.raw a1))
                  (param_part (arg_s env.raw a1)) with
              | none => .ok (a1s, [])
              | some r =>
                match mapping_at a.device r with
                | none => .ok (a1s, [])
                | some m =>
                  match modify_props env rest 2 (m, none) with
                  | .error e => .error e
                  | .ok st =>
                    match mapping_type_text st.1.type with
                    | .error e => .error e
                    | .ok mapping_type =>
                      .ok (mapper_admin_send_osc env
                        { a1s with device := write_mapping a.device r st.1 } "/connected"
                        [lo_arg.s (device_part (arg_s env.raw a0) ++ param_part (arg_s env.raw a0)),
                          lo_arg.s (device_part (arg_s env.raw a1) ++ param_part (arg_s env.raw a1))]
                        [.AT_SCALING mapping_type,
                          .AT_RANGE st.1.range.src_min st.1.range.src_max st.1.range.dest_min
                            st.1.range.dest_max,
                          .AT_EXPRESSION st.1.expression,
                          .AT_CLIPMIN "none".toList,
                          .AT_CLIPMAX "none".toList])
    | _ => .ok (a, [])

/-- Modelled from the spec: `mapper_router_add_mapping` of router.c, which is
not under src/, through which the three `mapper_router_add_..._mapping`
functions link the record they make: at the head of the list of the signal's
entry, after making that entry at the head of `router->mappings` if the
signal has none. -/
def mapper_router_add_mapping (router : _mapper_router) (sig : Nat) (m : _mapper_mapping) :
    _mapper_router :=
  match find_signal_mapping sig router.mappings 0 with
  | some si =>
    { router with mappings :=
        router.mappings.modify (fun sm => { sm with mapping := m :: sm.mapping }) si }
  | none => { router with mappings := ⟨sig, [m]⟩ :: router.mappings }

/-- Modelled from the spec: `mapper_router_remove_mapping` of router.c, which is
not under src/; the mapping at position `mi` is unlinked from the entry's list. -/
def mapper_router_remove_mapping (sm : _mapper_signal_mapping) (mi : Nat) :
    _mapper_signal_mapping :=
  { sm with mapping := sm.mapping.eraseIdx mi }

/-- The router at position `ri` of the device replaced by `f` of it. -/
def update_router (md : _mapper_device) (ri : Nat) (f : _mapper_router → _mapper_router) :
    _mapper_device :=
  { md with routers := md.routers.modify f ri }

/-- The locals of `handler_param_connect_to` that its property loop writes, and
the blank mapping `m`. -/
structure connect_state where
  m : _mapper_mapping
  clip : Option mapper_clipping_type
  dest_type : Option Char
  dest_range_min : ℚ
  dest_range_max : ℚ
  range_update : Int
deriving DecidableEq, Repr

/-- One round of the property loop of `handler_param_connect_to` at position
`j`, where `a` is `argv[j]` and `rest` the arguments behind it: the locals
afterwards, and by how much `j` grows. -/
def connect_step {μ : Type} (env : link_env μ) (a : lo_arg) (rest : List lo_arg) (j : Nat)
    (st : connect_state) : Except fault (connect_state × Nat) :=
  if !a.is_string then .ok (st, 1)
  else if strcmp (arg_s env.raw a) "@type".toList = 0 then
    match rest with
    | [] => .error (.read_past_end (j + 1))
    | v :: _ => .ok ({ st with dest_type := some (arg_c env v) }, 2)
  else if strcmp (arg_s env.raw a) "@min".toList = 0 then
    match rest with
    | [] => .error (.read_past_end (j + 1))
    | v :: _ =>
      .ok ({ st with dest_range_min := arg_f env v, range_update := st.range_update + 1 }, 2)
  else if strcmp (arg_s env.raw a) "@max".toList = 0 then
    match rest with
    | [] => .error (.read_past_end (j + 1))
    | v :: _ =>
      .ok ({ st with dest_range_max := arg_f env v, range_update := st.range_update + 1 }, 2)
  else if strcmp (arg_s env.raw a) "@scaling".toList = 0 then
    match rest with
    | [] => .error (.read_past_end (j + 1))
    | v :: _ => .ok ({ st with m := set_scaling st.m (arg_s env.raw v) }, 2)
  else if strcmp (arg_s env.raw a) "@range".toList = 0 then
    match rest with
    | v1 :: v2 :: v3 :: v4 :: _ =>
      .ok ({ st with m := set_range st.m (some v1) (some v2) (some v3) (some v4),
                     range_update := st.range_update + 4 }, 5)
    | [v1, v2, v3] =>
      .ok ({ st with m := set_range st.m (some v1) (some v2) (some v3) none,
                     range_update := st.range_update + 4 }, 5)
    | [_, _] => .error (.read_past_end (j + 4))
    | [_] => .error (.read_past_end (j + 3))
    | [] => .error (.read_past_end (j + 2))
  else if strcmp (arg_s env.raw a) "@expression".toList = 0 then
    match rest with
    | [] => .error (.read_past_end (j + 1))
    | v :: _ =>
      match set_expression env st.m (arg_s env.raw v) with
      | .error e => .error e
      | .ok m => .ok ({ st with m := m }, 2)
  else if strcmp (arg_s env.raw a) "@clipMin".toList = 0 ∨
      strcmp (arg_s env.raw a) "@clipMax".toList = 0 then
    match rest with
    | [] => .error (.read_past_end (j + 1))
    | v :: _ =>
      match set_clip st.m st.clip (arg_s env.raw a) (arg_s env.raw v) with
      | .error e => .error e
      | .ok r => .ok ({ st with m := r.1, clip := r.2 }, 2)
  else .ok (st, 1)

/-- The property loop of `handler_param_connect_to`, `while (j < argc)`, for at
most `n` rounds on the arguments from position `j` on. -/
def connect_loop {μ : Type} (env : link_env μ) :
    Nat → List lo_arg → Nat → connect_state → Except fault connect_state
  | 0, _, _, st => .ok st
  | _ + 1, [], _, st => .ok st
  | n + 1, a :: rest, j, st =>
    match connect_step env a rest j st with
    | .error e => .error e
    | .ok r => connect_loop env n ((a :: rest).drop r.2) (j + r.2) r.1

/-- The property loop of `handler_param_connect_to` on the arguments from
position `j` on. -/
def connect_props {μ : Type} (env : link_env μ) (args : List lo_arg) (j : Nat)
    (st : connect_state) : Except fault connect_state :=
  connect_loop env args.length args j st

/-- The block `if (strcmp(scaling, "dummy") == 0)` of `handler_param_connect_to`;
`scaling` is initialised to `"dummy"` and written nowhere, so the block always
runs: the mapping record that is added by default. -/
def default_mapping {μ : Type} (env : link_env μ) (sig : _mapper_signal)
    (target_param_name : List Char) (st : connect_state) : Except fault _mapper_mapping :=
  if st.range_update = 2 ∧ (sig.type = 'i' ∨ sig.type = 'f') then
    match st.dest_type with
    | none => .error .uninitialised
    | some t =>
      if t = 'i' ∨ t = 'f' then
        match sig.minimum, sig.maximum with
        | some lo, some hi =>
          .ok (env.linear_range_mapping target_param_name lo hi st.dest_range_min
            st.dest_range_max)
        | _, _ => .error .null_value
      else .ok (env.direct_mapping target_param_name)
  else .ok (env.direct_mapping target_param_name)

/-- The test `handler_param_connect_to` starts with: `argc < 2`, or one of the
first two arguments is not a string (the two tests are joined by `||`). -/
def connect_to_rejected (args : List lo_arg) : Bool :=
  match args with
  | a0 :: a1 :: _ => !a0.is_string || !a1.is_string
  | _ => true

/-- `handler_param_connect_to` (admin.c). -/
def handler_param_connect_to {μ : Type} (env : link_env μ) (a : admin_device)
    (args : List lo_arg) : Except fault (admin_device × List effect) :=
  if connect_to_rejected args then .ok (a, [])
  else
    match args with
    | a0 :: a1 :: rest =>
      if (arg_s env.raw a0).length ≥ 1024 then .error .overflow
      else
        match admin_name a with
        | .error e => .error e
        | .ok (name, a1s) =>
          if strcmp name (device_part (arg_s env.raw a0)) ≠ 0 then .ok (a1s, [])
          else if (arg_s env.raw a1).length ≥ 1024 then .error .overflow
          else
            match find_signal (param_part (arg_s env.raw a0)) a.device.outputs with
            | none => .ok (a1s, [])
            | some sig =>
              match find_router (device_part (arg_s env.raw a1)) a.device.routers 0 with
              | none => .ok (a1s, [])
              | some ri =>
                match rest with
                | [] =>
                  .ok ({ a1s with device := update_router a.device ri (fun router =>
                    mapper_router_add_mapping router sig.ptr
                      (env.direct_mapping (param_part (arg_s env.raw a1)))) }, [])
                | _ :: _ =>
                  match connect_props env rest 2
                      ⟨env.blank_mapping (param_part (arg_s env.raw a1)), none, none, 0, 1, 0⟩ with
                  | .error e => .error e
                  | .ok st =>
                    match default_mapping env sig (param_part (arg_s env.raw a1)) st with
                    | .error e => .error e
                    | .ok d =>
                      .ok ({ a1s with device := update_router a.device ri (fun router =>
                        mapper_router_add_mapping
                          (mapper_router_add_mapping router sig.ptr st.m) sig.ptr d) }, [])
    | _ => .ok (a, [])

/-- `handler_param_connected` (admin.c): the two names are copied and traced,
and the body ends with `//TO DO: record connection in database`. -/
def handler_param_connected {μ : Type} (env : link_env μ) (a : admin_device)
    (args : List lo_arg) : Except fault (admin_device × List effect) :=
  if two_names_rejected args then .ok (a, [])
  else
    match args with
    | a0 :: a1 :: _ =>
      if (arg_s env.raw a0).length ≥ 1024 ∨ (arg_s env.raw a1).length ≥ 1024 then
        .error .overflow
      else .ok (a, [])
    | _ => .ok (a, [])

/-- `handler_param_disconnected` (admin.c): the two names are copied and traced,
and the body ends with `//TO DO: remove connection from database`. -/
def handler_param_disconnected {μ : Type} (env : link_env μ) (a : admin_device)
    (args : List lo_arg) : Except fault (admin_device × List effect) :=
  if two_names_rejected args then .ok (a, [])
  else
    match args with
    | a0 :: a1 :: _ =>
      if (arg_s env.raw a0).length ≥ 1024 ∨ (arg_s env.raw a1).length ≥ 1024 then
        .error .overflow
      else .ok (a, [])
    | _ => .ok (a, [])

/-- `handler_param_disconnect` (admin.c). -/
def handler_param_disconnect {μ : Type} (env : link_env μ) (a : admin_device)
    (args : List lo_arg) : Except fault (admin_device × List effect) :=
  if two_names_rejected args then .ok (a, [])
  else
    match args with
    | a0 :: a1 :: _ =>
      if (arg_s env.raw a0).length ≥ 1024 then .error .overflow
      else
        match admin_name a with
        | .error e => .error e
        | .ok (name, a1s) =>
          if strcmp name (device_part (arg_s env.raw a0)) ≠ 0 then .ok (a1s, [])
          else if (arg_s env.raw a1).length ≥ 1024 then .error .overflow
          else
            match find_signal (param_part (arg_s env.raw a0)) a.device.outputs with
            | none => .ok (a1s, [])
            | some sig =>
              match find_connection a.device sig (device_part (arg_s env.raw a1))
                  (param_part (arg_s env.raw a1)) with
              | none => .ok (a1s, [])
              | some r =>
                .ok ({ a1s with device := update_router a.device r.router (fun router =>
                  { router with mappings := (router.mappings.modify
                      (fun sm => mapper_router_remove_mapping sm r.index) r.entry) }) }, [])
    | _ => .ok (a, [])

/-- The `/connect_to` message `handler_param_connect` sends when `/connect` has
no properties: the type of the input and, when they are set, its minimum and
maximum. -/
def connect_defaults (sig : _mapper_signal) : List msg_param :=
  [msg_param.AT_TYPE sig.type] ++
    (match sig.minimum with | some v => [msg_param.AT_MIN v] | none => []) ++
    (match sig.maximum with | some v => [msg_param.AT_MAX v] | none => [])

/-- `handler_param_connect` (admin.c). -/
def handler_param_connect {μ : Type} (env : link_env μ) (a : admin_device)
    (args : List lo_arg) : Except fault (admin_device × List effect) :=
  if two_names_rejected args then .ok (a, [])
  else
    match args with
    | a0 :: a1 :: rest =>
      if (arg_s env.raw a1).length ≥ 1024 then .error .overflow
      else
        match admin_name a with
        | .error e => .error e
        | .ok (name, a1s) =>
          if strcmp name (device_part (arg_s env.raw a1)) ≠ 0 then .ok (a1s, [])
          else if (arg_s env.raw a0).length ≥ 1024 then .error .overflow
          else
            match find_signal (param_part (arg_s env.raw a1)) a.device.inputs with
            | none => .ok (a1s, [])
            | some sig =>
              match rest with
              | [] =>
                .ok (mapper_admin_send_osc env a1s "/connect_to"
                  [lo_arg.s (device_part (arg_s env.raw a0) ++ param_part (arg_s env.raw a0)),
                    lo_arg.s (device_part (arg_s env.raw a1) ++ param_part (arg_s env.raw a1))]
                  (connect_defaults sig))
              | _ :: _ =>
                match env.mapper_msg_parse_params rest with
                | none => .ok (a1s, [])
                | some params =>
                  .ok ({ a1s with admin := (_real_mapper_admin_name a1s.admin).2 },
                    [effect.send "/connect_to"
                      ([lo_arg.s (device_part (arg_s env.raw a0) ++ param_part (arg_s env.raw a0)),
                        lo_arg.s (device_part (arg_s env.raw a1) ++ param_part (arg_s env.raw a1))]
                        ++ env.mapper_msg_prepare_params params)])
    | _ => .ok (a, [])

/-- A stand-in for `mapper_msg_prepare_varargs`: a parameter becomes its key
followed by its values. -/
def prepare_sample : msg_param → List lo_arg
  | .AT_IP v => [lo_arg.s "@IP".toList, lo_arg.s v]
  | .AT_PORT v => [lo_arg.s "@port".toList, lo_arg.i v]
  | .AT_CANALIAS v =>
    [lo_arg.s "@canAlias".toList, lo_arg.s (if v = 0 then "no".toList else "yes".toList)]
  | .AT_TYPE v => [lo_arg.s "@type".toList, lo_arg.s [v]]
  | .AT_MIN v => [lo_arg.s "@min".toList, lo_arg.f v]
  | .AT_MAX v => [lo_arg.s "@max".toList, lo_arg.f v]
  | .AT_SCALING v => [lo_arg.s "@scaling".toList, lo_arg.s v]
  | .AT_RANGE a b c d => [lo_arg.s "@range".toList, lo_arg.f a, lo_arg.f b, lo_arg.f c, lo_arg.f d]
  | .AT_EXPRESSION v => [lo_arg.s "@expression".toList, lo_arg.s v]
  | .AT_CLIPMIN v => [lo_arg.s "@clipMin".toList, lo_arg.s v]
  | .AT_CLIPMAX v => [lo_arg.s "@clipMax".toList, lo_arg.s v]

/-- A stand-in for the lookup of a string parameter: the string that follows the
key. -/
def string_after (key : List Char) : List lo_arg → Option (List Char)
  | lo_arg.s k :: lo_arg.s v :: rest => if k = key then some v else string_after key (lo_arg.s v :: rest)
  | _ :: rest => string_after key rest
  | [] => none

/-- A stand-in for the lookup of an int parameter: the int that follows the key. -/
def int_after (key : List Char) : List lo_arg → Option Int
  | lo_arg.s k :: lo_arg.i v :: rest => if k = key then some v else int_after key rest
  | _ :: rest => int_after key rest
  | [] => none

/-- A stand-in for the expression parser: it accepts the texts in which every
`(` has its `)`, and numbers the tree by the length of the text. -/
def expr_sample (s : List Char) : Option Tree :=
  if s.count '(' = s.count ')' then some ⟨s.length⟩ else none

/-- Stand-ins for the parts outside admin.c; parsed parameters are the
arguments themselves, the bytes at a non-string argument start with a
terminator, and new mappings have the expression `y=x`. -/
def sample_link_env : link_env (List lo_arg) :=
  { raw := fun _ => []
    raw_f := fun _ => 0
    interface_ip := "127.0.0.1".toList
    mapper_msg_prepare_varargs := prepare_sample
    mapper_msg_prepare_params := fun p => p
    mapper_msg_parse_params := fun args => some args
    get_param_AT_IP := string_after "@IP".toList
    get_param_AT_PORT := int_after "@port".toList
    get_expr_Tree := expr_sample
    direct_mapping := fun name =>
      { name := name, type := .BYPASS, range := ⟨0, 0, 0, 0⟩, expression := "y=x".toList,
        expr_tree := ⟨3⟩, clip_lower := .CT_NONE, clip_upper := .CT_NONE }
    blank_mapping := fun name =>
      { name := name, type := .BYPASS, range := ⟨0, 0, 0, 0⟩, expression := "y=x".toList,
        expr_tree := ⟨3⟩, clip_lower := .CT_NONE, clip_upper := .CT_NONE }
    linear_range_mapping := fun name a b c d =>
      { name := name, type := .LINEAR, range := ⟨a, b, c, d⟩, expression := "y=x".toList,
        expr_tree := ⟨3⟩, clip_lower := .CT_NONE, clip_upper := .CT_NONE } }

/-- The registered device `/test.1` with the float output `/out`, the float input
`/in` and no router. -/
def lone_device : admin_device :=
  { admin := registered_admin
    device :=
      { inputs := [⟨2, "/in".toList, 'f', none, none⟩]
        outputs := [⟨1, "/out".toList, 'f', some 0, some 1⟩]
        routers := []
        num_routers := 0 } }

/-- The `/link_to` message that asks `/test.1` to link to `/peer.1`. -/
def link_to_peer : List lo_arg :=
  [lo_arg.s "/test.1".toList, lo_arg.s "/peer.1".toList, lo_arg.s "@IP".toList,
    lo_arg.s "10.0.0.2".toList, lo_arg.s "@port".toList, lo_arg.i 9001,
    lo_arg.s "@canAlias".toList, lo_arg.s "no".toList]

/-- The device `/test.1` after it handled `link_to_peer`. -/
def linked_device : admin_device :=
  match handler_device_link_to sample_link_env lone_device link_to_peer with
  | .ok r => r.1
  | .error _ => lone_device

/-- The device `/test.1` linked to `/peer.1`, with the mapping of `/out` to
`/peer.1/in` that a `/connect_to` without properties makes. -/
def connected_device : admin_device :=
  match handler_param_connect_to sample_link_env linked_device
      [lo_arg.s "/test.1/out".toList, lo_arg.s "/peer.1/in".toList] with
  | .ok r => r.1
  | .error _ => linked_device

/-- States of a device reachable through `/link_to` and `/unlink` messages that
its handlers return from. -/
inductive link_reachable {μ : Type} (env : link_env μ) (a0 : admin_device) :
    admin_device → Prop where
  | init : link_reachable env a0 a0
  | link_to {a b : admin_device} (args : List lo_arg) (out : List effect) :
      link_reachable env a0 a → handler_device_link_to env a args = .ok (b, out) →
      link_reachable env a0 b
  | unlink {a b : admin_device} (args : List lo_arg) (out : List effect) :
      link_reachable env a0 a → handler_device_unlink env a args = .ok (b, out) →
      link_reachable env a0 b

/-- What `handler_param_connection_modify` and `handler_param_disconnect` find
for the names `src` and `dst` before they act: the device has its name `name`
(and is `a1` once it is built), the names fit their buffers, the device part
of `src` is the own name, `sig` is the output named by the rest of `src`, and
`m` is the mapping at the place `r`, in the router to the device part of `dst`,
for `sig` and the rest of `dst`. -/
def connection_found (a : admin_device) (src dst name : List Char) (a1 : admin_device)
    (sig : _mapper_signal) (r : mapping_ref) (m : _mapper_mapping) : Prop :=
  admin_name a = .ok (name, a1) ∧ src.length < 1024 ∧ dst.length < 1024 ∧
  strcmp name (device_part src) = 0 ∧
  find_signal (param_part src) a.device.outputs = some sig ∧
  find_connection a.device sig (device_part dst) (param_part dst) = some r ∧
  mapping_at a.device r = some m

/-- The place of the one mapping of `connected_device`. -/
def first_mapping : mapping_ref := ⟨0, 0, 0⟩

/-- What `handler_param_connect_to` finds for the names `src` and `dst` before it
adds a mapping: the device has its name `name` (and is `a1` once it is built),
the names fit their buffers, the device part of `src` is the own name, `sig`
is the output named by the rest of `src`, and the router at position `ri` is
the first whose target is the device part of `dst`. -/
def link_found (a : admin_device) (src dst name : List Char) (a1 : admin_device)
    (sig : _mapper_signal) (ri : Nat) : Prop :=
  admin_name a = .ok (name, a1) ∧ src.length < 1024 ∧ dst.length < 1024 ∧
  strcmp name (device_part src) = 0 ∧
  find_signal (param_part src) a.device.outputs = some sig ∧
  find_router (device_part dst) a.device.routers 0 = some ri

/-- The locals of `handler_param_connect_to` when its property loop starts, for
the target signal name `target`. -/
def connect_start {μ : Type} (env : link_env μ) (target : List Char) : connect_state :=
  ⟨env.blank_mapping target, none, none, 0, 1, 0⟩

/-- A `/connect_to` for `/test.1/out` and `/peer.1/in` that gives the type of
the target and a `@range`. -/
def connect_with_range : List lo_arg :=
  [lo_arg.s "/test.1/out".toList, lo_arg.s "/peer.1/in".toList, lo_arg.s "@type".toList,
    lo_arg.s "f".toList, lo_arg.s "@range".toList, lo_arg.i 0, lo_arg.i 1, lo_arg.i 0,
    lo_arg.i 10]

/-- A `/connect_to` for `/test.1/out` and `/peer.1/in` that gives the type, the
minimum and the maximum of the target. -/
def connect_with_min_max : List lo_arg :=
  [lo_arg.s "/test.1/out".toList, lo_arg.s "/peer.1/in".toList, lo_arg.s "@type".toList,
    lo_arg.s "f".toList, lo_arg.s "@min".toList, lo_arg.f 0, lo_arg.s "@max".toList,
    lo_arg.f 10]

/-! ### Property queries on devices -/

/-- `check_type` (db.c): `strchr("ifdsct", type) != 0`; `strchr` also finds the
terminator of the string. -/
def check_type (type : Char) : Bool :=
  type ∈ "ifdsct".toList || type = Char.ofNat 0

/-- `cmp_query_devices_by_property` (db.c) for the query data `op`, `length`,
`type`, `value`, `property`.  `mapper_device_property` (device.c, not under
src/) is an argument: it returns the length, type and value of the property,
`none` when it reports that the device has no such property. -/
def cmp_query_devices_by_property {α : Type}
    (mapper_device_property : mapper_device α → List Char → Option (Int × Char × value_array))
    (op : mapper_op) (length : Int) (type : Char) (value : value_array) (property : List Char)
    (dev : mapper_device α) : Int :=
  match mapper_device_property dev property with
  | none => if op = .MAPPER_OP_DOES_NOT_EXIST then 1 else 0
  | some (_length, _type, _value) =>
    if op = .MAPPER_OP_EXISTS then 1
    else if op = .MAPPER_OP_DOES_NOT_EXIST then 0
    else if _type ≠ type ∨ _length ≠ length then 0
    else compare_value op length.toNat type _value value

/-- `mapper_db_devices_by_property` (db.c): null (`none`) for a null property
name, a type `check_type` turns down, a length below 1 or an operator out of
range.  Modelled from the spec: the query of list.c, which is not under src/,
as the devices of the table that `cmp_query_devices_by_property` accepts. -/
def mapper_db_devices_by_property {α : Type}
    (mapper_device_property : mapper_device α → List Char → Option (Int × Char × value_array))
    (db : mapper_db α) (property : Option (List Char)) (length : Int) (type : Char)
    (value : value_array) (op : mapper_op) : Option (List (mapper_device α)) :=
  match property with
  | none => none
  | some p =>
    if !check_type type ∨ length < 1 then none
    else if op = .MAPPER_OP_UNDEFINED then none
    else some (db.devices.filter (fun dev =>
      cmp_query_devices_by_property mapper_device_property op length type value p dev ≠ 0))

/-! ## Properties of `check_collisions` -/

theorem tmod_rand (rnd : Nat) (cc : Int) (h : 0 < cc) :
    Int.tmod (rnd : Int) (cc + 1) = ((rnd % (cc.toNat + 1) : Nat) : Int) := by
  obtain ⟨n, rfl⟩ := Int.eq_ofNat_of_zero_le (le_of_lt h)
  rw [Int.tmod_eq_emod (Int.ofNat_nonneg _) (by positivity)]
  simp

theorem to_unsigned_add (v k : Nat) :
    to_unsigned ((v : Int) + (k : Int)) = (v + k) % 4294967296 := by
  unfold to_unsigned
  omega

/-- C1 (as stated, refuted): the port seeded with `initial_port = -1` is
unlocked, its `timediff` is 0.6 s and its `collision_count` is 1, yet with an odd
`rand()` the bump takes `value` from 4294967295 to 0, below the old value. -/
theorem check_collisions_bump_wraps :
    wrap_admin.port.locked = false ∧
    500000 ≤ 700000 - wrap_admin.port.count_time ∧
    700000 - wrap_admin.port.count_time < 2000000 ∧
    0 < wrap_admin.port.collision_count ∧
    wrap_admin.port.value = 4294967295 ∧
    (check_collisions wrap_admin.port 700000 700000 1).ret = 1 ∧
    (check_collisions wrap_admin.port 700000 700000 1).resource.value = 0 ∧
    ¬ (wrap_admin.port.value ≤ (check_collisions wrap_admin.port 700000 700000 1).resource.value) := by
  decide

/-- The bump branch of `check_collisions`, as an equation. -/
theorem check_collisions_bump_eq (resource : mapper_admin_allocated_t) (now now2 : Int)
    (rnd : Nat) (hu : resource.locked = false) (ht : now - resource.count_time < 2000000)
    (hc : 500000 ≤ now - resource.count_time ∧ 0 < resource.collision_count) :
    check_collisions resource now now2 rnd =
      ⟨1, { resource with
              value := (resource.value + rnd % (resource.collision_count.toNat + 1)) % 4294967296
              collision_count := -1
              count_time := now2 }, []⟩ := by
  have hlt : ¬ (now - resource.count_time ≥ 2000000) := by omega
  unfold check_collisions
  simp only [hu, hlt, hc.1, hc.2, tmod_rand rnd _ hc.2, to_unsigned_add]
  simp

/-- The branch of `check_collisions` that does nothing, as an equation. -/
theorem check_collisions_idle_eq (resource : mapper_admin_allocated_t) (now now2 : Int)
    (rnd : Nat) (hu : resource.locked = false) (ht : now - resource.count_time < 2000000)
    (hc : ¬ (500000 ≤ now - resource.count_time ∧ 0 < resource.collision_count)) :
    check_collisions resource now now2 rnd = ⟨0, resource, []⟩ := by
  have hlt : ¬ (now - resource.count_time ≥ 2000000) := by omega
  unfold check_collisions
  simp [hu, hlt, hc]

/-- The lock branch of `check_collisions`, as an equation. -/
theorem check_collisions_lock_eq (resource : mapper_admin_allocated_t) (now now2 : Int)
    (rnd : Nat) (hu : resource.locked = false) (h : 2000000 ≤ now - resource.count_time) :
    check_collisions resource now now2 rnd =
      ⟨0, { resource with locked := true },
        if resource.on_lock then [effect.on_lock { resource with locked := true }] else []⟩ := by
  unfold check_collisions
  simp [hu, h]

/-- On a locked resource `check_collisions` returns 0 and does nothing. -/
theorem check_collisions_locked_eq (resource : mapper_admin_allocated_t) (now now2 : Int)
    (rnd : Nat) (hl : resource.locked = true) :
    check_collisions resource now now2 rnd = ⟨0, resource, []⟩ := by
  unfold check_collisions
  simp [hl]

/-- C1 (amended): for an unlocked resource with `timediff < 2.0`: when
`0.5 ≤ timediff` and `collision_count > 0`, `check_collisions` returns 1, makes no
callback, keeps `locked` false, sets `collision_count` to -1 and `count_time` to
the new clock reading, and sets `value` to `(value + r) mod 2^32` with
`r = rand() % (collision_count + 1) ≤ collision_count`; when moreover
`value + collision_count < 2^32` the new value is `value + r`, between the old
value and the old value plus the old `collision_count`.  When the two
conditions do not both hold it returns 0 and changes nothing. -/
theorem check_collisions_bump (resource : mapper_admin_allocated_t) (now now2 : Int)
    (rnd : Nat) (hu : resource.locked = false)
    (ht : now - resource.count_time < 2000000) :
    (500000 ≤ now - resource.count_time ∧ 0 < resource.collision_count →
      check_collisions resource now now2 rnd =
        ⟨1, { resource with
                value := (resource.value + rnd % (resource.collision_count.toNat + 1)) % 4294967296
                collision_count := -1
                count_time := now2 }, []⟩ ∧
      ((rnd % (resource.collision_count.toNat + 1) : Nat) : Int) ≤ resource.collision_count ∧
      ((resource.value : Int) + resource.collision_count < 4294967296 →
        (check_collisions resource now now2 rnd).resource.value =
            resource.value + rnd % (resource.collision_count.toNat + 1) ∧
          resource.value ≤ (check_collisions resource now now2 rnd).resource.value ∧
          ((check_collisions resource now now2 rnd).resource.value : Int) ≤
            resource.value + resource.collision_count)) ∧
    (¬ (500000 ≤ now - resource.count_time ∧ 0 < resource.collision_count) →
      check_collisions resource now now2 rnd = ⟨0, resource, []⟩) := by
  constructor
  · intro hc
    have hr : rnd % (resource.collision_count.toNat + 1) < resource.collision_count.toNat + 1 :=
      Nat.mod_lt _ (Nat.succ_pos _)
    have heq := check_collisions_bump_eq resource now now2 rnd hu ht hc
    refine ⟨heq, by omega, ?_⟩
    intro hb
    rw [heq]
    simp only
    have : (resource.value + rnd % (resource.collision_count.toNat + 1)) % 4294967296
        = resource.value + rnd % (resource.collision_count.toNat + 1) := by
      apply Nat.mod_eq_of_lt
      omega
    rw [this]
    refine ⟨rfl, by omega, by omega⟩
  · exact check_collisions_idle_eq resource now now2 rnd hu ht

/-- C1 (amended), at a concrete input: port 9000 with two collisions counted,
0.6 s after the probe, `rand() = 7`: the call returns 1 and the value is 9001. -/
theorem check_collisions_bump_witness :
    check_collisions ⟨9000, 2, 0, false, true, none⟩ 600000 600001 7 =
      ⟨1, ⟨9001, -1, 600001, false, true, none⟩, []⟩ :=
  ((check_collisions_bump ⟨9000, 2, 0, false, true, none⟩ 600000 600001 7 rfl
      (by decide)).1 (by decide)).1

/-- C2: for an unlocked resource, when `timediff ≥ 2.0` `check_collisions`
returns 0 and only sets `locked` (value, `collision_count` and `count_time` are
kept, whatever they are), calling `on_lock` when it is set; when
`timediff < 2.0` the resource is not locked by the call. -/
theorem check_collisions_lock (resource : mapper_admin_allocated_t) (now now2 : Int)
    (rnd : Nat) (hu : resource.locked = false) :
    (2000000 ≤ now - resource.count_time →
      check_collisions resource now now2 rnd =
        ⟨0, { resource with locked := true },
          if resource.on_lock then [effect.on_lock { resource with locked := true }] else []⟩) ∧
    (now - resource.count_time < 2000000 →
      (check_collisions resource now now2 rnd).resource.locked = false) := by
  constructor
  · exact check_collisions_lock_eq resource now now2 rnd hu
  · intro h
    by_cases hc : 500000 ≤ now - resource.count_time ∧ 0 < resource.collision_count
    · rw [check_collisions_bump_eq resource now now2 rnd hu h hc]
      exact hu
    · rw [check_collisions_idle_eq resource now now2 rnd hu h hc]
      exact hu

/-- C2 at a concrete input: five collisions counted and 2.0 s elapsed: the
resource locks with its value 9000 and count 5. -/
theorem check_collisions_lock_witness :
    check_collisions ⟨9000, 5, 0, false, false, none⟩ 2000000 2000000 3 =
      ⟨0, ⟨9000, 5, 0, true, false, none⟩, []⟩ :=
  (check_collisions_lock ⟨9000, 5, 0, false, false, none⟩ 2000000 2000000 3 rfl).1 (by decide)

/-! ## What handlers and polls keep and send -/

theorem handler_frame_refl (a : mapper_admin_t) : handler_frame a a :=
  ⟨rfl, rfl, fun _ => ⟨rfl, rfl, rfl, rfl⟩⟩

theorem handler_frame_trans {a b c : mapper_admin_t} (h1 : handler_frame a b)
    (h2 : handler_frame b c) : handler_frame a c := by
  refine ⟨h2.1.trans h1.1, h2.2.1.trans h1.2.1, fun r => ?_⟩
  have x := h1.2.2 r
  have y := h2.2.2 r
  exact ⟨y.1.trans x.1, y.2.1.trans x.2.1, y.2.2.1.trans x.2.2.1, y.2.2.2.trans x.2.2.2⟩

theorem admin_name_frame (a : mapper_admin_t) :
    handler_frame a (_real_mapper_admin_name a).2 := by
  unfold _real_mapper_admin_name
  cases hl : a.ordinal.locked <;> simp
  · exact handler_frame_refl a
  · cases hn : a.name <;> simp
    · exact ⟨rfl, rfl, fun r => by cases r <;> exact ⟨rfl, rfl, rfl, rfl⟩⟩
    · exact handler_frame_refl a

theorem handler_call_frame (h : collision_handler) (a : mapper_admin_t) :
    handler_frame a (h.call a).1 ∧ announces_locked a (h.call a).2 := by
  cases h
  · simp only [collision_handler.call, mapper_admin_port_registered]
    cases hl : a.port.locked <;> simp
    · exact ⟨handler_frame_refl a, fun x hx => by simp at hx⟩
    · refine ⟨handler_frame_refl a, fun x hx => ?_⟩
      simp at hx
      exact Or.inl ⟨⟨_, hx⟩, hl⟩
  · simp only [collision_handler.call, mapper_admin_name_registered]
    cases hl : a.ordinal.locked <;> simp
    · exact ⟨handler_frame_refl a, fun x hx => by simp at hx⟩
    · refine ⟨admin_name_frame a, fun x hx => ?_⟩
      simp at hx
      exact Or.inr ⟨⟨_, hx⟩, hl⟩

theorem on_collision_frame (r : resource_ref) (a : mapper_admin_t) (now : Int) :
    handler_frame a (on_collision r a now).1 ∧ announces_locked a (on_collision r a now).2 := by
  unfold on_collision
  have key : ∀ c : mapper_admin_t × List effect, handler_frame a c.1 →
      handler_frame a (c.1.set r { c.1.get r with
        collision_count := (c.1.get r).collision_count + 1, count_time := now }) := by
    intro c hc
    refine ⟨?_, ?_, fun q => ?_⟩
    · cases r <;> exact hc.1
    · cases r <;> exact hc.2.1
    · have hp := hc.2.2 .port
      have ho := hc.2.2 .ordinal
      cases r <;> cases q <;> first | exact hp | exact ho
  cases hl : (a.get r).locked <;> cases hh : (a.get r).on_collision <;> simp only
  · exact ⟨key (a, []) (handler_frame_refl a), fun x hx => by simp at hx⟩
  · exact ⟨key (a, []) (handler_frame_refl a), fun x hx => by simp at hx⟩
  · exact ⟨key (a, []) (handler_frame_refl a), fun x hx => by simp at hx⟩
  · exact ⟨key _ (handler_call_frame _ a).1, (handler_call_frame _ a).2⟩

theorem announces_locked_nil (a : mapper_admin_t) : announces_locked a [] :=
  fun x hx => by simp at hx

theorem announces_locked_of_frame {a b : mapper_admin_t} {out : List effect}
    (h : handler_frame a b) (hb : announces_locked b out) : announces_locked a out := by
  intro x hx
  have hp := (h.2.2 .port).1
  have ho := (h.2.2 .ordinal).1
  simp only [mapper_admin_t.get] at hp ho
  rcases hb x hx with ⟨e, l⟩ | ⟨e, l⟩
  · exact Or.inl ⟨e, by rw [← hp]; exact l⟩
  · exact Or.inr ⟨e, by rw [← ho]; exact l⟩

theorem announces_locked_append {a : mapper_admin_t} {o1 o2 : List effect}
    (h1 : announces_locked a o1) (h2 : announces_locked a o2) : announces_locked a (o1 ++ o2) := by
  intro x hx
  rcases List.mem_append.mp hx with h | h
  · exact h1 x h
  · exact h2 x h

theorem alloc_port_frame (a : mapper_admin_t) (m : incoming) :
    handler_frame a (handler_device_alloc_port a m).1 ∧
      announces_locked a (handler_device_alloc_port a m).2 := by
  unfold handler_device_alloc_port
  split
  · exact ⟨handler_frame_refl a, announces_locked_nil a⟩
  · split
    · exact on_collision_frame _ a _
    · exact ⟨handler_frame_refl a, announces_locked_nil a⟩
  · split
    · exact on_collision_frame _ a _
    · exact ⟨handler_frame_refl a, announces_locked_nil a⟩
  · exact ⟨handler_frame_refl a, announces_locked_nil a⟩

theorem alloc_name_parse_frame (a : mapper_admin_t) (n : List Char) (m : incoming) :
    handler_frame a (alloc_name_parse a n m).1 ∧ announces_locked a (alloc_name_parse a n m).2 := by
  unfold alloc_name_parse
  split
  · simp only
    split
    · exact on_collision_frame _ a _
    · exact ⟨handler_frame_refl a, announces_locked_nil a⟩
  · exact ⟨handler_frame_refl a, announces_locked_nil a⟩

theorem alloc_name_frame (a : mapper_admin_t) (m : incoming) :
    handler_frame a (handler_device_alloc_name a m).1 ∧
      announces_locked a (handler_device_alloc_name a m).2 := by
  unfold handler_device_alloc_name
  split
  · exact ⟨handler_frame_refl a, announces_locked_nil a⟩
  · exact alloc_name_parse_frame a _ m
  · exact alloc_name_parse_frame a _ m
  · exact ⟨handler_frame_refl a, announces_locked_nil a⟩

theorem dispatch_frame (a : mapper_admin_t) (m : incoming) :
    handler_frame a (dispatch a m).1 ∧ announces_locked a (dispatch a m).2 := by
  unfold dispatch
  split
  · exact alloc_port_frame a m
  · split
    · exact alloc_name_frame a m
    · split
      · split
        · exact ⟨handler_frame_refl a, announces_locked_nil a⟩
        · exact alloc_port_frame a m
      · split
        · split
          · exact ⟨handler_frame_refl a, announces_locked_nil a⟩
          · exact alloc_name_frame a m
        · exact ⟨handler_frame_refl a, announces_locked_nil a⟩

theorem recv_loop_frame (ms : List incoming) (a : mapper_admin_t) :
    handler_frame a (recv_loop a ms).1 ∧ announces_locked a (recv_loop a ms).2 := by
  induction ms generalizing a with
  | nil => exact ⟨handler_frame_refl a, announces_locked_nil a⟩
  | cons m ms ih =>
    simp only [recv_loop]
    have h1 := dispatch_frame a m
    have h2 := ih (dispatch a m).1
    exact ⟨handler_frame_trans h1.1 h2.1,
      announces_locked_append h1.2 (announces_locked_of_frame h1.1 h2.2)⟩

theorem check_collisions_out (res : mapper_admin_allocated_t) (now now2 : Int) (rnd : Nat) :
    ∀ x ∈ (check_collisions res now now2 rnd).out, ∃ r, x = effect.on_lock r := by
  intro x hx
  unfold check_collisions at hx
  split at hx
  · simp at hx
  · simp only at hx
    split at hx
    · split at hx
      · simp at hx; exact ⟨_, hx⟩
      · simp at hx
    · split at hx <;> simp at hx

theorem poll_port_out (a : mapper_admin_t) (e : poll_env) :
    ∀ x ∈ (poll_port a e).2, poll_effect x := by
  intro x hx
  unfold poll_port at hx
  split at hx
  · simp only at hx
    split at hx
    · rcases List.mem_append.mp hx with h | h
      · exact Or.inl (check_collisions_out _ _ _ _ x h)
      · simp [mapper_admin_port_probe] at h
        exact Or.inr (Or.inl ⟨_, h⟩)
    · exact Or.inl (check_collisions_out _ _ _ _ x hx)
  · simp at hx

theorem poll_ordinal_out (a : mapper_admin_t) (e : poll_env) :
    ∀ x ∈ (poll_ordinal a e).2, poll_effect x := by
  intro x hx
  unfold poll_ordinal at hx
  split at hx
  · simp only at hx
    split at hx
    · rcases List.mem_append.mp hx with h | h
      · exact Or.inl (check_collisions_out _ _ _ _ x h)
      · simp [mapper_admin_name_probe] at h
        exact Or.inr (Or.inr (Or.inl ⟨_, h⟩))
    · exact Or.inl (check_collisions_out _ _ _ _ x hx)
  · simp at hx

theorem poll_register_out (a : mapper_admin_t) :
    ∀ x ∈ (poll_register a).2, poll_effect x := by
  intro x hx
  unfold poll_register at hx
  split at hx
  · simp at hx
    exact Or.inr (Or.inr (Or.inr hx))
  · simp at hx

theorem poll_effect_not_registered {x : effect} (h : poll_effect x) :
    (∀ args, x ≠ effect.send "/port/registered" args) ∧
      (∀ args, x ≠ effect.send "/name/registered" args) := by
  rcases h with ⟨r, rfl⟩ | ⟨a, rfl⟩ | ⟨a, rfl⟩ | rfl <;>
    exact ⟨fun _ h => by simp at h, fun _ h => by simp at h⟩

theorem poll_no_announcement_aux (admin : mapper_admin_t) (e : poll_env) :
    (admin.port.locked = false →
      ∀ args, effect.send "/port/registered" args ∉ (mapper_admin_poll admin e).out) ∧
    (admin.ordinal.locked = false →
      ∀ args, effect.send "/name/registered" args ∉ (mapper_admin_poll admin e).out) := by
  have hr := (recv_loop_frame (e.inbox.take 10) admin).2
  have key : ∀ x ∈ (mapper_admin_poll admin e).out,
      x ∈ (recv_loop admin (e.inbox.take 10)).2 ∨ poll_effect x := by
    intro x hx
    simp only [mapper_admin_poll, List.mem_append] at hx
    rcases hx with ((h | h) | h) | h
    · exact Or.inl h
    · exact Or.inr (poll_port_out _ _ x h)
    · exact Or.inr (poll_ordinal_out _ _ x h)
    · exact Or.inr (poll_register_out _ x h)
  constructor
  · intro hl args hin
    rcases key _ hin with h | h
    · rcases hr _ h with ⟨_, l⟩ | ⟨⟨a, ha⟩, _⟩
      · rw [hl] at l; exact Bool.noConfusion l
      · simp at ha
    · exact (poll_effect_not_registered h).1 args rfl
  · intro hl args hin
    rcases key _ hin with h | h
    · rcases hr _ h with ⟨⟨a, ha⟩, _⟩ | ⟨_, l⟩
      · simp at ha
      · rw [hl] at l; exact Bool.noConfusion l
    · exact (poll_effect_not_registered h).2 args rfl

theorem admin_name_resources (a : mapper_admin_t) :
    (_real_mapper_admin_name a).2.port = a.port ∧
      (_real_mapper_admin_name a).2.ordinal = a.ordinal ∧
      (_real_mapper_admin_name a).2.registered = a.registered := by
  unfold _real_mapper_admin_name
  split
  · exact ⟨rfl, rfl, rfl⟩
  · split <;> exact ⟨rfl, rfl, rfl⟩

theorem check_collisions_keeps_lock (res : mapper_admin_allocated_t) (now now2 : Int)
    (rnd : Nat) (h : res.locked = true) :
    (check_collisions res now now2 rnd).resource.locked = true := by
  rw [check_collisions_locked_eq res now now2 rnd h]
  exact h

theorem poll_port_spec (a : mapper_admin_t) (e : poll_env) :
    (poll_port a e).1.ordinal = a.ordinal ∧ (poll_port a e).1.registered = a.registered ∧
      (poll_port a e).1.identifier = a.identifier ∧ (poll_port a e).1.name = a.name ∧
      (poll_port a e).1.port = (check_collisions a.port e.port_now e.port_now2 e.port_rnd).resource := by
  unfold poll_port
  cases hl : a.port.locked
  · simp only [Bool.not_false, if_true]
    split <;> exact ⟨rfl, rfl, rfl, rfl, rfl⟩
  · simp [check_collisions_locked_eq _ _ _ _ hl]

theorem poll_ordinal_spec (a : mapper_admin_t) (e : poll_env) :
    (poll_ordinal a e).1.port = a.port ∧ (poll_ordinal a e).1.registered = a.registered ∧
      (poll_ordinal a e).1.identifier = a.identifier ∧ (poll_ordinal a e).1.name = a.name ∧
      (poll_ordinal a e).1.ordinal =
        (check_collisions a.ordinal e.ordinal_now e.ordinal_now2 e.ordinal_rnd).resource := by
  unfold poll_ordinal
  cases hl : a.ordinal.locked
  · simp only [Bool.not_false, if_true]
    split <;> exact ⟨rfl, rfl, rfl, rfl, rfl⟩
  · simp [check_collisions_locked_eq _ _ _ _ hl]

theorem poll_register_spec (a : mapper_admin_t) :
    (poll_register a).1.port = a.port ∧ (poll_register a).1.ordinal = a.ordinal ∧
      ((poll_register a).1.registered = true →
        a.registered = true ∨ (a.port.locked = true ∧ a.ordinal.locked = true)) := by
  unfold poll_register
  split
  · rename_i h
    have hn := admin_name_resources a
    exact ⟨hn.1, hn.2.1, fun _ => Or.inr ⟨h.2.1, h.2.2⟩⟩
  · exact ⟨rfl, rfl, fun h => Or.inl h⟩

/-- The resources and the flag of the admin a poll returns, in terms of the
state after the receive loop. -/
theorem mapper_admin_poll_spec (a : mapper_admin_t) (e : poll_env) :
    (mapper_admin_poll a e).admin.port =
        (check_collisions (recv_loop a (e.inbox.take 10)).1.port
          e.port_now e.port_now2 e.port_rnd).resource ∧
      (mapper_admin_poll a e).admin.ordinal =
        (check_collisions (recv_loop a (e.inbox.take 10)).1.ordinal
          e.ordinal_now e.ordinal_now2 e.ordinal_rnd).resource ∧
      ((mapper_admin_poll a e).admin.registered = true →
        a.registered = true ∨ ((mapper_admin_poll a e).admin.port.locked = true ∧
          (mapper_admin_poll a e).admin.ordinal.locked = true)) := by
  have hp := poll_port_spec (recv_loop a (e.inbox.take 10)).1 e
  have ho := poll_ordinal_spec (poll_port (recv_loop a (e.inbox.take 10)).1 e).1 e
  have hg := poll_register_spec
    (poll_ordinal (poll_port (recv_loop a (e.inbox.take 10)).1 e).1 e).1
  have hf := (recv_loop_frame (e.inbox.take 10) a).1
  have e1 : (mapper_admin_poll a e).admin.port =
      (check_collisions (recv_loop a (e.inbox.take 10)).1.port
          e.port_now e.port_now2 e.port_rnd).resource := by
    simp only [mapper_admin_poll]
    rw [hg.1, ho.1, hp.2.2.2.2]
  have e2 : (mapper_admin_poll a e).admin.ordinal =
        (check_collisions (recv_loop a (e.inbox.take 10)).1.ordinal
          e.ordinal_now e.ordinal_now2 e.ordinal_rnd).resource := by
    simp only [mapper_admin_poll]
    rw [hg.2.1, ho.2.2.2.2, hp.1]
  refine ⟨e1, e2, fun h => ?_⟩
  have h3 := hg.2.2 h
  rcases h3 with h3 | h3
  · left
    rw [ho.2.1, hp.2.1, hf.2.1] at h3
    exact h3
  · right
    constructor
    · simp only [mapper_admin_poll]
      rw [hg.1]; exact h3.1
    · simp only [mapper_admin_poll]
      rw [hg.2.1]; exact h3.2

/-- Locks are never released by a poll. -/
theorem mapper_admin_poll_keeps_locks (a : mapper_admin_t) (e : poll_env) :
    (a.port.locked = true → (mapper_admin_poll a e).admin.port.locked = true) ∧
      (a.ordinal.locked = true → (mapper_admin_poll a e).admin.ordinal.locked = true) := by
  have hs := mapper_admin_poll_spec a e
  have hf := (recv_loop_frame (e.inbox.take 10) a).1
  have hp := (hf.2.2 .port).1
  have ho := (hf.2.2 .ordinal).1
  simp only [mapper_admin_t.get] at hp ho
  constructor
  · intro h
    rw [hs.1]
    exact check_collisions_keeps_lock _ _ _ _ (by rw [hp]; exact h)
  · intro h
    rw [hs.2.1]
    exact check_collisions_keeps_lock _ _ _ _ (by rw [ho]; exact h)

theorem admin_step_registered_locked {a b : mapper_admin_t} (h : admin_step a b)
    (ha : registered_locked a) : registered_locked b := by
  cases h with
  | poll e =>
    intro hr
    rcases (mapper_admin_poll_spec a e).2.2 hr with h | h
    · have := ha h
      exact ⟨(mapper_admin_poll_keeps_locks a e).1 this.1,
        (mapper_admin_poll_keeps_locks a e).2 this.2⟩
    · exact h
  | handler m =>
    intro hr
    have hf := (dispatch_frame a m).1
    have hp := (hf.2.2 .port).1
    have ho := (hf.2.2 .ordinal).1
    simp only [mapper_admin_t.get] at hp ho
    rw [hf.2.1] at hr
    rw [hp, ho]
    exact ha hr

theorem check_collisions_stays_unlocked (resource : mapper_admin_allocated_t) (now now2 : Int)
    (rnd : Nat) (hu : resource.locked = false) (h : now - resource.count_time < 2000000) :
    (check_collisions resource now now2 rnd).resource.locked = false := by
  by_cases hc : 500000 ≤ now - resource.count_time ∧ 0 < resource.collision_count
  · rw [check_collisions_bump_eq resource now now2 rnd hu h hc]
    exact hu
  · rw [check_collisions_idle_eq resource now now2 rnd hu h hc]
    exact hu

theorem check_collisions_lock_out (res : mapper_admin_allocated_t) (now now2 : Int) (rnd : Nat)
    (hu : res.locked = false) (hl : (check_collisions res now now2 rnd).resource.locked = true)
    (hcb : res.on_lock = true) :
    (check_collisions res now now2 rnd).ret = 0 ∧
      effect.on_lock (check_collisions res now now2 rnd).resource ∈
        (check_collisions res now now2 rnd).out := by
  by_cases h : 2000000 ≤ now - res.count_time
  · rw [check_collisions_lock_eq res now now2 rnd hu h]
    simp [hcb]
  · have := check_collisions_stays_unlocked res now now2 rnd hu (by omega)
    rw [this] at hl
    exact Bool.noConfusion hl

theorem poll_port_lock_out (a : mapper_admin_t) (e : poll_env) (hu : a.port.locked = false)
    (hl : (poll_port a e).1.port.locked = true) (hcb : a.port.on_lock = true) :
    effect.on_lock (poll_port a e).1.port ∈ (poll_port a e).2 := by
  have hs := (poll_port_spec a e).2.2.2.2
  rw [hs] at hl ⊢
  have hc := check_collisions_lock_out a.port _ _ _ hu hl hcb
  unfold poll_port
  simp [hu, hc.1, hc.2]

theorem poll_ordinal_lock_out (a : mapper_admin_t) (e : poll_env) (hu : a.ordinal.locked = false)
    (hl : (poll_ordinal a e).1.ordinal.locked = true) (hcb : a.ordinal.on_lock = true) :
    effect.on_lock (poll_ordinal a e).1.ordinal ∈ (poll_ordinal a e).2 := by
  have hs := (poll_ordinal_spec a e).2.2.2.2
  rw [hs] at hl ⊢
  have hc := check_collisions_lock_out a.ordinal _ _ _ hu hl hcb
  unfold poll_ordinal
  simp [hu, hc.1, hc.2]

theorem poll_calls_on_lock_aux (admin : mapper_admin_t) (e : poll_env) :
    (admin.port.locked = false → (mapper_admin_poll admin e).admin.port.locked = true →
      admin.port.on_lock = true →
      effect.on_lock (mapper_admin_poll admin e).admin.port ∈ (mapper_admin_poll admin e).out) ∧
    (admin.ordinal.locked = false → (mapper_admin_poll admin e).admin.ordinal.locked = true →
      admin.ordinal.on_lock = true →
      effect.on_lock (mapper_admin_poll admin e).admin.ordinal ∈
        (mapper_admin_poll admin e).out) := by
  have hf := (recv_loop_frame (e.inbox.take 10) admin).1
  have hfp := hf.2.2 .port
  have hfo := hf.2.2 .ordinal
  simp only [mapper_admin_t.get] at hfp hfo
  have hp := poll_port_spec (recv_loop admin (e.inbox.take 10)).1 e
  have ho := poll_ordinal_spec (poll_port (recv_loop admin (e.inbox.take 10)).1 e).1 e
  have hg := poll_register_spec
    (poll_ordinal (poll_port (recv_loop admin (e.inbox.take 10)).1 e).1 e).1
  constructor
  · intro hu hl hcb
    have e1 : (mapper_admin_poll admin e).admin.port =
        (poll_port (recv_loop admin (e.inbox.take 10)).1 e).1.port := by
      simp only [mapper_admin_poll]
      rw [hg.1, ho.1]
    rw [e1] at hl ⊢
    have := poll_port_lock_out (recv_loop admin (e.inbox.take 10)).1 e
      (by rw [hfp.1]; exact hu) hl (by rw [hfp.2.2.1]; exact hcb)
    simp only [mapper_admin_poll, List.mem_append]
    exact Or.inl (Or.inl (Or.inr this))
  · intro hu hl hcb
    have e1 : (mapper_admin_poll admin e).admin.ordinal =
        (poll_ordinal (poll_port (recv_loop admin (e.inbox.take 10)).1 e).1 e).1.ordinal := by
      simp only [mapper_admin_poll]
      rw [hg.2.1]
    rw [e1] at hl ⊢
    have := poll_ordinal_lock_out (poll_port (recv_loop admin (e.inbox.take 10)).1 e).1 e
      (by rw [hp.1, hfo.1]; exact hu) hl (by rw [hp.1, hfo.2.2.1]; exact hcb)
    simp only [mapper_admin_poll, List.mem_append]
    exact Or.inl (Or.inr this)

/-! ## The poll and the announcements -/

/-- C3 (as stated, refuted): a device alone on the bus, unlocked, polls 2.0 s
after its creation with nothing to receive: the poll locks the port and the
ordinal and registers, and the only message it sends is `/who`; neither
`/port/registered` nor `/name/registered` is emitted. -/
theorem poll_locks_without_announcement :
    test_admin.port.locked = false ∧ test_admin.ordinal.locked = false ∧
    (mapper_admin_poll test_admin quiet_poll).admin.port.locked = true ∧
    (mapper_admin_poll test_admin quiet_poll).admin.ordinal.locked = true ∧
    (mapper_admin_poll test_admin quiet_poll).out = [effect.send "/who" []] := by
  decide

/-- C3 (amended): a poll never emits `/port/registered` for a port it found
unlocked, nor `/name/registered` for an ordinal it found unlocked, whether or
not it locks them; what a poll that locks a resource does is call the
resource's `on_lock` callback, when one is set, with the locked resource. -/
theorem poll_lock_calls_on_lock_only (admin : mapper_admin_t) (e : poll_env) :
    ((admin.port.locked = false →
        ∀ args, effect.send "/port/registered" args ∉ (mapper_admin_poll admin e).out) ∧
      (admin.ordinal.locked = false →
        ∀ args, effect.send "/name/registered" args ∉ (mapper_admin_poll admin e).out)) ∧
    ((admin.port.locked = false → (mapper_admin_poll admin e).admin.port.locked = true →
        admin.port.on_lock = true →
        effect.on_lock (mapper_admin_poll admin e).admin.port ∈
          (mapper_admin_poll admin e).out) ∧
      (admin.ordinal.locked = false → (mapper_admin_poll admin e).admin.ordinal.locked = true →
        admin.ordinal.on_lock = true →
        effect.on_lock (mapper_admin_poll admin e).admin.ordinal ∈
          (mapper_admin_poll admin e).out)) :=
  ⟨poll_no_announcement_aux admin e, poll_calls_on_lock_aux admin e⟩

/-- C3 (amended) at a concrete input: the lone device's locking poll sends no
`/port/registered 9000`. -/
theorem poll_lock_calls_on_lock_only_witness :
    effect.send "/port/registered" [lo_arg.i 9000] ∉ (mapper_admin_poll test_admin quiet_poll).out :=
  (poll_lock_calls_on_lock_only test_admin quiet_poll).1.1 (by decide) [lo_arg.i 9000]

/-- C4: `on_collision` on the port or the ordinal of an admin whose callbacks are
the ones `mapper_admin_new` installs adds exactly 1 to `collision_count`, sets
`count_time` to the clock reading, keeps `value` and `locked`, and sends the
resource's announcement (`/port/registered value`, `/name/registered name`)
exactly when the resource is already locked, and nothing otherwise. -/
theorem on_collision_counts (r : resource_ref) (admin : mapper_admin_t) (now : Int)
    (hw : (admin.get r).on_collision = some (installed_handler r)) :
    ((on_collision r admin now).1.get r).collision_count = (admin.get r).collision_count + 1 ∧
    ((on_collision r admin now).1.get r).count_time = now ∧
    ((on_collision r admin now).1.get r).value = (admin.get r).value ∧
    ((on_collision r admin now).1.get r).locked = (admin.get r).locked ∧
    (on_collision r admin now).2 = (if (admin.get r).locked then [announcement admin r] else []) := by
  cases r
  · simp only [mapper_admin_t.get, installed_handler] at hw
    cases hl : admin.port.locked <;>
      simp [on_collision, mapper_admin_t.get, mapper_admin_t.set, hw, hl, collision_handler.call,
        mapper_admin_port_registered, announcement]
  · simp only [mapper_admin_t.get, installed_handler] at hw
    have hn := admin_name_resources admin
    cases hl : admin.ordinal.locked <;>
      simp [on_collision, mapper_admin_t.get, mapper_admin_t.set, hw, hl, collision_handler.call,
        mapper_admin_name_registered, announcement, hn.2.1]

/-- C4 at a concrete input: the registered lone device meets a collision on its
ordinal. -/
theorem on_collision_counts_witness :
    ((on_collision .ordinal registered_admin 7000000).1.get .ordinal).collision_count = 0 ∧
    (on_collision .ordinal registered_admin 7000000).2 =
      [effect.send "/name/registered" [lo_arg.s "/test.1".toList]] :=
  ⟨(on_collision_counts .ordinal registered_admin 7000000 (by decide)).1,
    (on_collision_counts .ordinal registered_admin 7000000 (by decide)).2.2.2.2⟩

/-- C7: in every state reachable from `mapper_admin_new` by polls and message
handlers, `registered` set implies that the port and the ordinal are both
locked; and a poll of any state that sets `registered` does so with both
locked. -/
theorem registered_implies_locked (identifier : List Char) (initial_port t_ordinal t_port : Int)
    (ordinal_on_lock port_on_lock : Bool) (a : mapper_admin_t)
    (h : admin_reachable
      (mapper_admin_new identifier initial_port t_ordinal t_port ordinal_on_lock port_on_lock).1 a) :
    (a.registered = true → a.port.locked = true ∧ a.ordinal.locked = true) ∧
    (∀ (b : mapper_admin_t) (e : poll_env), b.registered = false →
      (mapper_admin_poll b e).admin.registered = true →
      (mapper_admin_poll b e).admin.port.locked = true ∧
        (mapper_admin_poll b e).admin.ordinal.locked = true) := by
  constructor
  · induction h with
    | init => intro hr; simp [mapper_admin_new] at hr
    | step _ hs ih => exact admin_step_registered_locked hs ih
  · intro b e hr hreg
    rcases (mapper_admin_poll_spec b e).2.2 hreg with h1 | h1
    · rw [hr] at h1; exact Bool.noConfusion h1
    · exact h1

/-- C7 at a concrete input: the lone device after its locking poll. -/
theorem registered_implies_locked_witness :
    registered_admin.registered = true ∧ registered_admin.port.locked = true ∧
      registered_admin.ordinal.locked = true :=
  ⟨by decide, (registered_implies_locked "test".toList 9000 0 0 false false registered_admin
    (admin_reachable.step admin_reachable.init (admin_step.poll _ quiet_poll))).1 (by decide)⟩

/-! ## Counting collisions -/

theorem handler_call_resources (h : collision_handler) (a : mapper_admin_t) (r : resource_ref) :
    (h.call a).1.get r = a.get r := by
  have hn := admin_name_resources a
  cases h <;> cases r
  · simp only [collision_handler.call, mapper_admin_port_registered]; split <;> rfl
  · simp only [collision_handler.call, mapper_admin_port_registered]; split <;> rfl
  · simp only [collision_handler.call, mapper_admin_name_registered]
    split
    · exact hn.1
    · rfl
  · simp only [collision_handler.call, mapper_admin_name_registered]
    split
    · exact hn.2.1
    · rfl

theorem get_set_same (a : mapper_admin_t) (r : resource_ref) (v : mapper_admin_allocated_t) :
    (a.set r v).get r = v := by
  cases r <;> rfl

/-- The resource a collision was counted on: only the counter and its time change. -/
theorem on_collision_get (r : resource_ref) (a : mapper_admin_t) (now : Int) :
    (on_collision r a now).1.get r =
      { a.get r with collision_count := (a.get r).collision_count + 1, count_time := now } := by
  unfold on_collision
  rw [get_set_same]
  have key : (match (a.get r).locked, (a.get r).on_collision with
      | true, some h => h.call a
      | _, _ => (a, [])).1.get r = a.get r := by
    split
    · exact handler_call_resources _ a r
    · rfl
  simp only [key]

theorem on_collision_seq_count (r : resource_ref) (ts : List Int) (a : mapper_admin_t) :
    ((on_collision_seq r a ts).get r).collision_count = (a.get r).collision_count + ts.length := by
  induction ts generalizing a with
  | nil => simp [on_collision_seq]
  | cons t ts ih =>
    simp only [on_collision_seq, List.length_cons]
    rw [ih, on_collision_get]
    push_cast
    ring

theorem check_collisions_ret_one (res : mapper_admin_allocated_t) (now now2 : Int) (rnd : Nat)
    (h : (check_collisions res now now2 rnd).ret = 1) : 0 < res.collision_count := by
  unfold check_collisions at h
  split at h
  · simp at h
  · simp only at h
    split at h
    · simp at h
    · split at h
      · rename_i hc; exact hc.2
      · simp at h

/-- With no collision counted (`collision_count ≤ 0`) a sequence of checks never
bumps: the value, the counter and its time stay, every call returns 0. -/
theorem check_collisions_seq_quiet (calls : List (Int × Int × Nat))
    (res : mapper_admin_allocated_t) (hc : res.collision_count ≤ 0) :
    (check_collisions_seq res calls).1.value = res.value ∧
      (∀ ret ∈ (check_collisions_seq res calls).2, ret = 0) ∧
      (res.locked = true → (check_collisions_seq res calls).1.locked = true) ∧
      ((∃ c ∈ calls, 2000000 ≤ c.1 - res.count_time) →
        (check_collisions_seq res calls).1.locked = true) := by
  induction calls generalizing res with
  | nil => simp [check_collisions_seq]
  | cons c cs ih =>
    simp only [check_collisions_seq, List.mem_cons, forall_eq_or_imp, exists_eq_or_imp]
    have step : (check_collisions res c.1 c.2.1 c.2.2).ret = 0 ∧
        (check_collisions res c.1 c.2.1 c.2.2).resource.value = res.value ∧
        (check_collisions res c.1 c.2.1 c.2.2).resource.collision_count = res.collision_count ∧
        (check_collisions res c.1 c.2.1 c.2.2).resource.count_time = res.count_time ∧
        (res.locked = true → (check_collisions res c.1 c.2.1 c.2.2).resource.locked = true) ∧
        (2000000 ≤ c.1 - res.count_time →
          (check_collisions res c.1 c.2.1 c.2.2).resource.locked = true) := by
      cases hl : res.locked
      · by_cases ht : 2000000 ≤ c.1 - res.count_time
        · rw [check_collisions_lock_eq res _ _ _ hl ht]
          simp
        · rw [check_collisions_idle_eq res _ _ _ hl (by omega) (by omega)]
          simp [hl, ht]
      · rw [check_collisions_locked_eq res _ _ _ hl]
        simp [hl]
    have h := ih (check_collisions res c.1 c.2.1 c.2.2).resource (by rw [step.2.2.1]; exact hc)
    refine ⟨by rw [h.1, step.2.1], ⟨step.1, h.2.1⟩, fun hl => h.2.2.1 (step.2.2.2.2.1 hl), ?_⟩
    rintro (hx | ⟨x, hx, hx2⟩)
    · exact h.2.2.1 (step.2.2.2.2.2 hx)
    · exact h.2.2.2 ⟨x, hx, by rw [step.2.2.2.1]; exact hx2⟩

/-- C5: a resource of a newly made admin has `collision_count = -1`; after one
colliding probe it is 0; from there no sequence of `check_collisions` calls
changes the value (the ordinal stays 1, the port stays the seeded
`initial_port`) or returns 1; the resource is locked once a call comes 2.0 s or
more after the echo; and a call can return 1 (bump and re-probe) only after at
least two collisions were counted since `collision_count` was -1. -/
theorem single_echo_never_bumps (identifier : List Char)
    (initial_port t_ordinal t_port : Int) (ordinal_on_lock port_on_lock : Bool)
    (r : resource_ref) (t1 : Int) (calls : List (Int × Int × Nat)) :
    (((mapper_admin_new identifier initial_port t_ordinal t_port ordinal_on_lock
        port_on_lock).1.get r).collision_count = -1 ∧
      ((on_collision r (mapper_admin_new identifier initial_port t_ordinal t_port ordinal_on_lock
        port_on_lock).1 t1).1.get r).collision_count = 0) ∧
    ((check_collisions_seq ((on_collision r (mapper_admin_new identifier initial_port t_ordinal
        t_port ordinal_on_lock port_on_lock).1 t1).1.get r) calls).1.value =
        (match r with
          | .port => to_unsigned initial_port
          | .ordinal => 1) ∧
      (0 ≤ initial_port → initial_port < 4294967296 →
        ((to_unsigned initial_port : Nat) : Int) = initial_port)) ∧
    (∀ ret ∈ (check_collisions_seq ((on_collision r (mapper_admin_new identifier initial_port
        t_ordinal t_port ordinal_on_lock port_on_lock).1 t1).1.get r) calls).2, ret = 0) ∧
    ((∃ c ∈ calls, 2000000 ≤ c.1 - t1) →
      (check_collisions_seq ((on_collision r (mapper_admin_new identifier initial_port t_ordinal
        t_port ordinal_on_lock port_on_lock).1 t1).1.get r) calls).1.locked = true) ∧
    (∀ (a : mapper_admin_t) (ts : List Int) (now now2 : Int) (rnd : Nat),
      (a.get r).collision_count = -1 →
      (check_collisions ((on_collision_seq r a ts).get r) now now2 rnd).ret = 1 →
      2 ≤ ts.length) := by
  have hq := check_collisions_seq_quiet calls
    ((on_collision r (mapper_admin_new identifier initial_port t_ordinal t_port ordinal_on_lock
        port_on_lock).1 t1).1.get r)
    (by rw [on_collision_get]; cases r <;> simp [mapper_admin_new, mapper_admin_t.get])
  refine ⟨⟨by cases r <;> rfl, ?_⟩, ⟨?_, ?_⟩, hq.2.1, ?_, ?_⟩
  · rw [on_collision_get]; cases r <;> simp [mapper_admin_new, mapper_admin_t.get]
  · rw [hq.1, on_collision_get]; cases r <;> rfl
  · intro h0 h1
    unfold to_unsigned
    omega
  · intro h
    apply hq.2.2.2
    rw [on_collision_get]
    exact h
  · intro a ts now now2 rnd hc hret
    have := check_collisions_ret_one _ _ _ _ hret
    rw [on_collision_seq_count, hc] at this
    omega

/-- C5 at a concrete input: the lone device's port, its echo handled at 0.1 s,
checked at 0.7 s and at 2.1 s, ends locked. -/
theorem single_echo_never_bumps_witness :
    (check_collisions_seq ((on_collision .port (mapper_admin_new "test".toList 9000 0 0 false
        false).1 100000).1.get .port) [(700000, 700000, 3), (2100000, 2100000, 5)]).1.locked =
      true :=
  (single_echo_never_bumps "test".toList 9000 0 0 false false .port 100000
    [(700000, 700000, 3), (2100000, 2100000, 5)]).2.2.2.1
    ⟨(2100000, 2100000, 5), by decide, by decide⟩

/-! ## Names -/

theorem takeWhile_not_dot (id rest : List Char) (h : '.' ∉ id) :
    (id ++ '.' :: rest).takeWhile (fun c => decide (c ≠ '.')) = id := by
  induction id with
  | nil => simp
  | cons c cs ih =>
    have hc : c ≠ '.' := fun e => h (by simp [e])
    have hcs : '.' ∉ cs := fun e => h (List.mem_cons_of_mem _ e)
    have := ih hcs
    show List.takeWhile (fun c => decide (c ≠ '.')) (c :: (cs ++ '.' :: rest)) = c :: cs
    rw [List.takeWhile_cons, this]
    simp [hc]

theorem dropWhile_not_dot (id rest : List Char) (h : '.' ∉ id) :
    (id ++ '.' :: rest).dropWhile (fun c => decide (c ≠ '.')) = '.' :: rest := by
  induction id with
  | nil => simp
  | cons c cs ih =>
    have hc : c ≠ '.' := fun e => h (by simp [e])
    have hcs : '.' ∉ cs := fun e => h (List.mem_cons_of_mem _ e)
    have := ih hcs
    show List.dropWhile (fun c => decide (c ≠ '.')) (c :: (cs ++ '.' :: rest)) = '.' :: rest
    rw [List.dropWhile_cons, this]
    simp [hc]

/-- For a probed name `/<id>.<rest>` whose `<id>` has no dot, the handler counts
a collision exactly when `<id>` is the identifier and `atoi(<rest>)` is the
ordinal; a name without leading slash, or an argument that is no string,
counts nothing. -/
theorem alloc_name_collides_iff (admin : mapper_admin_t) (id rest : List Char)
    (path : String) (more : List lo_arg) (now : Int) (beyond : List Char) (h : '.' ∉ id) :
    handler_device_alloc_name admin ⟨path, lo_arg.s ('/' :: (id ++ '.' :: rest)) :: more, now, beyond⟩ =
      (if id = admin.identifier ∧ to_unsigned (atoi rest) = admin.ordinal.value then
        on_collision .ordinal admin now
      else (admin, [])) := by
  simp only [handler_device_alloc_name, alloc_name_parse, takeWhile_not_dot id rest h,
    dropWhile_not_dot id rest h]

theorem alloc_name_rejects (admin : mapper_admin_t) (path : String) (now : Int)
    (beyond : List Char) :
    (∀ (c : Char) (cs : List Char) (more : List lo_arg), c ≠ '/' →
      handler_device_alloc_name admin ⟨path, lo_arg.s (c :: cs) :: more, now, beyond⟩ = (admin, [])) ∧
    (∀ (v : Int) (more : List lo_arg),
      handler_device_alloc_name admin ⟨path, lo_arg.i v :: more, now, beyond⟩ = (admin, [])) ∧
    (∀ (v : ℚ) (more : List lo_arg),
      handler_device_alloc_name admin ⟨path, lo_arg.f v :: more, now, beyond⟩ = (admin, [])) ∧
    handler_device_alloc_name admin ⟨path, [], now, beyond⟩ = (admin, []) := by
  refine ⟨?_, fun _ _ => rfl, fun _ _ => rfl, rfl⟩
  intro c cs more hc
  simp only [handler_device_alloc_name, alloc_name_parse]
  split
  · rename_i heq
    simp only [List.cons.injEq] at heq
    exact absurd heq.1.symm (fun e => hc e.symm)
  · rfl

set_option maxRecDepth 1000000 in
theorem fmt_d_short : ∀ v : Fin 1000, (fmt_d (to_int v.val)).length ≤ 3 := by
  decide

/-- For an ordinal below 1000 the name built on first use is the whole
`"/" + identifier + "." + decimal(ordinal)`. -/
theorem admin_name_below_1000 (admin : mapper_admin_t) (hl : admin.ordinal.locked = true)
    (hn : admin.name = none) (hv : admin.ordinal.value < 1000) :
    (_real_mapper_admin_name admin).1 = some (fmt_name admin.identifier admin.ordinal.value) := by
  have hs := fmt_d_short ⟨admin.ordinal.value, hv⟩
  simp only at hs
  simp only [_real_mapper_admin_name, hl, hn, snprintf, fmt_name]
  simp only [Bool.not_true, Bool.false_eq_true, if_false, Option.some.injEq]
  apply List.take_of_length_le
  simp only [List.length_cons, List.length_append]
  omega

/-- C6 (the code at the failing input): a device whose identifier is `a.b` probes
`/a.b.1`; handed that very probe, `handler_device_alloc_name` cuts the name at
the first dot, compares `a` with `a.b`, and counts no collision, while a device
whose identifier has no dot counts its own probe. -/
theorem dotted_identifier_misses_own_probe :
    dotted_admin.identifier = "a.b".toList ∧ dotted_admin.ordinal.value = 1 ∧
    mapper_admin_name_probe dotted_admin =
      [effect.send "/name/probe" [lo_arg.s "/a.b.1".toList]] ∧
    handler_device_alloc_name dotted_admin
      ⟨"/name/probe", [lo_arg.s "/a.b.1".toList], 100000, []⟩ = (dotted_admin, []) ∧
    (handler_device_alloc_name test_admin
      ⟨"/name/probe", [lo_arg.s "/test.1".toList], 100000, []⟩).1.ordinal.collision_count = 0 := by
  decide

/-- C8 (the code at the failing input): with identifier `a` and the ordinal locked
at 1000, `mapper_admin_name` returns `/a.100`: the buffer of
`strlen(identifier) + 6` bytes has room for three digits only.  The probe built
by `mapper_admin_name_probe` in its 256-byte buffer is `/a.1000`. -/
theorem name_cut_at_1000 :
    thousand_admin.ordinal.locked = true ∧
    (_real_mapper_admin_name thousand_admin).1 = some "/a.100".toList ∧
    mapper_admin_name_probe thousand_admin =
      [effect.send "/name/probe" [lo_arg.s "/a.1000".toList]] := by
  decide

/-! ## The bus -/

theorem get_set_other (a : mapper_admin_t) (r q : resource_ref) (v : mapper_admin_allocated_t)
    (h : r ≠ q) : (a.set r v).get q = a.get q := by
  cases r <;> cases q <;> first | rfl | exact absurd rfl h

theorem on_collision_other (r q : resource_ref) (a : mapper_admin_t) (now : Int) (h : r ≠ q) :
    (on_collision r a now).1.get q = a.get q := by
  unfold on_collision
  rw [get_set_other _ _ _ _ h]
  split
  · exact handler_call_resources _ a q
  · rfl

theorem on_collision_ordinal_counted (r : resource_ref) (a : mapper_admin_t) (now : Int) :
    ordinal_counted a (on_collision r a now).1 now := by
  cases r
  · exact Or.inl (on_collision_other .port .ordinal a now (by decide))
  · exact Or.inr (on_collision_get .ordinal a now)

theorem dispatch_ordinal_counted (a : mapper_admin_t) (m : incoming) :
    ordinal_counted a (dispatch a m).1 m.now := by
  have keep : ordinal_counted a a m.now := Or.inl rfl
  have hp : ordinal_counted a (handler_device_alloc_port a m).1 m.now := by
    unfold handler_device_alloc_port
    split
    · exact keep
    · split
      · exact on_collision_ordinal_counted _ a _
      · exact keep
    · split
      · exact on_collision_ordinal_counted _ a _
      · exact keep
    · exact keep
  have hparse : ∀ n, ordinal_counted a (alloc_name_parse a n m).1 m.now := by
    intro n
    unfold alloc_name_parse
    split
    · simp only
      split
      · exact on_collision_ordinal_counted _ a _
      · exact keep
    · exact keep
  have hn : ordinal_counted a (handler_device_alloc_name a m).1 m.now := by
    unfold handler_device_alloc_name
    split
    · exact keep
    · exact hparse _
    · exact hparse _
    · exact keep
  unfold dispatch
  split
  · exact hp
  · split
    · exact hn
    · split
      · split
        · exact keep
        · exact hp
      · split
        · split
          · exact keep
          · exact hn
        · exact keep

/-- After the receive loop of a poll at time `now` the ordinal is as before, or
collisions were counted and `count_time` is `now`. -/
theorem recv_loop_ordinal (now : Int) (ms : List incoming) (a : mapper_admin_t)
    (hnow : ∀ m ∈ ms, m.now = now) :
    (recv_loop a ms).1.ordinal = a.ordinal ∨
      ((recv_loop a ms).1.ordinal.count_time = now ∧
        a.ordinal.collision_count < (recv_loop a ms).1.ordinal.collision_count) := by
  induction ms generalizing a with
  | nil => exact Or.inl rfl
  | cons m ms ih =>
    simp only [recv_loop]
    have hm : m.now = now := hnow m (List.mem_cons_self _ _)
    have h1 := dispatch_ordinal_counted a m
    rw [hm] at h1
    have h2 := ih (dispatch a m).1 (fun x hx => hnow x (List.mem_cons_of_mem _ hx))
    rcases h1 with h1 | h1 <;> rcases h2 with h2 | h2
    · left; rw [h2, h1]
    · right; rw [← h1]; exact h2
    · right; rw [h2, h1]; simp
    · right
      refine ⟨h2.1, ?_⟩
      have := h2.2
      rw [h1] at this
      simp only at this
      omega

theorem check_collisions_locks_iff (res : mapper_admin_allocated_t) (now now2 : Int) (rnd : Nat)
    (hu : res.locked = false) :
    ((check_collisions res now now2 rnd).resource.locked = true ↔
        2000000 ≤ now - res.count_time) ∧
      ((check_collisions res now now2 rnd).resource.locked = true →
        (check_collisions res now now2 rnd).resource.value = res.value) := by
  by_cases h : 2000000 ≤ now - res.count_time
  · rw [check_collisions_lock_eq res now now2 rnd hu h]
    simp [h]
  · have := check_collisions_stays_unlocked res now now2 rnd hu (by omega)
    simp [this, h]

theorem bus_poll_get (b : List bus_device) (i : Nat) (now : Int) (port_rnd ordinal_rnd : Nat)
    (d : bus_device) (hd : b.get? i = some d) :
    (bus_step b (.poll i now port_rnd ordinal_rnd)).get? i =
      some ⟨(mapper_admin_poll d.admin (bus_poll_env d now port_rnd ordinal_rnd)).admin,
        d.socket.drop 10 ++
          sent (mapper_admin_poll d.admin (bus_poll_env d now port_rnd ordinal_rnd)).out⟩ := by
  have hi : i < b.length := by
    rcases Nat.lt_or_ge i b.length with h | h
    · exact h
    · rw [List.get?_eq_none.mpr h] at hd; exact Option.noConfusion hd
  simp only [bus_step, hd, deliver]
  rw [List.get?_eq_getElem?, List.getElem?_map, List.getElem?_set_self (by simpa using hi)]
  rfl

/-- C9 (as stated, refuted): in the run `late_answer_trace` of the bus the two
devices have the same identifier `d` and both end with the ordinal locked at 1:
B locked before A handled B's probe, which still waits on A's socket. -/
theorem late_answer_same_ordinal :
    (bus_run late_answer_trace).map
        (fun d => (d.admin.identifier, d.admin.ordinal.locked, d.admin.ordinal.value)) =
      [("d".toList, true, 1), ("d".toList, true, 1)] ∧
    ((bus_run late_answer_trace).get? 0).map
        (fun d => decide ((⟨"/name/probe", [lo_arg.s "/d.1".toList]⟩ : osc_message) ∈ d.socket)) =
      some true := by
  decide

/-- C9 (amended): when a device on the bus polls with its ordinal unlocked, the
poll locks the ordinal exactly when 2.0 s have passed since `count_time` and
none of the messages handled in that poll counted a collision on it, and the
locked value is the value it had; nothing in the step looks at the other
devices, so distinctness rests on the answers being handled in time. -/
theorem bus_poll_lock_needs_quiet (b : List bus_device) (i : Nat) (now : Int)
    (port_rnd ordinal_rnd : Nat) (d : bus_device) (hd : b.get? i = some d)
    (hu : d.admin.ordinal.locked = false) :
    ∃ d2, (bus_step b (.poll i now port_rnd ordinal_rnd)).get? i = some d2 ∧
      d2.admin = (mapper_admin_poll d.admin (bus_poll_env d now port_rnd ordinal_rnd)).admin ∧
      (d2.admin.ordinal.locked = true ↔
        (2000000 ≤ now - d.admin.ordinal.count_time ∧
          (recv_loop d.admin ((d.socket.map (receive now)).take 10)).1.ordinal =
            d.admin.ordinal)) ∧
      (d2.admin.ordinal.locked = true → d2.admin.ordinal.value = d.admin.ordinal.value) := by
  refine ⟨_, bus_poll_get b i now port_rnd ordinal_rnd d hd, rfl, ?_⟩
  simp only
  have hs := (mapper_admin_poll_spec d.admin (bus_poll_env d now port_rnd ordinal_rnd)).2.1
  have hf := ((recv_loop_frame ((d.socket.map (receive now)).take 10) d.admin).1.2.2 .ordinal)
  simp only [mapper_admin_t.get] at hf
  have hr := recv_loop_ordinal now ((d.socket.map (receive now)).take 10) d.admin (by
    intro m hm
    have := List.mem_of_mem_take hm
    simp only [List.mem_map] at this
    obtain ⟨x, _, rfl⟩ := this
    rfl)
  have hk := check_collisions_locks_iff
    (recv_loop d.admin ((d.socket.map (receive now)).take 10)).1.ordinal now now ordinal_rnd
    (by rw [hf.1]; exact hu)
  simp only [bus_poll_env] at hs ⊢
  rw [hs]
  constructor
  · rw [hk.1]
    constructor
    · intro h
      rcases hr with e | ⟨e1, _⟩
      · exact ⟨by rw [e] at h; exact h, e⟩
      · rw [e1] at h; omega
    · intro h
      rw [h.2]; exact h.1
  · intro h
    rw [hk.2 h, hf.2.1]

/-- C9 (amended) at a concrete input: the lone device polls 2.0 s after its
creation. -/
theorem bus_poll_lock_needs_quiet_witness :
    ∃ d2, (bus_step [⟨test_admin, []⟩] (.poll 0 2000000 0 0)).get? 0 = some d2 ∧
      d2.admin = (mapper_admin_poll test_admin (bus_poll_env ⟨test_admin, []⟩ 2000000 0 0)).admin ∧
      (d2.admin.ordinal.locked = true ↔
        (2000000 ≤ 2000000 - test_admin.ordinal.count_time ∧
          (recv_loop test_admin ((([] : List osc_message).map (receive 2000000)).take 10)).1.ordinal =
            test_admin.ordinal)) ∧
      (d2.admin.ordinal.locked = true → d2.admin.ordinal.value = test_admin.ordinal.value) :=
  bus_poll_lock_needs_quiet [⟨test_admin, []⟩] 0 2000000 0 0 ⟨test_admin, []⟩ rfl (by decide)

/-! ## Device records -/

theorem device_by_name_from_none {α : Type} (n : List Char) (ds : List (mapper_device α))
    (k : Nat) : device_by_name_from n ds k = none ↔ ∀ d ∈ ds, d.name ≠ n := by
  induction ds generalizing k with
  | nil => simp [device_by_name_from]
  | cons d ds ih =>
    simp only [device_by_name_from, List.mem_cons, forall_eq_or_imp]
    by_cases h : d.name = n
    · simp [h]
    · simp [h, ih]

theorem device_by_name_from_some {α : Type} (n : List Char) (ds : List (mapper_device α))
    (k i : Nat) (h : device_by_name_from n ds k = some i) :
    k ≤ i ∧ ∃ d, ds.get? (i - k) = some d ∧ d.name = n ∧
      ∀ j d2, j < i - k → ds.get? j = some d2 → d2.name ≠ n := by
  induction ds generalizing k with
  | nil => simp [device_by_name_from] at h
  | cons d ds ih =>
    simp only [device_by_name_from] at h
    by_cases hn : d.name = n
    · simp only [hn, if_true, Option.some.injEq] at h
      subst h
      exact ⟨le_refl _, d, by simp, hn, fun j d2 hj => by omega⟩
    · simp only [hn, if_false] at h
      obtain ⟨hk, d1, hg, hd1, hfirst⟩ := ih (k + 1) h
      refine ⟨by omega, d1, ?_, hd1, ?_⟩
      · have : i - k = (i - (k + 1)) + 1 := by omega
        rw [this]
        simpa using hg
      · intro j d2 hj hget
        cases j with
        | zero =>
          simp at hget
          subst hget
          exact hn
        | succ j =>
          simp at hget
          exact hfirst j d2 (by omega) (by simpa using hget)

/-- The two branches of `mapper_db_add_or_update_device_params`, by what its
lookup finds.  The lookup is `mapper_db_device_by_name` called with the name
that already went through `skip_slash`, so it finds no record exactly when no
record is named `skip_slash (skip_slash name)`; the record that is added is
named `skip_slash name`.  When the lookup finds nothing exactly one record is
added and every device callback is called once with `MAPPER_ADDED`; when it
finds a record no record is added, the record is updated in place, and the
callbacks are called with `MAPPER_MODIFIED` exactly when
`mapper_device_set_from_message` reports a change, and not at all otherwise;
in both cases the record's `synced` and the clock are set to the time read. -/
theorem add_or_update_device {α μ : Type} (env : device_env α μ) (db : mapper_db α)
    (name : List Char) (params : μ) (now : mapper_timetag_t) :
    (mapper_db_device_by_name db (skip_slash name) = none ↔
      ∀ d ∈ db.devices, d.name ≠ skip_slash (skip_slash name)) ∧
    (mapper_db_device_by_name db (skip_slash name) = none →
      ∃ dev : mapper_device α,
        (mapper_db_add_or_update_device_params env db name params now).db.devices =
          dev :: db.devices ∧
        dev.name = skip_slash name ∧ dev.synced = now ∧
        (mapper_db_add_or_update_device_params env db name params now).dev = some 0 ∧
        (mapper_db_add_or_update_device_params env db name params now).calls =
          db.device_callbacks.map (fun cb => ⟨cb, dev, .MAPPER_ADDED⟩)) ∧
    (∀ i, mapper_db_device_by_name db (skip_slash name) = some i →
      ∃ d : mapper_device α, db.devices.get? i = some d ∧
        d.name = skip_slash (skip_slash name) ∧
        (mapper_db_add_or_update_device_params env db name params now).db.devices =
          db.devices.set i
            { d with props := (env.mapper_device_set_from_message d params).1, synced := now } ∧
        (mapper_db_add_or_update_device_params env db name params now).db.devices.length =
          db.devices.length ∧
        (mapper_db_add_or_update_device_params env db name params now).dev = some i ∧
        (mapper_db_add_or_update_device_params env db name params now).calls =
          (if (env.mapper_device_set_from_message d params).2 ≠ 0 then
            db.device_callbacks.map (fun cb =>
              ⟨cb, { d with props := (env.mapper_device_set_from_message d params).1,
                            synced := now }, .MAPPER_MODIFIED⟩)
          else [])) ∧
    (mapper_db_add_or_update_device_params env db name params now).db.clock_now = now ∧
    (mapper_db_add_or_update_device_params env db name params now).db.device_callbacks =
      db.device_callbacks := by
  refine ⟨device_by_name_from_none _ _ _, ?_, ?_, ?_⟩
  · intro h
    refine ⟨{ name := skip_slash name
              id := (env.crc32 (skip_slash name) * 4294967296) % 18446744073709551616
              synced := now
              props := (env.mapper_device_set_from_message
                { name := skip_slash name
                  id := (env.crc32 (skip_slash name) * 4294967296) % 18446744073709551616
                  synced := ⟨0, 0⟩
                  props := env.blank } params).1 }, ?_⟩
    simp [mapper_db_add_or_update_device_params, h, update_device_at, mapper_list_add_item,
      fire_device_callbacks]
  · intro i h
    obtain ⟨_, d, hg, hn, _⟩ := device_by_name_from_some _ _ _ _ h
    simp only [Nat.sub_zero] at hg
    refine ⟨d, hg, hn, ?_⟩
    simp only [mapper_db_add_or_update_device_params, h, update_device_at, hg]
    by_cases hu : (env.mapper_device_set_from_message d params).2 = 0
    · simp [hu]
    · simp [hu, fire_device_callbacks]
  · simp only [mapper_db_add_or_update_device_params]
    cases h : mapper_db_device_by_name db (skip_slash name) with
    | none =>
      simp [update_device_at, mapper_list_add_item]
    | some i =>
      obtain ⟨_, d, hg, _, _⟩ := device_by_name_from_some _ _ _ _ h
      simp only [Nat.sub_zero] at hg
      simp only [update_device_at, hg]
      split <;> exact ⟨rfl, rfl⟩

/-- The adding branch at a concrete input: `/bar` is not in the database that
holds `foo`; one record is added and both callbacks are called with
`MAPPER_ADDED`. -/
theorem add_or_update_device_witness :
    ∃ dev : mapper_device Nat,
      (mapper_db_add_or_update_device_params count_env one_device_db "/bar".toList 7 ⟨5, 0⟩).db.devices =
        dev :: one_device_db.devices ∧
      dev.name = skip_slash "/bar".toList ∧ dev.synced = ⟨5, 0⟩ ∧
      (mapper_db_add_or_update_device_params count_env one_device_db "/bar".toList 7 ⟨5, 0⟩).dev =
        some 0 ∧
      (mapper_db_add_or_update_device_params count_env one_device_db "/bar".toList 7 ⟨5, 0⟩).calls =
        one_device_db.device_callbacks.map (fun cb => ⟨cb, dev, .MAPPER_ADDED⟩) :=
  (add_or_update_device count_env one_device_db "/bar".toList 7 ⟨5, 0⟩).2.1 (by decide)

/-- C10 (code bug): `mapper_db_add_or_update_device_params` names the new record
`skip_slash name` and looks it up with `mapper_db_device_by_name (skip_slash
name)`, which skips a leading slash once more.  For the name `//bar` the first
call adds a record named `/bar`; the second call with the same name looks for
`bar`, does not find the record of the first call, adds a second record named
`/bar` and calls both callbacks with `MAPPER_ADDED` again, although a device
with that name exists.  For `/bar` the second call finds the record: nothing is
added and, the message changing nothing, no callback is called. -/
theorem double_slash_adds_twice :
    (announced_once "//bar".toList).db.devices.map (fun d => d.name) =
      ["/bar".toList, "foo".toList] ∧
    (announced_once "//bar".toList).calls.map (fun c => (c.cb, c.dev.name, c.event)) =
      [(⟨1, 0⟩, "/bar".toList, .MAPPER_ADDED), (⟨2, 0⟩, "/bar".toList, .MAPPER_ADDED)] ∧
    (announced_twice "//bar".toList).db.devices.map (fun d => d.name) =
      ["/bar".toList, "/bar".toList, "foo".toList] ∧
    (announced_twice "//bar".toList).calls.map (fun c => (c.cb, c.dev.name, c.event)) =
      [(⟨1, 0⟩, "/bar".toList, .MAPPER_ADDED), (⟨2, 0⟩, "/bar".toList, .MAPPER_ADDED)] ∧
    (announced_twice "/bar".toList).db.devices.map (fun d => d.name) =
      ["bar".toList, "foo".toList] ∧
    (announced_twice "/bar".toList).calls.map (fun c => (c.cb, c.dev.name, c.event)) = [] := by
  decide

/-! ## Value comparison -/

theorem compare_loop_ints (a b : List Int) (h : a.length = b.length) (c d : Int)
    (hd : 0 ≤ d) :
    (compare_loop (fun x y => decide (x < y)) a.length a b (c, d)).1 = c + sign_sum a b ∧
      d ≤ (compare_loop (fun x y => decide (x < y)) a.length a b (c, d)).2 ∧
      (c = 0 → d = 0 →
        ((compare_loop (fun x y => decide (x < y)) a.length a b (c, d)).2 = 0 ↔ a = b)) := by
  induction a generalizing b c d with
  | nil =>
    cases b with
    | nil => simp [compare_loop, sign_sum]
    | cons y ys => simp at h
  | cons x xs ih =>
    cases b with
    | nil => simp at h
    | cons y ys =>
      simp only [List.length_cons, Nat.add_right_cancel_iff] at h
      simp only [List.length_cons, compare_loop, sign_sum, decide_eq_true_eq]
      have hs : (if y < x then (1 : Int) else 0) - (if x < y then 1 else 0) = Int.sign (x - y) := by
        rcases lt_trichotomy x y with hxy | hxy | hxy
        · have : ¬ y < x := by omega
          simp [this, hxy, Int.sign_eq_neg_one_of_neg (by omega : x - y < 0)]
        · subst hxy; simp
        · have : ¬ x < y := by omega
          simp [this, hxy, Int.sign_eq_one_of_pos (by omega : 0 < x - y)]
      have hc : c + (if y < x then (1 : Int) else 0) - (if x < y then 1 else 0)
          = c + Int.sign (x - y) := by rw [← hs]; ring
      rw [hc]
      have h1 := ih ys h (c + Int.sign (x - y)) (d + |c + Int.sign (x - y)|)
        (by positivity)
      refine ⟨by rw [h1.1]; ring, le_trans (by linarith [abs_nonneg (c + Int.sign (x - y))]) h1.2.1, ?_⟩
      intro hc0 hd0
      subst hc0 hd0
      simp only [zero_add, List.cons.injEq]
      by_cases hxy : x = y
      · subst hxy
        simp only [sub_self, Int.sign_zero, abs_zero, true_and]
        have := h1.2.2
        simp only [sub_self, Int.sign_zero, add_zero, abs_zero] at this
        simpa using this
      · have hne : Int.sign (x - y) ≠ 0 := by
          intro e
          exact hxy (by have := Int.sign_eq_zero_iff_zero.mp e; omega)
        have hpos : 0 < |Int.sign (x - y)| := abs_pos.mpr hne
        have hle := h1.2.1
        simp only [zero_add] at hle
        constructor
        · intro e; omega
        · intro e; exact absurd e.1 hxy

theorem compare_accumulate_ints (a b : List Int) (h : a.length = b.length) :
    ∃ d : Int, compare_accumulate a.length 'i' (.ints a) (.ints b) = some (sign_sum a b, d) ∧
      (d = 0 ↔ a = b) ∧ 0 ≤ d := by
  have hl := compare_loop_ints a b h 0 0 (le_refl 0)
  refine ⟨(compare_loop (fun x y => decide (x < y)) a.length a b (0, 0)).2, ?_, hl.2.2 rfl rfl,
    hl.2.1⟩
  have h1 := hl.1
  simp only [zero_add] at h1
  simp only [compare_accumulate, Char.reduceEq, if_false, if_true, ← h1]

theorem sign_sum_self (a : List Int) : sign_sum a a = 0 := by
  induction a with
  | nil => rfl
  | cons x xs ih => simp [sign_sum, ih]

/-- C14: for `int` vectors `a` and `b` of the same length, `compare_value` returns
1 for `EQUAL` exactly when the vectors are equal element by element, for
`NOT_EQUAL` exactly when they are not, and for `GREATER_THAN`,
`GREATER_THAN_OR_EQUAL`, `LESS_THAN`, `LESS_THAN_OR_EQUAL` exactly when the sum
of the signs of `a[i] - b[i]` is `> 0`, `≥ 0`, `< 0`, `≤ 0`; it returns 0
otherwise.  For length 1 these are the order relations on the two numbers. -/
theorem compare_value_ints (a b : List Int) (h : a.length = b.length) :
    (compare_value .MAPPER_OP_EQUAL a.length 'i' (.ints a) (.ints b) =
        if a = b then 1 else 0) ∧
    (compare_value .MAPPER_OP_NOT_EQUAL a.length 'i' (.ints a) (.ints b) =
        if a = b then 0 else 1) ∧
    (compare_value .MAPPER_OP_GREATER_THAN a.length 'i' (.ints a) (.ints b) =
        if 0 < sign_sum a b then 1 else 0) ∧
    (compare_value .MAPPER_OP_GREATER_THAN_OR_EQUAL a.length 'i' (.ints a) (.ints b) =
        if 0 ≤ sign_sum a b then 1 else 0) ∧
    (compare_value .MAPPER_OP_LESS_THAN a.length 'i' (.ints a) (.ints b) =
        if sign_sum a b < 0 then 1 else 0) ∧
    (compare_value .MAPPER_OP_LESS_THAN_OR_EQUAL a.length 'i' (.ints a) (.ints b) =
        if sign_sum a b ≤ 0 then 1 else 0) ∧
    (∀ x y : Int, (0 < sign_sum [x] [y] ↔ y < x) ∧ (0 ≤ sign_sum [x] [y] ↔ y ≤ x) ∧
      (sign_sum [x] [y] < 0 ↔ x < y) ∧ (sign_sum [x] [y] ≤ 0 ↔ x ≤ y)) := by
  obtain ⟨d, hacc, hd, hd0⟩ := compare_accumulate_ints a b h
  refine ⟨?_, ?_, ?_, ?_, ?_, ?_, ?_⟩
  · simp only [compare_value, hacc]
    by_cases e : a = b
    · have : d = 0 := hd.mpr e
      subst e
      simp [sign_sum_self, this]
    · have : d ≠ 0 := fun x => e (hd.mp x)
      simp [e, this]
  · simp only [compare_value, hacc]
    by_cases e : a = b
    · have : d = 0 := hd.mpr e
      subst e
      simp [sign_sum_self, this]
    · have : d ≠ 0 := fun x => e (hd.mp x)
      simp [e, this]
  · simp only [compare_value, hacc, gt_iff_lt]
  · simp only [compare_value, hacc, ge_iff_le]
  · simp only [compare_value, hacc]
  · simp only [compare_value, hacc]
  · intro x y
    simp only [sign_sum, add_zero]
    rcases lt_trichotomy x y with hxy | hxy | hxy
    · rw [Int.sign_eq_neg_one_of_neg (by omega : x - y < 0)]
      omega
    · subst hxy; simp
    · rw [Int.sign_eq_one_of_pos (by omega : 0 < x - y)]
      omega

/-- C14 at a concrete input: `[1, 0]` and `[0, 1]` have sign sum 0 and are not
equal. -/
theorem compare_value_ints_witness :
    compare_value .MAPPER_OP_EQUAL 2 'i' (.ints [1, 0]) (.ints [0, 1]) = 0 ∧
    compare_value .MAPPER_OP_GREATER_THAN_OR_EQUAL 2 'i' (.ints [1, 0]) (.ints [0, 1]) = 1 :=
  ⟨(compare_value_ints [1, 0] [0, 1] rfl).1, (compare_value_ints [1, 0] [0, 1] rfl).2.2.2.1⟩

/-! ## Subscriptions -/

theorem subscription_from_none (p : Nat) (l : List mapper_subscription) (k : Nat) :
    subscription_from p l k = none ↔ ∀ s ∈ l, s.device ≠ p := by
  induction l generalizing k with
  | nil => simp [subscription_from]
  | cons s rest ih =>
    simp only [subscription_from, List.mem_cons, forall_eq_or_imp]
    by_cases h : s.device = p
    · simp [h]
    · simp [h, ih]

/-- Refreshing the first record of a device: the records of the other devices
stay, the number of records of the device stays, and the first record of the
device holds the new flags and lease. -/
theorem write_subscription_found (p flags lease : Nat) (l : List mapper_subscription)
    (k i : Nat) (h : subscription_from p l k = some i) :
    (write_subscription flags lease (i - k) l).filter (fun s => decide (s.device ≠ p)) =
        l.filter (fun s => decide (s.device ≠ p)) ∧
      ((write_subscription flags lease (i - k) l).filter (fun s => decide (s.device = p))).length =
        (l.filter (fun s => decide (s.device = p))).length ∧
      (write_subscription flags lease (i - k) l).find? (fun s => decide (s.device = p)) =
        some ⟨p, flags, lease⟩ ∧
      (write_subscription flags lease (i - k) l).length = l.length ∧ k ≤ i := by
  induction l generalizing k with
  | nil => simp [subscription_from] at h
  | cons s rest ih =>
    simp only [subscription_from] at h
    by_cases hs : s.device = p
    · simp only [hs, if_true, Option.some.injEq] at h
      subst h
      simp [write_subscription, hs]
    · simp only [hs, if_false] at h
      obtain ⟨h1, h2, h3, h4, h5⟩ := ih (k + 1) h
      have e : i - k = (i - (k + 1)) + 1 := by omega
      rw [e]
      simp only [write_subscription]
      refine ⟨?_, ?_, ?_, ?_, by omega⟩
      · simpa [List.filter_cons, hs] using h1
      · simp [List.filter_cons, hs, h2]
      · simp [List.find?_cons, hs, h3]
      · simp [h4]

/-- C17: `mapper_db_subscribe(db, dev, flags, -1)` leaves the records of the other
devices as they are; the first record of `dev` afterwards holds `flags` and the
lease `now.sec + 60 - 10` (in `uint32_t`); a record is added only when `dev` had
none, so a list with at most one record of `dev` (as after a first call) has
exactly one afterwards; and the one message sent is `/<name>/subscribe` with
the flag words, `@lease 60` and `@version 0`.  With any other timeout the
database is unchanged and the message carries `@lease timeout`. -/
theorem subscribe_autorenew (env : db_env) (db : mapper_db_t)
    (dev : mapper_device device_props) (flags : Nat) (now : mapper_timetag_t) :
    ((mapper_db_subscribe env db dev flags (-1) now).1.subscriptions.filter
        (fun s => decide (s.device ≠ dev.props.ptr)) =
      db.subscriptions.filter (fun s => decide (s.device ≠ dev.props.ptr))) ∧
    ((mapper_db_subscribe env db dev flags (-1) now).1.subscriptions.find?
        (fun s => decide (s.device = dev.props.ptr)) =
      some ⟨dev.props.ptr, flags, (now.sec + 60 - 10) % 4294967296⟩) ∧
    (((mapper_db_subscribe env db dev flags (-1) now).1.subscriptions.filter
        (fun s => decide (s.device = dev.props.ptr))).length =
      max 1 (db.subscriptions.filter (fun s => decide (s.device = dev.props.ptr))).length) ∧
    ((mapper_db_subscribe env db dev flags (-1) now).2 =
      [db_effect.send (snprintf 1024 ('/' :: (dev.name ++ "/subscribe".toList)))
        (subscribe_flag_args env flags ++
          [lo_arg.s "@lease".toList, lo_arg.i 60, lo_arg.s "@version".toList, lo_arg.i 0])]) ∧
    (∀ timeout : Int, timeout ≠ -1 →
      (mapper_db_subscribe env db dev flags timeout now).1 = db ∧
      (mapper_db_subscribe env db dev flags timeout now).2 =
        [db_effect.send (snprintf 1024 ('/' :: (dev.name ++ "/subscribe".toList)))
          (subscribe_flag_args env flags ++
            [lo_arg.s "@lease".toList, lo_arg.i timeout, lo_arg.s "@version".toList,
              lo_arg.i 0])]) := by
  refine ⟨?_, ?_, ?_, ?_, ?_⟩
  · simp only [mapper_db_subscribe, if_true]
    cases h : subscription db dev with
    | none => simp [write_subscription]
    | some i =>
      have := (write_subscription_found dev.props.ptr flags (renewed_lease now) _ 0 i h).1
      simpa using this
  · simp only [mapper_db_subscribe, if_true]
    cases h : subscription db dev with
    | none => simp [write_subscription, renewed_lease, AUTOSUBSCRIBE_INTERVAL]
    | some i =>
      have := (write_subscription_found dev.props.ptr flags (renewed_lease now) _ 0 i h).2.2.1
      simpa [renewed_lease, AUTOSUBSCRIBE_INTERVAL] using this
  · simp only [mapper_db_subscribe, if_true]
    cases h : subscription db dev with
    | none =>
      have h0 := (subscription_from_none _ _ _).mp h
      have : db.subscriptions.filter (fun s => decide (s.device = dev.props.ptr)) = [] := by
        rw [List.filter_eq_nil_iff]
        intro s hs
        simpa using h0 s hs
      simp [write_subscription, this]
    | some i =>
      have hw := write_subscription_found dev.props.ptr flags (renewed_lease now) _ 0 i h
      have h2 := hw.2.1
      have h3 := hw.2.2.1
      simp only [Nat.sub_zero] at h2 h3
      simp only [h2]
      have hpos : 0 < (db.subscriptions.filter
          (fun s => decide (s.device = dev.props.ptr))).length := by
        rw [← h2]
        rw [List.length_pos]
        intro e
        have hm := List.find?_some h3
        have : (⟨dev.props.ptr, flags, renewed_lease now⟩ : mapper_subscription) ∈
            (write_subscription flags (renewed_lease now) i db.subscriptions).filter
              (fun s => decide (s.device = dev.props.ptr)) := by
          rw [List.mem_filter]
          exact ⟨List.mem_of_find?_eq_some h3, by simp⟩
        rw [e] at this
        simp at this
      omega
  · simp [mapper_db_subscribe, subscribe_internal, AUTOSUBSCRIBE_INTERVAL]
  · intro timeout ht
    simp [mapper_db_subscribe, ht, subscribe_internal]

/-- C17 at a concrete input. -/
theorem subscribe_autorenew_witness :
    (mapper_db_subscribe sub_env sub_db sub_dev 3 (-1) ⟨1000, 0⟩).1.subscriptions =
      [⟨7, 3, 1050⟩, ⟨9, 1, 20⟩] ∧
    (mapper_db_subscribe sub_env (mapper_db_subscribe sub_env sub_db sub_dev 3 (-1) ⟨1000, 0⟩).1
        sub_dev 2 (-1) ⟨1001, 0⟩).1.subscriptions = [⟨7, 2, 1051⟩, ⟨9, 1, 20⟩] ∧
    (mapper_db_subscribe sub_env sub_db sub_dev 3 (-1) ⟨1000, 0⟩).2 =
      [db_effect.send "/foo/subscribe".toList
        [lo_arg.s "device".toList, lo_arg.s "signals".toList, lo_arg.s "@lease".toList,
          lo_arg.i 60, lo_arg.s "@version".toList, lo_arg.i 0]] := by
  refine ⟨by decide, by decide, ?_⟩
  rw [(subscribe_autorenew sub_env sub_db sub_dev 3 ⟨1000, 0⟩).2.2.2.1]
  decide

theorem unsubscribe_walk_spec (dev : mapper_device device_props) (send_message : Bool)
    (l : List mapper_subscription) :
    (unsubscribe_walk dev send_message l).1.filter (fun s => decide (s.device ≠ dev.props.ptr)) =
        l.filter (fun s => decide (s.device ≠ dev.props.ptr)) ∧
      ((unsubscribe_walk dev send_message l).1.filter
          (fun s => decide (s.device = dev.props.ptr))).length =
        (l.filter (fun s => decide (s.device = dev.props.ptr))).length - 1 ∧
      (unsubscribe_walk dev send_message l).2 =
        (if (l.filter (fun s => decide (s.device = dev.props.ptr))).length = 0 ∨
            send_message = false then []
          else [db_effect.send (snprintf 1024 ('/' :: (dev.name ++ "/unsubscribe".toList))) []]) ∧
      ((∀ s ∈ l, s.device ≠ dev.props.ptr) → (unsubscribe_walk dev send_message l).1 = l) := by
  induction l with
  | nil => simp [unsubscribe_walk]
  | cons s rest ih =>
    by_cases hs : s.device = dev.props.ptr
    · cases send_message <;> simp [unsubscribe_walk, hs]
    · obtain ⟨h1, h2, h3, h4⟩ := ih
      simp only [unsubscribe_walk, hs, if_false]
      refine ⟨?_, ?_, ?_, ?_⟩
      · simpa [List.filter_cons, hs] using h1
      · simp [List.filter_cons, hs, h2]
      · simp [List.filter_cons, hs, h3]
      · intro h
        simp only [List.mem_cons, forall_eq_or_imp] at h
        rw [h4 h.2]

/-- C19 (as stated, refuted): `foo` has no autorenewing subscription record (a
one-shot subscription stores none); `mapper_db_unsubscribe` then changes
nothing and emits no message. -/
theorem unsubscribe_without_record :
    (∀ s ∈ sub_db.subscriptions, s.device ≠ sub_dev.props.ptr) ∧
    (mapper_db_subscribe sub_env sub_db sub_dev 1 30 ⟨1000, 0⟩).1 = sub_db ∧
    mapper_db_unsubscribe sub_db sub_dev = (sub_db, []) := by
  decide

/-- C19 (amended): `mapper_db_unsubscribe(db, dev)` with `dev` non-null unlinks the
first subscription record of `dev`, if there is one, and emits one
`/<name>/unsubscribe` for it; without a record it emits nothing and changes
nothing.  The records of the other devices stay, in the same order, and the
rest of the database is untouched; with at most one record of `dev` before,
none remains. -/
theorem unsubscribe_first_record (db : mapper_db_t) (dev : mapper_device device_props) :
    ((mapper_db_unsubscribe db dev).1.subscriptions.filter
        (fun s => decide (s.device ≠ dev.props.ptr)) =
      db.subscriptions.filter (fun s => decide (s.device ≠ dev.props.ptr))) ∧
    (((mapper_db_unsubscribe db dev).1.subscriptions.filter
        (fun s => decide (s.device = dev.props.ptr))).length =
      (db.subscriptions.filter (fun s => decide (s.device = dev.props.ptr))).length - 1) ∧
    ((mapper_db_unsubscribe db dev).2 =
      (if (db.subscriptions.filter (fun s => decide (s.device = dev.props.ptr))).length = 0
        then []
        else [db_effect.send (snprintf 1024 ('/' :: (dev.name ++ "/unsubscribe".toList))) []])) ∧
    ((∀ s ∈ db.subscriptions, s.device ≠ dev.props.ptr) →
      mapper_db_unsubscribe db dev = (db, [])) ∧
    ((mapper_db_unsubscribe db dev).1 =
      { db with subscriptions := (mapper_db_unsubscribe db dev).1.subscriptions }) ∧
    ((db.subscriptions.filter (fun s => decide (s.device = dev.props.ptr))).length ≤ 1 →
      ∀ s ∈ (mapper_db_unsubscribe db dev).1.subscriptions, s.device ≠ dev.props.ptr) := by
  obtain ⟨h1, h2, h3, h4⟩ := unsubscribe_walk_spec dev true db.subscriptions
  refine ⟨h1, h2, ?_, ?_, rfl, ?_⟩
  · simpa [mapper_db_unsubscribe, unsubscribe_internal] using h3
  · intro h
    have e : (db.subscriptions.filter (fun s => decide (s.device = dev.props.ptr))) = [] := by
      rw [List.filter_eq_nil_iff]
      intro s hs
      simpa using h s hs
    simp only [mapper_db_unsubscribe, unsubscribe_internal, h4 h, h3, e]
    simp
  · intro hle s hs hdev
    have hz : ((mapper_db_unsubscribe db dev).1.subscriptions.filter
        (fun s => decide (s.device = dev.props.ptr))).length = 0 := by
      have := h2
      simp only [mapper_db_unsubscribe, unsubscribe_internal] at this ⊢
      omega
    have hm : s ∈ (mapper_db_unsubscribe db dev).1.subscriptions.filter
        (fun s => decide (s.device = dev.props.ptr)) := by
      rw [List.mem_filter]
      exact ⟨hs, by simp [hdev]⟩
    rw [List.length_eq_zero] at hz
    rw [hz] at hm
    simp at hm

/-- C19 (amended) at a concrete input: unsubscribing from `bar`, which has one
record. -/
theorem unsubscribe_first_record_witness :
    mapper_db_unsubscribe sub_db old_dev =
      ({ sub_db with subscriptions := [] }, [db_effect.send "/bar/unsubscribe".toList []]) ∧
    ∀ s ∈ (mapper_db_unsubscribe sub_db old_dev).1.subscriptions, s.device ≠ old_dev.props.ptr :=
  ⟨by decide, (unsubscribe_first_record sub_db old_dev).2.2.2.2.2 (by decide)⟩

/-! ## The poll of the database -/

theorem renew_subscriptions_spec (env : db_env) (db : mapper_db_t) (now : mapper_timetag_t)
    (l : List mapper_subscription) :
    (renew_subscriptions env db now l).1 =
        l.map (fun s => if s.lease_expiration_sec < now.sec then
          { s with lease_expiration_sec := (now.sec + 60 - 10) % 4294967296 } else s) ∧
      (renew_subscriptions env db now l).2 =
        (l.filter (fun s => decide (s.lease_expiration_sec < now.sec))).flatMap (fun s =>
          match device_at db s.device with
          | some dev =>
            [db_effect.send (snprintf 1024 ('/' :: (dev.name ++ "/subscribe".toList)))
              (subscribe_flag_args env s.flags ++ [lo_arg.s "@lease".toList, lo_arg.i 60])]
          | none => []) := by
  induction l with
  | nil => simp [renew_subscriptions]
  | cons s rest ih =>
    simp only [renew_subscriptions, List.map_cons, List.filter_cons]
    by_cases h : s.lease_expiration_sec < now.sec
    · simp only [h, if_true, decide_True, List.flatMap_cons, ih.1, ih.2, renewed_lease,
        AUTOSUBSCRIBE_INTERVAL, true_and]
      cases device_at db s.device <;> simp [subscribe_internal, AUTOSUBSCRIBE_INTERVAL]
    · simp only [h, if_false, decide_False, ih.1, ih.2]
      simp

/-- What the `block_ms` loop does to the outside is what its network polls do. -/
theorem block_polls_out (env : db_env) (n : Nat) (db : mapper_db_t) :
    ∀ x ∈ (block_polls env n db).2.2,
      x = db_effect.network_poll ∨ ∃ d, x ∈ (env.mapper_network_poll d).2.2 := by
  induction n generalizing db with
  | zero => simp [block_polls]
  | succ n ih =>
    intro x hx
    have hx1 : x ∈ db_effect.network_poll :: ((env.mapper_network_poll db).2.2 ++
        (block_polls env n (env.mapper_network_poll db).1).2.2) := hx
    simp only [List.mem_cons, List.mem_append] at hx1
    rcases hx1 with h | h | h
    · exact Or.inl h
    · exact Or.inr ⟨db, h⟩
    · exact ih _ x h

theorem update_block_out (env : db_env) (block_ms : Int) (n : Nat) (db : mapper_db_t) :
    (∀ x ∈ (update_block env block_ms n db).2.2,
      x = db_effect.network_poll ∨ ∃ d, x ∈ (env.mapper_network_poll d).2.2) ∧
    (block_ms = 0 → update_block env block_ms n db = (db, 0, [])) := by
  constructor
  · intro x hx
    unfold update_block at hx
    split at hx
    · exact block_polls_out env n db x hx
    · simp at hx
  · intro h
    simp [update_block, h]

/-- A network poll whose handlers leave the device table alone leaves it alone
in the `block_ms` loop. -/
theorem block_polls_devices (env : db_env)
    (h : ∀ d, (env.mapper_network_poll d).1.base.devices = d.base.devices) (n : Nat)
    (db : mapper_db_t) : (block_polls env n db).1.base.devices = db.base.devices := by
  induction n generalizing db with
  | zero => rfl
  | succ n ih =>
    simp only [block_polls]
    rw [ih, h]

/-- What `update_renew` does: the network poll, with what its handlers do, and
the renewal messages, for the list the network poll left. -/
theorem update_renew_spec (env : db_env) (db : mapper_db_t) (now : mapper_timetag_t) :
    (update_renew env db now).1.subscriptions =
        (env.mapper_network_poll db).1.subscriptions.map (fun s =>
          if s.lease_expiration_sec < now.sec then
            { s with lease_expiration_sec := (now.sec + 60 - 10) % 4294967296 } else s) ∧
      (update_renew env db now).2.2 =
        db_effect.network_poll :: (env.mapper_network_poll db).2.2 ++
          ((env.mapper_network_poll db).1.subscriptions.filter
            (fun s => decide (s.lease_expiration_sec < now.sec))).flatMap (fun s =>
              match (env.mapper_network_poll db).1.base.devices.find?
                (fun d => decide (d.props.ptr = s.device)) with
              | some dev =>
                [db_effect.send (snprintf 1024 ('/' :: (dev.name ++ "/subscribe".toList)))
                  (subscribe_flag_args env s.flags ++ [lo_arg.s "@lease".toList, lo_arg.i 60])]
              | none => []) ∧
      (update_renew env db now).1.base.devices = (env.mapper_network_poll db).1.base.devices := by
  refine ⟨?_, ?_, rfl⟩
  · simp only [update_renew]
    exact (renew_subscriptions_spec env _ now _).1
  · simp only [update_renew]
    rw [(renew_subscriptions_spec env _ now _).2]
    rfl

/-- The renewal loop only sends messages. -/
theorem renew_subscriptions_out (env : db_env) (db : mapper_db_t) (now : mapper_timetag_t)
    (l : List mapper_subscription) :
    ∀ x ∈ (renew_subscriptions env db now l).2, ∃ path args, x = db_effect.send path args := by
  intro x hx
  rw [(renew_subscriptions_spec env db now l).2] at hx
  simp only [List.mem_flatMap, List.mem_filter] at hx
  obtain ⟨s, _, hs⟩ := hx
  split at hs
  · simp only [List.mem_singleton] at hs
    exact ⟨_, _, hs⟩
  · simp at hs

/-- C12 (as stated, refuted): `bar` was last heard of at second 80 and the timeout
is 10 s.  The poll at second 1000 calls the device callback once with
`MAPPER_EXPIRED` for `bar` and never with `MAPPER_REMOVED`, and `bar` is still
in the device table; the next poll, in the same second, calls it with
`MAPPER_EXPIRED` again. -/
theorem update_expires_without_removing :
    (mapper_db_update sub_env sub_db 0 ⟨1000, 0⟩ 0).out =
      [db_effect.network_poll,
        db_effect.send "/bar/subscribe".toList
          [lo_arg.s "device".toList, lo_arg.s "@lease".toList, lo_arg.i 60],
        db_effect.device_cb ⟨1, 0⟩ old_dev .MAPPER_EXPIRED] ∧
    (mapper_db_update sub_env sub_db 0 ⟨1000, 0⟩ 0).db.base.devices = [sub_dev, old_dev] ∧
    (mapper_db_update sub_env (mapper_db_update sub_env sub_db 0 ⟨1000, 0⟩ 0).db 0
        ⟨1000, 0⟩ 0).out =
      [db_effect.network_poll, db_effect.device_cb ⟨1, 0⟩ old_dev .MAPPER_EXPIRED] := by
  decide

/-- A `/logout` handled inside the network poll: `mapper_db_remove_device` runs
in it, so its `MAPPER_REMOVED` calls are part of what the poll of the database
does, and `bar` is gone when the status check runs. -/
theorem update_shows_logout :
    (mapper_db_update logout_env logout_db 0 ⟨1000, 0⟩ 0).out =
      [db_effect.network_poll,
        db_effect.device_cb ⟨1000, 0⟩ old_dev .MAPPER_REMOVED,
        db_effect.device_cb ⟨1, 0⟩ old_dev .MAPPER_REMOVED] ∧
    (mapper_db_update logout_env logout_db 0 ⟨1000, 0⟩ 0).db.base.devices = [sub_dev] ∧
    (mapper_db_update logout_env logout_db 0 ⟨1000, 0⟩ 0).db.subscriptions = [] := by
  decide

/-- The two conditions of the status check at concrete inputs.  A poll during
which `next_ping` does not change runs no status check: `bar`, last heard of at
second 80, is not reported.  A record whose `synced.sec` is 0 is not reported
by the status check that runs. -/
theorem update_status_conditions :
    (mapper_db_update quiet_env sub_db 0 ⟨1000, 0⟩ 0).out =
      [db_effect.network_poll,
        db_effect.send "/bar/subscribe".toList
          [lo_arg.s "device".toList, lo_arg.s "@lease".toList, lo_arg.i 60]] ∧
    (mapper_db_update sub_env never_synced_db 0 ⟨1000, 0⟩ 0).out =
      [db_effect.network_poll,
        db_effect.send "/bar/subscribe".toList
          [lo_arg.s "device".toList, lo_arg.s "@lease".toList, lo_arg.i 60]] := by
  decide

/-- C12 (amended): what the poll of the database does is, in order: the network
poll with what its handlers do, the renewal messages, the network polls of the
`block_ms` loop (none without `block_ms`), and the status check.  The status
check runs when `next_ping` changed during the call; it calls, for every
device then in the table whose `synced.sec` is not 0 and is older than
`now.sec - timeout_sec` (in `uint32_t`), every device callback once with
`MAPPER_EXPIRED`, device by device, and nothing else: no `MAPPER_REMOVED`.
The code of `mapper_db_update` itself removes no device: without `block_ms`
the device table afterwards is the one the network poll left, and it is the
table of before whenever the handlers of the network poll leave the device
table alone. -/
theorem update_reports_expiry_only (env : db_env) (db : mapper_db_t) (block_ms : Int)
    (now : mapper_timetag_t) (rounds : Nat) :
    (∃ renewals blocked : List db_effect,
      (mapper_db_update env db block_ms now rounds).out =
        db_effect.network_poll :: (env.mapper_network_poll db).2.2 ++ renewals ++ blocked ++
        (if db.next_ping ≠ (mapper_db_update env db block_ms now rounds).db.next_ping then
          ((mapper_db_update env db block_ms now rounds).db.base.devices.filter
            (device_expired (to_unsigned
              (((mapper_db_update env db block_ms now rounds).db.base.clock_now.sec : Int) -
                (mapper_db_update env db block_ms now rounds).db.timeout_sec)))).flatMap
            (fun dev => (mapper_db_update env db block_ms now rounds).db.base.device_callbacks.map
              (fun cb => db_effect.device_cb cb dev .MAPPER_EXPIRED))
        else []) ∧
      (∀ x ∈ renewals, ∃ path args, x = db_effect.send path args) ∧
      (∀ x ∈ blocked, x = db_effect.network_poll ∨ ∃ d, x ∈ (env.mapper_network_poll d).2.2) ∧
      (block_ms = 0 → blocked = [])) ∧
    (∀ cb dev, db.next_ping ≠ (mapper_db_update env db block_ms now rounds).db.next_ping →
      cb ∈ (mapper_db_update env db block_ms now rounds).db.base.device_callbacks →
      dev ∈ (mapper_db_update env db block_ms now rounds).db.base.devices →
      dev.synced.sec ≠ 0 →
      dev.synced.sec < to_unsigned
        (((mapper_db_update env db block_ms now rounds).db.base.clock_now.sec : Int) -
          (mapper_db_update env db block_ms now rounds).db.timeout_sec) →
      db_effect.device_cb cb dev .MAPPER_EXPIRED ∈
        (mapper_db_update env db block_ms now rounds).out) ∧
    ((mapper_db_update env db 0 now rounds).db.base.devices =
      (env.mapper_network_poll db).1.base.devices) ∧
    ((∀ d, (env.mapper_network_poll d).1.base.devices = d.base.devices) →
      (mapper_db_update env db block_ms now rounds).db.base.devices = db.base.devices) := by
  have hout : (mapper_db_update env db block_ms now rounds).out =
      db_effect.network_poll :: (env.mapper_network_poll db).2.2 ++
        (renew_subscriptions env
          { (env.mapper_network_poll db).1 with
            base := { (env.mapper_network_poll db).1.base with clock_now := now } } now
          (env.mapper_network_poll db).1.subscriptions).2 ++
        (update_block env block_ms rounds (update_renew env db now).1).2.2 ++
        update_status db.next_ping
          (update_block env block_ms rounds (update_renew env db now).1).1 := by
    simp only [mapper_db_update, update_renew, List.cons_append, List.append_assoc]
  refine ⟨⟨_, _, hout, renew_subscriptions_out env _ now _,
    (update_block_out env block_ms rounds _).1, ?_⟩, ?_, ?_, ?_⟩
  · intro h
    rw [(update_block_out env block_ms rounds _).2 h]
  · intro cb dev hping hcb hdev h0 hlt
    rw [hout]
    apply List.mem_append_right
    have hst : update_status db.next_ping
        (update_block env block_ms rounds (update_renew env db now).1).1 =
        mapper_db_check_device_status
          (update_block env block_ms rounds (update_renew env db now).1).1
          (update_block env block_ms rounds (update_renew env db now).1).1.base.clock_now.sec :=
      if_pos hping
    rw [hst]
    simp only [mapper_db_check_device_status, List.mem_flatMap, List.mem_filter, List.mem_map]
    refine ⟨dev, ⟨hdev, ?_⟩, cb, hcb, rfl⟩
    simp only [device_expired, Bool.and_eq_true, decide_eq_true_eq]
    exact ⟨h0, hlt⟩
  · simp [mapper_db_update, update_block, update_renew]
  · intro h
    have h1 : (update_renew env db now).1.base.devices = db.base.devices := by
      rw [(update_renew_spec env db now).2.2, h]
    show (update_block env block_ms rounds (update_renew env db now).1).1.base.devices = _
    unfold update_block
    split
    · rw [block_polls_devices env h, h1]
    · exact h1

/-- C12 (amended) at a concrete input: the poll at second 1000 reports `bar`,
which was last heard of at second 80, as expired, and `bar` stays in the
table. -/
theorem update_reports_expiry_only_witness :
    db_effect.device_cb ⟨1, 0⟩ old_dev .MAPPER_EXPIRED ∈
      (mapper_db_update sub_env sub_db 0 ⟨1000, 0⟩ 0).out ∧
    (mapper_db_update sub_env sub_db 0 ⟨1000, 0⟩ 0).db.base.devices = sub_db.base.devices :=
  ⟨(update_reports_expiry_only sub_env sub_db 0 ⟨1000, 0⟩ 0).2.1 ⟨1, 0⟩ old_dev (by decide)
      (by decide) (by decide) (by decide) (by decide),
    (update_reports_expiry_only sub_env sub_db 0 ⟨1000, 0⟩ 0).2.2.2 (fun _ => rfl)⟩

/-! ## Removing records -/

theorem remove_maps_local (db : mapper_db_t) (l : List mapper_map_t)
    (h : ∀ x ∈ l, x.is_local = true) : mapper_db_remove_maps_by_query db l = (db, []) := by
  induction l with
  | nil => rfl
  | cons x xs ih =>
    have hx := h x (List.mem_cons_self _ _)
    simp only [mapper_db_remove_maps_by_query, hx]
    simpa using ih (fun y hy => h y (List.mem_cons_of_mem _ hy))

theorem remove_maps_spec (l : List mapper_map_t) : ∀ db : mapper_db_t,
    (mapper_db_remove_maps_by_query db l).1 =
      { db with maps := (db.maps.filter
          (fun m => !(l.any (fun x => !x.is_local && decide (x.ptr = m.ptr))))) } ∧
    (∀ x ∈ (mapper_db_remove_maps_by_query db l).2,
      ∃ cb map, x = db_effect.map_cb cb map .MAPPER_REMOVED) := by
  induction l with
  | nil => intro db; simp [mapper_db_remove_maps_by_query]
  | cons y ys ih =>
    intro db
    cases hy : y.is_local
    · obtain ⟨h1, h2⟩ := ih (mapper_db_remove_map db y).1
      simp only [mapper_db_remove_maps_by_query, hy, Bool.not_false, if_true]
      refine ⟨?_, ?_⟩
      · rw [h1]
        simp only [mapper_db_remove_map, List.filter_filter, List.any_cons, hy, Bool.not_false,
          Bool.true_and]
        congr 1
        apply List.filter_congr
        intro m _
        by_cases e : y.ptr = m.ptr
        · simp [e]
        · have e2 : ¬ m.ptr = y.ptr := fun h => e h.symm
          simp [e, e2]
      · intro x hx
        rcases List.mem_append.mp hx with h | h
        · simp only [mapper_db_remove_map, fire_map_callbacks, List.mem_map] at h
          obtain ⟨cb, _, rfl⟩ := h
          exact ⟨cb, y, rfl⟩
        · exact h2 x h
    · obtain ⟨h1, h2⟩ := ih db
      simp only [mapper_db_remove_maps_by_query, hy, Bool.not_true, Bool.false_eq_true, if_false]
      refine ⟨?_, h2⟩
      rw [h1]
      simp [List.any_cons, hy]

theorem count_down_key (sig : mapper_signal_t) (d : mapper_device device_props) :
    device_key (count_down sig d) = device_key d := by
  unfold count_down
  split <;> rfl

theorem count_down_other (sig : mapper_signal_t) (d : mapper_device device_props)
    (h : sig.device ≠ d.props.ptr) : count_down sig d = d := by
  unfold count_down
  rw [if_neg (fun e => h e.symm)]

theorem remove_signal_spec (db : mapper_db_t) (sig : mapper_signal_t) :
    (mapper_db_remove_signal db sig).1 =
      { db with
        maps := (mapper_db_remove_maps_by_query db (mapper_db_signal_maps db sig)).1.maps
        signals := (db.signals.filter (fun s => decide (s.ptr ≠ sig.ptr)))
        base := { db.base with devices := db.base.devices.map (count_down sig) } } ∧
    (∀ x ∈ (mapper_db_remove_signal db sig).2,
      (∃ cb map, x = db_effect.map_cb cb map .MAPPER_REMOVED) ∨
      (∃ cb s, x = db_effect.signal_cb cb s .MAPPER_REMOVED)) := by
  obtain ⟨h1, h2⟩ := remove_maps_spec (mapper_db_signal_maps db sig) db
  refine ⟨?_, ?_⟩
  · simp only [mapper_db_remove_signal]
    rw [h1]
  · intro x hx
    simp only [mapper_db_remove_signal] at hx
    rcases List.mem_append.mp hx with h | h
    · exact Or.inl (h2 x h)
    · simp only [fire_signal_callbacks, List.mem_map] at h
      obtain ⟨cb, _, rfl⟩ := h
      exact Or.inr ⟨cb, sig, rfl⟩

/-- What `mapper_db_remove_signals_by_query` leaves alone, and what it does to
the signal table and to the device records. -/
theorem remove_signals_spec (l : List mapper_signal_t) : ∀ db : mapper_db_t,
    (mapper_db_remove_signals_by_query db l).1.subscriptions = db.subscriptions ∧
    (mapper_db_remove_signals_by_query db l).1.base.device_callbacks = db.base.device_callbacks ∧
    (mapper_db_remove_signals_by_query db l).1.signals =
      db.signals.filter (fun s => !(l.any (fun x => !x.is_local && decide (x.ptr = s.ptr)))) ∧
    (mapper_db_remove_signals_by_query db l).1.base.devices.map device_key =
      db.base.devices.map device_key ∧
    (∀ d ∈ db.base.devices, (∀ sig ∈ l, sig.device ≠ d.props.ptr) →
      d ∈ (mapper_db_remove_signals_by_query db l).1.base.devices) ∧
    (∀ x ∈ (mapper_db_remove_signals_by_query db l).2,
      (∃ cb map, x = db_effect.map_cb cb map .MAPPER_REMOVED) ∨
      (∃ cb s, x = db_effect.signal_cb cb s .MAPPER_REMOVED)) ∧
    ((∀ sig ∈ l, ∀ m ∈ db.maps, cmp_query_signal_maps sig m = true → m.is_local = true) →
      (mapper_db_remove_signals_by_query db l).1.maps = db.maps) := by
  induction l with
  | nil => intro db; simp [mapper_db_remove_signals_by_query]
  | cons y ys ih =>
    intro db
    cases hy : y.is_local
    · obtain ⟨i1, i2, i3, i4, i5, i6, i7⟩ := ih (mapper_db_remove_signal db y).1
      obtain ⟨r1, r2⟩ := remove_signal_spec db y
      simp only [mapper_db_remove_signals_by_query, hy, Bool.not_false, if_true]
      refine ⟨?_, ?_, ?_, ?_, ?_, ?_, ?_⟩
      · rw [i1, r1]
      · rw [i2, r1]
      · rw [i3, r1]
        simp only [List.filter_filter, List.any_cons, hy, Bool.not_false, Bool.true_and]
        apply List.filter_congr
        intro s _
        by_cases e : y.ptr = s.ptr
        · simp [e]
        · have e2 : ¬ s.ptr = y.ptr := fun h => e h.symm
          simp [e, e2]
      · rw [i4, r1]
        simp only [List.map_map]
        apply List.map_congr_left
        intro d _
        exact count_down_key y d
      · intro d hd hsig
        apply i5
        · rw [r1]
          simp only [List.mem_map]
          exact ⟨d, hd, count_down_other y d (hsig y (List.mem_cons_self _ _))⟩
        · intro sig hs
          exact hsig sig (List.mem_cons_of_mem _ hs)
      · intro x hx
        rcases List.mem_append.mp hx with h | h
        · exact r2 x h
        · exact i6 x h
      · intro hloc
        have hq : mapper_db_remove_maps_by_query db (mapper_db_signal_maps db y) = (db, []) := by
          apply remove_maps_local
          intro m hm
          simp only [mapper_db_signal_maps, List.mem_filter] at hm
          exact hloc y (List.mem_cons_self _ _) m hm.1 hm.2
        have hmaps : (mapper_db_remove_signal db y).1.maps = db.maps := by
          rw [r1, hq]
        rw [i7, hmaps]
        intro sig hs m hm
        rw [hmaps] at hm
        exact hloc sig (List.mem_cons_of_mem _ hs) m hm
    · obtain ⟨i1, i2, i3, i4, i5, i6, i7⟩ := ih db
      simp only [mapper_db_remove_signals_by_query, hy, Bool.not_true, Bool.false_eq_true, if_false]
      refine ⟨i1, i2, ?_, i4, ?_, i6, ?_⟩
      · rw [i3]
        simp [List.any_cons, hy]
      · intro d hd hsig
        exact i5 d hd (fun sig hs => hsig sig (List.mem_cons_of_mem _ hs))
      · intro hloc
        exact i7 (fun sig hs => hloc sig (List.mem_cons_of_mem _ hs))

theorem unsubscribe_walk_silent (dev : mapper_device device_props)
    (l : List mapper_subscription) : (unsubscribe_walk dev false l).2 = [] := by
  induction l with
  | nil => rfl
  | cons s rest ih =>
    simp only [unsubscribe_walk]
    split
    · simp
    · exact ih

theorem unsubscribe_walk_none (dev : mapper_device device_props) (b : Bool)
    (l : List mapper_subscription) (h : ∀ s ∈ l, s.device ≠ dev.props.ptr) :
    (unsubscribe_walk dev b l).1 = l := by
  induction l with
  | nil => rfl
  | cons s rest ih =>
    simp only [unsubscribe_walk, if_neg (h s (List.mem_cons_self _ _))]
    rw [ih (fun t ht => h t (List.mem_cons_of_mem _ ht))]

/-- The loop over the device callbacks only writes the subscription list, and
calls each callback once. -/
theorem fire_device_removed_spec (env : db_env) (dev : mapper_device device_props)
    (cbs : List fptr) : ∀ db : mapper_db_t,
    (fire_device_removed env dev db cbs).1 =
      { db with subscriptions := (fire_device_removed env dev db cbs).1.subscriptions } ∧
    (fire_device_removed env dev db cbs).2 =
      cbs.map (fun cb => db_effect.device_cb cb dev .MAPPER_REMOVED) ∧
    ((∀ s ∈ db.subscriptions, s.device ≠ dev.props.ptr) →
      (fire_device_removed env dev db cbs).1.subscriptions = db.subscriptions) := by
  induction cbs with
  | nil => intro db; simp [fire_device_removed]
  | cons cb cbs ih =>
    intro db
    by_cases hcb : cb.f = env.on_device_autosubscribe
    · obtain ⟨i1, i2, i3⟩ := ih (unsubscribe_internal db dev false).1
      simp only [fire_device_removed, hcb, if_true]
      refine ⟨?_, ?_, ?_⟩
      · rw [i1]
        simp [unsubscribe_internal]
      · rw [i2]
        simp [unsubscribe_internal, unsubscribe_walk_silent]
      · intro h
        have e : (unsubscribe_internal db dev false).1 = db := by
          simp only [unsubscribe_internal]
          rw [unsubscribe_walk_none dev false _ h]
        rw [e] at i3 ⊢
        exact i3 h
    · obtain ⟨i1, i2, i3⟩ := ih db
      simp only [fire_device_removed, hcb, if_false]
      refine ⟨i1, ?_, i3⟩
      rw [i2]
      simp

theorem find_of_nodup {α : Type} (f : α → Nat) (l : List α) (h : (l.map f).Nodup) (a : α)
    (ha : a ∈ l) : l.find? (fun x => decide (f x = f a)) = some a := by
  cases hf : l.find? (fun x => decide (f x = f a)) with
  | none =>
    rw [List.find?_eq_none] at hf
    exact absurd (by simp) (hf a ha)
  | some x =>
    have h1 := List.find?_some hf
    have hx := List.mem_of_find?_eq_some hf
    simp only [decide_eq_true_eq] at h1
    rw [List.inj_on_of_nodup_map h hx ha h1]

theorem filter_ptr_nodup {α : Type} (f : α → Nat) (keep : α → Bool) (l : List α)
    (h : (l.map f).Nodup) (q : α → Bool) :
    l.filter (fun m => !((l.filter q).any (fun x => !keep x && decide (f x = f m)))) =
      l.filter (fun m => keep m || !q m) := by
  apply List.filter_congr
  intro m hm
  cases hq : q m <;> cases hk : keep m
  · simp only [Bool.not_false, Bool.or_true, Bool.not_eq_true_eq_eq_false, Bool.false_or]
    rw [List.any_eq_false]
    intro x hx
    simp only [List.mem_filter] at hx
    intro hc
    simp only [Bool.and_eq_true, Bool.not_eq_true_eq_eq_false, decide_eq_true_eq] at hc
    have := List.inj_on_of_nodup_map h hx.1 hm hc.2
    rw [this, hq] at hx
    exact absurd hx.2 (by simp)
  · simp only [Bool.true_or, Bool.not_eq_true_eq_eq_false]
    rw [List.any_eq_false]
    intro x hx
    simp only [List.mem_filter] at hx
    intro hc
    simp only [Bool.and_eq_true, Bool.not_eq_true_eq_eq_false, decide_eq_true_eq] at hc
    have := List.inj_on_of_nodup_map h hx.1 hm hc.2
    rw [this, hk] at hc
    exact absurd hc.1 (by simp)
  · simp only [Bool.not_true, Bool.or_false, Bool.not_eq_false_eq_eq_true]
    rw [List.any_eq_true]
    exact ⟨m, List.mem_filter.mpr ⟨hm, hq⟩, by simp [hk]⟩
  · simp only [Bool.true_or, Bool.not_eq_true_eq_eq_false]
    rw [List.any_eq_false]
    intro x hx
    simp only [List.mem_filter] at hx
    intro hc
    simp only [Bool.and_eq_true, Bool.not_eq_true_eq_eq_false, decide_eq_true_eq] at hc
    have := List.inj_on_of_nodup_map h hx.1 hm hc.2
    rw [this, hk] at hc
    exact absurd hc.1 (by simp)

theorem filter_key (p : Nat → Bool) (l1 l2 : List (mapper_device device_props))
    (h : l1.map device_key = l2.map device_key) :
    (l1.filter (fun d => p d.props.ptr)).map device_key =
      (l2.filter (fun d => p d.props.ptr)).map device_key := by
  have e : ∀ l : List (mapper_device device_props),
      (l.filter (fun d => p d.props.ptr)).map device_key =
        (l.map device_key).filter (fun k => p k.1) := by
    intro l
    rw [List.filter_map]
    rfl
  rw [e, e, h]

theorem device_at_of_nodup (db : mapper_db_t)
    (hd : (db.base.devices.map (fun d => d.props.ptr)).Nodup)
    (d : mapper_device device_props) (h : d ∈ db.base.devices) :
    device_at db d.props.ptr = some d := by
  unfold device_at
  exact find_of_nodup (fun x : mapper_device device_props => x.props.ptr) db.base.devices hd d h

theorem signal_at_of_nodup (db : mapper_db_t) (hs : (db.signals.map (fun s => s.ptr)).Nodup)
    (s : mapper_signal_t) (h : s ∈ db.signals) : signal_at db s.ptr = some s := by
  unfold signal_at
  exact find_of_nodup (fun x : mapper_signal_t => x.ptr) db.signals hs s h

/-- A map with a slot on a signal of the table has a slot on that signal's
device. -/
theorem signal_maps_device_maps (db : mapper_db_t)
    (hs : (db.signals.map (fun s => s.ptr)).Nodup) (sig : mapper_signal_t)
    (hin : sig ∈ db.signals) (dev_id : Nat) (hid : signal_device_id db sig = some dev_id)
    (m : mapper_map_t) (h : cmp_query_signal_maps sig m = true) :
    cmp_query_device_maps db dev_id m = true := by
  have key : ∀ slot : mapper_slot_t, slot.signal = sig.ptr →
      slot_device_id db slot = some dev_id := by
    intro slot e
    simp only [slot_device_id, e, signal_at_of_nodup db hs sig hin, Option.some_bind, hid]
  simp only [cmp_query_signal_maps, Bool.or_eq_true, List.any_eq_true, decide_eq_true_eq] at h
  simp only [cmp_query_device_maps, Bool.or_eq_true, List.any_eq_true, decide_eq_true_eq]
  rcases h with ⟨slot, hslot, e⟩ | e
  · exact Or.inl ⟨slot, hslot, key slot e⟩
  · exact Or.inr (key _ e)

theorem find_key (l1 l2 : List (mapper_device device_props))
    (h : l1.map device_key = l2.map device_key)
    (hd : (l2.map (fun d => d.props.ptr)).Nodup) (dev : mapper_device device_props)
    (hin : dev ∈ l2) :
    ∃ d1, l1.find? (fun d => decide (d.props.ptr = dev.props.ptr)) = some d1 ∧
      device_key d1 = device_key dev := by
  have e : ∀ l : List (mapper_device device_props),
      (l.find? (fun d => decide (d.props.ptr = dev.props.ptr))).map device_key =
        (l.map device_key).find? (fun k => decide (k.1 = dev.props.ptr)) := by
    intro l
    rw [List.find?_map]
    rfl
  have h2 := find_of_nodup (fun x : mapper_device device_props => x.props.ptr) l2 hd dev hin
  have h1 := e l1
  rw [h, ← e l2, h2] at h1
  cases hf : l1.find? (fun d => decide (d.props.ptr = dev.props.ptr)) with
  | none => rw [hf] at h1; simp at h1
  | some d1 =>
    rw [hf] at h1
    simp only [Option.map_some', Option.some.injEq] at h1
    exact ⟨d1, rfl, h1⟩

/-- What `mapper_db_remove_device` does to the tables, the subscriptions and the
callbacks. -/
theorem remove_device_spec (env : db_env) (db : mapper_db_t)
    (dev : mapper_device device_props) (quiet : Bool) :
    ((mapper_db_remove_device env db dev quiet).1.base.devices.map device_key =
      (db.base.devices.filter (fun d => decide (d.props.ptr ≠ dev.props.ptr))).map device_key) ∧
    ((∀ s ∈ db.subscriptions, s.device ≠ dev.props.ptr) →
      (mapper_db_remove_device env db dev quiet).1.subscriptions = db.subscriptions) ∧
    (∃ pre dev1, (mapper_db_remove_device env db dev quiet).2 = pre ++
        (if quiet then [] else
          db.base.device_callbacks.map (fun cb => db_effect.device_cb cb dev1 .MAPPER_REMOVED)) ∧
      (∀ x ∈ pre, (∃ cb map, x = db_effect.map_cb cb map .MAPPER_REMOVED) ∨
        (∃ cb s, x = db_effect.signal_cb cb s .MAPPER_REMOVED)) ∧
      ((db.base.devices.map (fun d => d.props.ptr)).Nodup → dev ∈ db.base.devices →
        device_key dev1 = device_key dev)) ∧
    ((db.signals.map (fun s => s.ptr)).Nodup →
      (mapper_db_remove_device env db dev quiet).1.signals =
        db.signals.filter (fun s => s.is_local || !cmp_query_device_signals db dev.id s)) ∧
    ((db.signals.map (fun s => s.ptr)).Nodup → (db.maps.map (fun m => m.ptr)).Nodup →
      (mapper_db_remove_device env db dev quiet).1.maps =
        db.maps.filter (fun m => m.is_local || !cmp_query_device_maps db dev.id m)) ∧
    ((db.base.devices.map (fun d => d.props.ptr)).Nodup → dev ∈ db.base.devices →
      ∀ d ∈ db.base.devices, d.id ≠ dev.id →
        d ∈ (mapper_db_remove_device env db dev quiet).1.base.devices) := by
  obtain ⟨m1, m2⟩ := remove_maps_spec (mapper_db_device_maps db dev) db
  have hsigs : mapper_db_device_signals
      (mapper_db_remove_maps_by_query db (mapper_db_device_maps db dev)).1 dev =
      db.signals.filter (cmp_query_device_signals db dev.id) := by
    rw [m1]
    rfl
  obtain ⟨s1, s2, s3, s4, s5, s6, s7⟩ := remove_signals_spec
    (db.signals.filter (cmp_query_device_signals db dev.id))
    (mapper_db_remove_maps_by_query db (mapper_db_device_maps db dev)).1
  have mbase : (mapper_db_remove_maps_by_query db (mapper_db_device_maps db dev)).1.base =
      db.base := by rw [m1]
  have msubs : (mapper_db_remove_maps_by_query db (mapper_db_device_maps db dev)).1.subscriptions
      = db.subscriptions := by rw [m1]
  have msigs : (mapper_db_remove_maps_by_query db (mapper_db_device_maps db dev)).1.signals
      = db.signals := by rw [m1]
  have mmaps : (mapper_db_remove_maps_by_query db (mapper_db_device_maps db dev)).1.maps
      = db.maps.filter (fun m => !((db.maps.filter (cmp_query_device_maps db dev.id)).any
          (fun x => !x.is_local && decide (x.ptr = m.ptr)))) := by
    rw [m1]
    rfl
  rw [mbase] at s2 s4 s5
  rw [msubs] at s1
  rw [msigs] at s3
  rw [mmaps] at s7
  have hkeys := filter_key (fun p => decide (p ≠ dev.props.ptr)) _ _ s4
  -- the state and the calls up to the device callbacks
  have hrd : mapper_db_remove_device env db dev quiet =
      (if quiet then
        ({ (mapper_db_remove_signals_by_query
            (mapper_db_remove_maps_by_query db (mapper_db_device_maps db dev)).1
            (db.signals.filter (cmp_query_device_signals db dev.id))).1 with
          base := { (mapper_db_remove_signals_by_query
            (mapper_db_remove_maps_by_query db (mapper_db_device_maps db dev)).1
            (db.signals.filter (cmp_query_device_signals db dev.id))).1.base with
            devices := (mapper_db_remove_signals_by_query
              (mapper_db_remove_maps_by_query db (mapper_db_device_maps db dev)).1
              (db.signals.filter (cmp_query_device_signals db dev.id))).1.base.devices.filter
                (fun d => decide (d.props.ptr ≠ dev.props.ptr)) } },
          (mapper_db_remove_maps_by_query db (mapper_db_device_maps db dev)).2 ++
          (mapper_db_remove_signals_by_query
            (mapper_db_remove_maps_by_query db (mapper_db_device_maps db dev)).1
            (db.signals.filter (cmp_query_device_signals db dev.id))).2)
      else
        ((fire_device_removed env
          ((device_at (mapper_db_remove_signals_by_query
            (mapper_db_remove_maps_by_query db (mapper_db_device_maps db dev)).1
            (db.signals.filter (cmp_query_device_signals db dev.id))).1 dev.props.ptr).getD dev)
          { (mapper_db_remove_signals_by_query
              (mapper_db_remove_maps_by_query db (mapper_db_device_maps db dev)).1
              (db.signals.filter (cmp_query_device_signals db dev.id))).1 with
            base := { (mapper_db_remove_signals_by_query
              (mapper_db_remove_maps_by_query db (mapper_db_device_maps db dev)).1
              (db.signals.filter (cmp_query_device_signals db dev.id))).1.base with
              devices := (mapper_db_remove_signals_by_query
                (mapper_db_remove_maps_by_query db (mapper_db_device_maps db dev)).1
                (db.signals.filter (cmp_query_device_signals db dev.id))).1.base.devices.filter
                  (fun d => decide (d.props.ptr ≠ dev.props.ptr)) } }
          db.base.device_callbacks).1,
          (mapper_db_remove_maps_by_query db (mapper_db_device_maps db dev)).2 ++
          (mapper_db_remove_signals_by_query
            (mapper_db_remove_maps_by_query db (mapper_db_device_maps db dev)).1
            (db.signals.filter (cmp_query_device_signals db dev.id))).2 ++
          (fire_device_removed env
          ((device_at (mapper_db_remove_signals_by_query
            (mapper_db_remove_maps_by_query db (mapper_db_device_maps db dev)).1
            (db.signals.filter (cmp_query_device_signals db dev.id))).1 dev.props.ptr).getD dev)
          { (mapper_db_remove_signals_by_query
              (mapper_db_remove_maps_by_query db (mapper_db_device_maps db dev)).1
              (db.signals.filter (cmp_query_device_signals db dev.id))).1 with
            base := { (mapper_db_remove_signals_by_query
              (mapper_db_remove_maps_by_query db (mapper_db_device_maps db dev)).1
              (db.signals.filter (cmp_query_device_signals db dev.id))).1.base with
              devices := (mapper_db_remove_signals_by_query
                (mapper_db_remove_maps_by_query db (mapper_db_device_maps db dev)).1
                (db.signals.filter (cmp_query_device_signals db dev.id))).1.base.devices.filter
                  (fun d => decide (d.props.ptr ≠ dev.props.ptr)) } }
          db.base.device_callbacks).2)) := by
    simp only [mapper_db_remove_device, hsigs, s2]
    cases quiet <;> simp
  rw [hrd]
  generalize hM : mapper_db_remove_maps_by_query db (mapper_db_device_maps db dev) = M at *
  generalize hS : mapper_db_remove_signals_by_query M.1
    (db.signals.filter (cmp_query_device_signals db dev.id)) = S at *
  have hptr : ((device_at S.1 dev.props.ptr).getD dev).props.ptr = dev.props.ptr := by
    unfold device_at
    cases hf : S.1.base.devices.find? (fun d => decide (d.props.ptr = dev.props.ptr)) with
    | none => rfl
    | some d => simpa using List.find?_some hf
  generalize hD : (device_at S.1 dev.props.ptr).getD dev = dev1 at *
  obtain ⟨f1, f2, f3⟩ := fire_device_removed_spec env dev1 db.base.device_callbacks
    { S.1 with base := { S.1.base with
        devices := S.1.base.devices.filter (fun d => decide (d.props.ptr ≠ dev.props.ptr)) } }
  generalize hF : fire_device_removed env dev1
    { S.1 with base := { S.1.base with
        devices := S.1.base.devices.filter (fun d => decide (d.props.ptr ≠ dev.props.ptr)) } }
    db.base.device_callbacks = F at *
  have hpre : ∀ x ∈ M.2 ++ S.2,
      (∃ cb map, x = db_effect.map_cb cb map .MAPPER_REMOVED) ∨
        (∃ cb s, x = db_effect.signal_cb cb s .MAPPER_REMOVED) := by
    intro x hx
    rcases List.mem_append.mp hx with h | h
    · exact Or.inl (m2 x h)
    · exact s6 x h
  have hdev1 : (db.base.devices.map (fun d => d.props.ptr)).Nodup → dev ∈ db.base.devices →
      device_key dev1 = device_key dev := by
    intro hd hin
    obtain ⟨d1, e1, e2⟩ := find_key S.1.base.devices db.base.devices s4 hd dev hin
    rw [← hD]
    unfold device_at
    rw [e1]
    exact e2
  have hFbase : F.1.base.devices =
      S.1.base.devices.filter (fun d => decide (d.props.ptr ≠ dev.props.ptr)) := by
    rw [f1]
  have hFsig : F.1.signals = S.1.signals := by rw [f1]
  have hFmaps : F.1.maps = S.1.maps := by rw [f1]
  have hsig : (db.signals.map (fun s => s.ptr)).Nodup → S.1.signals =
      db.signals.filter (fun s => s.is_local || !cmp_query_device_signals db dev.id s) := by
    intro hs
    rw [s3]
    exact filter_ptr_nodup (fun s : mapper_signal_t => s.ptr) (fun s => s.is_local) db.signals hs
      (cmp_query_device_signals db dev.id)
  have hmap : (db.signals.map (fun s => s.ptr)).Nodup → (db.maps.map (fun m => m.ptr)).Nodup →
      S.1.maps = db.maps.filter (fun m => m.is_local || !cmp_query_device_maps db dev.id m) := by
    intro hs hm
    have e := filter_ptr_nodup (fun m : mapper_map_t => m.ptr) (fun m => m.is_local) db.maps hm
      (cmp_query_device_maps db dev.id)
    rw [e] at s7
    rw [s7]
    intro sig hsg m hmm hc
    simp only [List.mem_filter, Bool.or_eq_true, Bool.not_eq_true_eq_eq_false] at hmm hsg
    rcases hmm.2 with h | h
    · exact h
    · have := signal_maps_device_maps db hs sig hsg.1 dev.id (by simpa [cmp_query_device_signals] using hsg.2) m hc
      rw [this] at h
      exact absurd h (by simp)
  have hkeep : (db.base.devices.map (fun d => d.props.ptr)).Nodup → dev ∈ db.base.devices →
      ∀ d ∈ db.base.devices, d.id ≠ dev.id →
        d ∈ S.1.base.devices.filter (fun d => decide (d.props.ptr ≠ dev.props.ptr)) := by
    intro hd hin d hdm hid
    rw [List.mem_filter]
    refine ⟨s5 d hdm ?_, ?_⟩
    · intro sig hsg e
      simp only [List.mem_filter, cmp_query_device_signals, decide_eq_true_eq] at hsg
      have h2 := hsg.2
      simp only [signal_device_id, e, device_at_of_nodup db hd d hdm, Option.map_some',
        Option.some.injEq] at h2
      exact hid h2
    · simp only [decide_eq_true_eq]
      intro e
      have := List.inj_on_of_nodup_map hd hdm hin e
      exact hid (by rw [this])
  cases quiet
  · simp only [Bool.false_eq_true, if_false]
    refine ⟨?_, ?_, ?_, ?_, ?_, ?_⟩
    · rw [hFbase]
      exact hkeys
    · intro h
      rw [← s1]
      exact f3 (by rw [s1, hptr]; exact h)
    · exact ⟨M.2 ++ S.2, dev1, by rw [f2], hpre, hdev1⟩
    · intro hs
      rw [hFsig]
      exact hsig hs
    · intro hs hm
      rw [hFmaps]
      exact hmap hs hm
    · intro hd hin d hdm hid
      rw [hFbase]
      exact hkeep hd hin d hdm hid
  · simp only [if_true]
    refine ⟨hkeys, fun _ => s1, ⟨M.2 ++ S.2, dev1, by simp, hpre, hdev1⟩, hsig, hmap, hkeep⟩

/-- C13 (as stated, refuted): the local device `me` has the local output `out`.
After `mapper_db_remove_device` for `me` the record of `me` is gone from the
device table and `out` is still in the signal table. -/
theorem remove_device_keeps_local_signal :
    local_sig.device = local_dev.props.ptr ∧ local_dev ∈ local_db.base.devices ∧
    (mapper_db_remove_device sub_env local_db local_dev false).1.base.devices = [peer_dev] ∧
    (mapper_db_remove_device sub_env local_db local_dev false).1.signals =
      [local_sig, peer_sig] := by
  decide

/-- C13 (amended): in a database whose records have addresses of their own,
`mapper_db_remove_device(db, dev, quiet)` for a record `dev` of the table
unlinks `dev`; the signal table keeps exactly the signals that are local or
whose device has another id than `dev`; the map table keeps exactly the maps
that are local or have no slot on a signal of a device with the id of `dev`;
the other device records keep address, name, id, `synced` and order, and a
record with another id is unchanged; before the device callbacks only map and
signal callbacks are called, with `MAPPER_REMOVED`; and every device callback
is called once with `MAPPER_REMOVED` when `quiet` is 0, none when it is not. -/
theorem remove_device_cascade (env : db_env) (db : mapper_db_t)
    (dev : mapper_device device_props) (quiet : Bool)
    (hd : (db.base.devices.map (fun d => d.props.ptr)).Nodup)
    (hs : (db.signals.map (fun s => s.ptr)).Nodup)
    (hm : (db.maps.map (fun m => m.ptr)).Nodup)
    (hin : dev ∈ db.base.devices) :
    (∀ d ∈ (mapper_db_remove_device env db dev quiet).1.base.devices,
      d.props.ptr ≠ dev.props.ptr) ∧
    ((mapper_db_remove_device env db dev quiet).1.signals =
      db.signals.filter (fun s => s.is_local || !decide (signal_device_id db s = some dev.id))) ∧
    ((mapper_db_remove_device env db dev quiet).1.maps =
      db.maps.filter (fun m => m.is_local ||
        !(m.sources.any (fun slot => decide (slot_device_id db slot = some dev.id)) ||
          decide (slot_device_id db m.destination = some dev.id)))) ∧
    ((mapper_db_remove_device env db dev quiet).1.base.devices.map device_key =
      (db.base.devices.filter (fun d => decide (d.props.ptr ≠ dev.props.ptr))).map device_key) ∧
    (∀ d ∈ db.base.devices, d.id ≠ dev.id →
      d ∈ (mapper_db_remove_device env db dev quiet).1.base.devices) ∧
    (∃ pre dev1, device_key dev1 = device_key dev ∧
      (mapper_db_remove_device env db dev quiet).2 = pre ++
        (if quiet then [] else
          db.base.device_callbacks.map (fun cb => db_effect.device_cb cb dev1 .MAPPER_REMOVED)) ∧
      (∀ x ∈ pre, (∃ cb map, x = db_effect.map_cb cb map .MAPPER_REMOVED) ∨
        (∃ cb s, x = db_effect.signal_cb cb s .MAPPER_REMOVED))) := by
  obtain ⟨h1, _, ⟨pre, dev1, h3, h4, h5⟩, h6, h7, h8⟩ := remove_device_spec env db dev quiet
  refine ⟨?_, h6 hs, h7 hs hm, h1, h8 hd hin, ⟨pre, dev1, h5 hd hin, h3, h4⟩⟩
  intro d hdm e
  have hk : device_key d ∈ (mapper_db_remove_device env db dev quiet).1.base.devices.map
      device_key := List.mem_map_of_mem _ hdm
  rw [h1, List.mem_map] at hk
  obtain ⟨d2, hd2, ek⟩ := hk
  simp only [List.mem_filter, decide_eq_true_eq] at hd2
  have : d2.props.ptr = d.props.ptr := congrArg (fun k => k.1) ek
  exact hd2.2 (this.trans e)

/-- C13 (amended) at a concrete input: removing `bar` from the database of `me`
and `bar` takes `bar/in` with it and leaves `me/out`. -/
theorem remove_device_cascade_witness :
    (mapper_db_remove_device sub_env local_db peer_dev true).1.signals = [local_sig] :=
  (remove_device_cascade sub_env local_db peer_dev true (by decide) (by decide) (by decide)
    (by decide)).2.1.trans (by decide)

/-! ## Flushing expired devices -/

theorem drop_subscriptions_eq (p : Nat) (l : List mapper_subscription) :
    drop_subscriptions p l = l.filter (fun s => decide (s.device ≠ p)) := by
  induction l with
  | nil => rfl
  | cons s rest ih =>
    by_cases h : s.device = p
    · simp [drop_subscriptions, h, ih]
    · simp [drop_subscriptions, h, ih]

theorem expired_key (last_ping : Nat) (l1 l2 : List (mapper_device device_props))
    (h : l1.map device_key = l2.map device_key) :
    (l1.filter (fun d => !device_expired last_ping d)).map device_key =
      (l2.filter (fun d => !device_expired last_ping d)).map device_key := by
  have e : ∀ l : List (mapper_device device_props),
      (l.filter (fun d => !device_expired last_ping d)).map device_key =
        (l.map device_key).filter
          (fun k => !(decide (k.2.2.2.1.sec ≠ 0) && decide (k.2.2.2.1.sec < last_ping))) := by
    intro l
    rw [List.filter_map]
    rfl
  rw [e, e, h]

theorem any_expired_key (last_ping p : Nat) (l1 l2 : List (mapper_device device_props))
    (h : l1.map device_key = l2.map device_key) :
    l1.any (fun d => device_expired last_ping d && decide (d.props.ptr = p)) =
      l2.any (fun d => device_expired last_ping d && decide (d.props.ptr = p)) := by
  have e : ∀ l : List (mapper_device device_props),
      l.any (fun d => device_expired last_ping d && decide (d.props.ptr = p)) =
        (l.map device_key).any (fun k =>
          (decide (k.2.2.2.1.sec ≠ 0) && decide (k.2.2.2.1.sec < last_ping)) &&
            decide (k.1 = p)) := by
    intro l
    induction l with
    | nil => rfl
    | cons d ds ihl =>
      simp only [List.any_cons, List.map_cons, ihl]
      rfl
  rw [e, e, h]

/-- The loop of `mapper_db_flush` returns when it has one round more than there
are devices, and what it returns. -/
theorem flush_loop_spec (env : db_env) (last_ping : Nat) (quiet : Bool) :
    ∀ (fuel : Nat) (db : mapper_db_t), db.base.devices.length < fuel →
      (db.base.devices.map (fun d => d.props.ptr)).Nodup →
      ∃ r, flush_loop env last_ping quiet fuel db = some r ∧
        r.1.base.devices.map device_key =
          (db.base.devices.filter (fun d => !device_expired last_ping d)).map device_key ∧
        r.1.subscriptions = db.subscriptions.filter (fun s =>
          !(db.base.devices.any (fun d =>
            device_expired last_ping d && decide (d.props.ptr = s.device)))) ∧
        (∀ x ∈ r.2, ∀ path args, x ≠ db_effect.send path args) := by
  intro fuel
  induction fuel with
  | zero => intro db h; exact absurd h (by omega)
  | succ n ih =>
    intro db hlen hnd
    cases hf : mapper_db_expired_device db last_ping with
    | none =>
      refine ⟨(db, []), by simp [flush_loop, hf], ?_, ?_, by simp⟩
      · have : ∀ d ∈ db.base.devices, (!device_expired last_ping d) = true := by
          intro d hd
          have := List.find?_eq_none.mp hf d hd
          simpa using this
        rw [List.filter_eq_self.mpr this]
      · symm
        apply List.filter_eq_self.mpr
        intro s _
        simp only [Bool.not_eq_true_eq_eq_false, List.any_eq_false, Bool.and_eq_true,
          decide_eq_true_eq, not_and]
        intro d hd he
        have := List.find?_eq_none.mp hf d hd
        exact absurd he this
    | some dev =>
      have hexp : device_expired last_ping dev = true := List.find?_some hf
      have hin : dev ∈ db.base.devices := List.mem_of_find?_eq_some hf
      obtain ⟨r1, r2, ⟨pre, dev1, r3, r4, _⟩, _, _, _⟩ := remove_device_spec env
        { db with subscriptions := drop_subscriptions dev.props.ptr db.subscriptions } dev quiet
      simp only at r1 r2 r3
      have hsub := r2 (by
        intro s hs
        rw [drop_subscriptions_eq] at hs
        simpa using (List.mem_filter.mp hs).2)
      -- the device table after the round
      have hlen2 : (mapper_db_remove_device env
          { db with subscriptions := drop_subscriptions dev.props.ptr db.subscriptions }
          dev quiet).1.base.devices.length < n := by
        have e1 := congrArg List.length r1
        simp only [List.length_map] at e1
        rw [e1]
        have : (db.base.devices.filter (fun d => decide (d.props.ptr ≠ dev.props.ptr))).length <
            db.base.devices.length := by
          apply List.length_filter_lt_length_iff_exists.mpr
          exact ⟨dev, hin, by simp⟩
        omega
      have hnd2 : ((mapper_db_remove_device env
          { db with subscriptions := drop_subscriptions dev.props.ptr db.subscriptions }
          dev quiet).1.base.devices.map (fun d => d.props.ptr)).Nodup := by
        have e1 := congrArg (List.map (fun k : Nat × List Char × Nat × mapper_timetag_t × Bool =>
          k.1)) r1
        simp only [List.map_map] at e1
        have e2 : ((fun k : Nat × List Char × Nat × mapper_timetag_t × Bool => k.1) ∘ device_key)
            = (fun d : mapper_device device_props => d.props.ptr) := rfl
        rw [e2] at e1
        rw [e1]
        exact (hnd.sublist (List.Sublist.map _ (List.filter_sublist _)))
      obtain ⟨rest, i1, i2, i3, i4⟩ := ih _ hlen2 hnd2
      refine ⟨(rest.1, (mapper_db_remove_device env
          { db with subscriptions := drop_subscriptions dev.props.ptr db.subscriptions }
          dev quiet).2 ++ rest.2), by simp [flush_loop, hf, i1], ?_, ?_, ?_⟩
      · rw [i2, expired_key last_ping _ _ r1, List.filter_filter]
        congr 1
        apply List.filter_congr
        intro d hd
        beta_reduce
        by_cases e : d.props.ptr = dev.props.ptr
        · have := List.inj_on_of_nodup_map hnd hd hin e
          rw [this, hexp]
          simp
        · simp [e]
      · rw [i3, hsub.trans (drop_subscriptions_eq _ _), List.filter_filter]
        apply List.filter_congr
        intro s _
        beta_reduce
        rw [any_expired_key last_ping s.device _ _ r1]
        by_cases e : s.device = dev.props.ptr
        · have : db.base.devices.any (fun d =>
              device_expired last_ping d && decide (d.props.ptr = s.device)) = true := by
            rw [List.any_eq_true]
            exact ⟨dev, hin, by simp [hexp, e]⟩
          rw [this]
          simp [e]
        · have : (db.base.devices.filter (fun d => decide (d.props.ptr ≠ dev.props.ptr))).any
              (fun d => device_expired last_ping d && decide (d.props.ptr = s.device)) =
              db.base.devices.any (fun d =>
                device_expired last_ping d && decide (d.props.ptr = s.device)) := by
            rw [List.any_filter]
            congr 1
            funext d
            by_cases e2 : d.props.ptr = s.device
            · have : d.props.ptr ≠ dev.props.ptr := fun h => e (e2.symm.trans h)
              simp [e2, e]
            · simp [e2]
          rw [this]
          simp [e]
      · intro x hx path args ex
        subst ex
        rcases List.mem_append.mp hx with h | h
        · rw [r3] at h
          rcases List.mem_append.mp h with h | h
          · rcases r4 _ h with ⟨_, _, e⟩ | ⟨_, _, e⟩ <;> simp at e
          · cases quiet <;> simp at h
        · exact i4 _ h path args rfl

/-- C11 (as stated, refuted): `baz` has `synced.sec` 0, which is older than
`now.sec - timeout_sec` = 990, and `mapper_db_flush` leaves it in the device
table, with its subscription; `bar`, last heard of at second 80, is removed. -/
theorem flush_keeps_unsynced :
    (unsynced_dev.synced.sec : Int) < 1000 - 10 ∧
    (mapper_db_flush sub_env unsynced_db 10 true ⟨1000, 0⟩).map
      (fun r => (r.1.base.devices, r.1.subscriptions)) =
      some ([unsynced_dev], [⟨5, 1, 2000⟩]) := by
  decide

/-- C11 (amended): in a database whose device records have addresses of their
own, `mapper_db_flush(db, timeout_sec, quiet)` returns, and with `last_ping =
now.sec - timeout_sec` computed in `uint32_t`: the device table keeps exactly
the records that are not expired, a record being expired when its `synced.sec`
is not 0 and is below `last_ping`, with address, name, id, `synced` and order
as before; the subscription list keeps exactly the records whose device is not
an expired one, in order; and no message is sent. -/
theorem flush_removes_expired (env : db_env) (db : mapper_db_t) (timeout_sec : Int)
    (quiet : Bool) (now : mapper_timetag_t)
    (hd : (db.base.devices.map (fun d => d.props.ptr)).Nodup) :
    ∃ r, mapper_db_flush env db timeout_sec quiet now = some r ∧
      r.1.base.devices.map device_key =
        (db.base.devices.filter (fun d =>
          !(decide (d.synced.sec ≠ 0) &&
            decide (d.synced.sec < to_unsigned ((now.sec : Int) - timeout_sec))))).map
          device_key ∧
      r.1.subscriptions = db.subscriptions.filter (fun s =>
        !(db.base.devices.any (fun d =>
          (decide (d.synced.sec ≠ 0) &&
            decide (d.synced.sec < to_unsigned ((now.sec : Int) - timeout_sec))) &&
          decide (d.props.ptr = s.device)))) ∧
      (∀ x ∈ r.2, ∀ path args, x ≠ db_effect.send path args) :=
  flush_loop_spec env (to_unsigned ((now.sec : Int) - timeout_sec)) quiet
    (db.base.devices.length + 1)
    { db with base := { db.base with clock_now := now } } (Nat.lt_succ_self _) hd

/-- C11 (amended) at a concrete input: the flush at second 1000 with a timeout of
10 s returns a database without `bar`. -/
theorem flush_removes_expired_witness :
    ∃ r, mapper_db_flush sub_env unsynced_db 10 true ⟨1000, 0⟩ = some r ∧
      r.1.base.devices.map device_key = [device_key unsynced_dev] ∧
      r.1.subscriptions = [⟨5, 1, 2000⟩] := by
  obtain ⟨r, h1, h2, h3, _⟩ := flush_removes_expired sub_env unsynced_db 10 true ⟨1000, 0⟩
    (by decide)
  exact ⟨r, h1, h2.trans (by decide), h3.trans (by decide)⟩

/-! ## Map records -/

theorem map_params_limit {μ : Type} (env : map_env μ) (db : mapper_db_t)
    (src_names : List (List Char)) (dest_name : List Char) (params : Option μ)
    (now : mapper_timetag_t) (h : 8 ≤ src_names.length) :
    mapper_db_add_or_update_map_params env db src_names dest_name params now = ⟨db, none, []⟩ := by
  unfold mapper_db_add_or_update_map_params
  rw [if_pos]
  exact h

/-- C15: a map with 8 sources is turned down.  With the eight names `/a.1/s0` ...
`/a.1/s7` `mapper_db_add_or_update_map_params` returns null, changes nothing
and calls nothing; with the first seven of them it returns the new map record,
which has seven source slots. -/
theorem map_params_rejects_eight :
    eight_sources.length = 8 ∧
    mapper_db_add_or_update_map_params sample_map_env empty_db eight_sources "/b.1/in".toList
      (some 5) ⟨100, 0⟩ = ⟨empty_db, none, []⟩ ∧
    (mapper_db_add_or_update_map_params sample_map_env empty_db (eight_sources.take 7)
      "/b.1/in".toList (some 5) ⟨100, 0⟩).map = some 1 ∧
    (mapper_db_add_or_update_map_params sample_map_env empty_db (eight_sources.take 7)
      "/b.1/in".toList (some 5) ⟨100, 0⟩).db.maps.map (fun m => (m.id, m.sources.length)) =
      [(5, 7)] := by
  decide

/-- C16: a new map made from the sources `/b.1/x`, `/a.1/y` keeps them in the
order given, `b.1/x` before `a.1/y`, for which `compare_slot_names` is
positive.  Adding the source `/a.1/a` to that map afterwards sorts the array:
`a.1/a`, `a.1/y`, `b.1/x`. -/
theorem created_map_sources_unsorted :
    two_source_map.map = some 1 ∧
    two_source_map.db.maps.map (fun m => m.sources.map (slot_names two_source_map.db)) =
      [[some ("b.1".toList, "x".toList), some ("a.1".toList, "y".toList)]] ∧
    two_source_map.db.maps.map (fun m => m.sources) = [[⟨3, 0⟩, ⟨5, 1⟩]] ∧
    0 < compare_slot_names two_source_map.db ⟨3, 0⟩ ⟨5, 1⟩ ∧
    three_source_map.db.maps.map (fun m => m.sources.map (slot_names three_source_map.db)) =
      [[some ("a.1".toList, "a".toList), some ("a.1".toList, "y".toList),
        some ("b.1".toList, "x".toList)]] := by
  decide

/-! ## Links -/

theorem find_router_none_iff (name : List Char) (l : List _mapper_router) (i : Nat) :
    find_router name l i = none ↔ ∀ r ∈ l, strcmp r.target_name name ≠ 0 := by
  induction l generalizing i with
  | nil => simp [find_router]
  | cons r rest ih =>
    by_cases h : strcmp r.target_name name = 0
    · simp [find_router, h]
    · simp [find_router, h, ih]

theorem find_router_some (name : List Char) (l : List _mapper_router) (i k : Nat)
    (h : find_router name l i = some k) :
    i ≤ k ∧ k - i < l.length ∧ (∃ r, l.get? (k - i) = some r ∧ strcmp r.target_name name = 0) ∧
      ∀ j < k - i, ∀ r, l.get? j = some r → strcmp r.target_name name ≠ 0 := by
  induction l generalizing i with
  | nil => simp [find_router] at h
  | cons r rest ih =>
    by_cases hr : strcmp r.target_name name = 0
    · simp only [find_router, hr, if_true, Option.some.injEq] at h
      subst h
      simp [hr]
    · simp only [find_router, hr, if_false] at h
      obtain ⟨h1, h2, ⟨r2, h3, h4⟩, h5⟩ := ih (i + 1) h
      have e : k - i = (k - (i + 1)) + 1 := by omega
      refine ⟨by omega, ?_, ⟨r2, ?_, h4⟩, ?_⟩
      · rw [e]; simp only [List.length_cons]; omega
      · rw [e]; simpa using h3
      · intro j hj r3 hr3
        cases j with
        | zero =>
          simp only [List.get?_cons_zero, Option.some.injEq] at hr3
          rw [← hr3]; exact hr
        | succ j =>
          simp only [List.get?_cons_succ] at hr3
          exact h5 j (by omega) r3 hr3

/-- Once the name is built, `mapper_admin_name` returns it and changes nothing. -/
theorem admin_name_again (a : admin_device) (name : List Char) (a1 : admin_device)
    (h : admin_name a = .ok (name, a1)) :
    _real_mapper_admin_name a1.admin = (some name, a1.admin) ∧ a1.device = a.device ∧
      a1.admin.ordinal = a.admin.ordinal ∧ a1.admin.port = a.admin.port ∧
      a1.admin.registered = a.admin.registered ∧ a1.admin.identifier = a.admin.identifier := by
  unfold admin_name at h
  unfold _real_mapper_admin_name at h ⊢
  cases hl : a.admin.ordinal.locked
  · simp [hl] at h
  · cases hn : a.admin.name with
    | none =>
      simp only [hl, hn, Bool.not_true, Bool.false_eq_true, if_false, Except.ok.injEq,
        Prod.mk.injEq] at h
      obtain ⟨h1, h2⟩ := h
      subst h2
      simp [hl, h1]
    | some n =>
      simp only [hl, hn, Bool.not_true, Bool.false_eq_true, if_false, Except.ok.injEq,
        Prod.mk.injEq] at h
      obtain ⟨h1, h2⟩ := h
      subst h2
      simp [hl, hn, h1]

/-- C20: for a `/link_to` whose first two arguments are strings, handled by a
device that has its name: when the sender name is the device's own name, no
router has the target name, and the parameters parse and carry a string `@IP`
and an integer `@port`, `handler_device_link_to` links one router for the
target (with that host and port) into the router list, adds 1 to
`num_routers` and sends one `/linked` with the own name and the target name;
in every other case the device is unchanged and nothing is sent.  Nothing
sets the target apart from the own name, so a device links to itself. -/
theorem link_to_adds_router {μ : Type} (env : link_env μ) (a : admin_device)
    (a0 a1 : lo_arg) (rest : List lo_arg) (name : List Char) (a1s : admin_device)
    (hs0 : a0.is_string = true) (hs1 : a1.is_string = true)
    (hn : admin_name a = .ok (name, a1s)) :
    (∀ params host port, strcmp (arg_s env.raw a0) name = 0 →
      find_router (arg_s env.raw a1) a.device.routers 0 = none →
      env.mapper_msg_parse_params rest = some params →
      env.get_param_AT_IP params = some host → env.get_param_AT_PORT params = some port →
      handler_device_link_to env a (a0 :: a1 :: rest) =
        .ok ({ a1s with device :=
            { a.device with
              routers := ⟨arg_s env.raw a1, host, port, []⟩ :: a.device.routers
              num_routers := a.device.num_routers + 1 } },
          [effect.send "/linked" [lo_arg.s name, lo_arg.s (arg_s env.raw a1)]])) ∧
    ((strcmp (arg_s env.raw a0) name ≠ 0 ∨
        find_router (arg_s env.raw a1) a.device.routers 0 ≠ none ∨
        (∀ params, env.mapper_msg_parse_params rest = some params →
          env.get_param_AT_IP params = none ∨ env.get_param_AT_PORT params = none)) →
      handler_device_link_to env a (a0 :: a1 :: rest) = .ok (a1s, [])) ∧
    a1s.device = a.device ∧
    (find_router (arg_s env.raw a1) a.device.routers 0 = none ↔
      ∀ r ∈ a.device.routers, strcmp r.target_name (arg_s env.raw a1) ≠ 0) := by
  obtain ⟨hagain, hdev, _⟩ := admin_name_again a name a1s hn
  have hrej : two_names_rejected (a0 :: a1 :: rest) = false := by
    simp [two_names_rejected, hs0, hs1]
  refine ⟨?_, ?_, hdev, find_router_none_iff _ _ _⟩
  · intro params host port h1 h2 h3 h4 h5
    simp only [handler_device_link_to, hrej, Bool.false_eq_true, if_false, hn, h1, ne_eq,
      not_true_eq_false, h2, h3, h4, h5, mapper_admin_send_osc, mdev_add_router,
      mapper_router_new, hagain, List.flatMap_nil, List.append_nil]
  · intro h
    simp only [handler_device_link_to, hrej, Bool.false_eq_true, if_false, hn]
    by_cases h1 : strcmp (arg_s env.raw a0) name = 0
    · simp only [h1, ne_eq, not_true_eq_false, if_false]
      cases h2 : find_router (arg_s env.raw a1) a.device.routers 0 with
      | some i => rfl
      | none =>
        simp only
        cases h3 : env.mapper_msg_parse_params rest with
        | none => rfl
        | some params =>
          simp only
          rcases h with h | h | h
          · exact absurd h1 h
          · exact absurd h2 h
          · rcases h params h3 with h4 | h4
            · simp [h4]
            · cases h5 : env.get_param_AT_IP params with
              | none => rfl
              | some host => simp [h4]
    · simp [h1]

/-- C20 at a concrete input: `/test.1` is asked to link to itself. -/
theorem link_to_adds_router_witness :
    (handler_device_link_to sample_link_env lone_device
      (lo_arg.s "/test.1".toList :: lo_arg.s "/test.1".toList :: link_to_peer.drop 2)).toOption.map
      (fun r => (r.1.device.routers, r.1.device.num_routers, r.2)) =
    some ([⟨"/test.1".toList, "10.0.0.2".toList, 9001, []⟩], 1,
      [effect.send "/linked" [lo_arg.s "/test.1".toList, lo_arg.s "/test.1".toList]]) := by
  rw [(link_to_adds_router sample_link_env lone_device (lo_arg.s "/test.1".toList)
    (lo_arg.s "/test.1".toList) (link_to_peer.drop 2) "/test.1".toList
    { lone_device with admin := { lone_device.admin with name := some "/test.1".toList } }
    rfl rfl (by decide)).1 (link_to_peer.drop 2) "10.0.0.2".toList 9001 (by decide) (by decide)
    (by decide) (by decide) (by decide)]
  decide

theorem strcmp_self (s : List Char) : strcmp s s = 0 := by
  induction s with
  | nil => rfl
  | cons c cs ih => simp [strcmp, ih]

/-- What a `/link_to` that the handler returns from does to the device. -/
theorem link_to_step {μ : Type} (env : link_env μ) (a b : admin_device) (args : List lo_arg)
    (out : List effect) (h : handler_device_link_to env a args = .ok (b, out)) :
    b.device = a.device ∨
      ∃ r : _mapper_router, (∀ s ∈ a.device.routers, strcmp s.target_name r.target_name ≠ 0) ∧
        b.device = { a.device with routers := r :: a.device.routers,
                                   num_routers := a.device.num_routers + 1 } := by
  rcases args with _ | ⟨a0, _ | ⟨a1, rest⟩⟩
  · simp only [handler_device_link_to, two_names_rejected, if_true, Except.ok.injEq,
      Prod.mk.injEq] at h
    left; rw [← h.1]
  · simp only [handler_device_link_to, two_names_rejected, if_true, Except.ok.injEq,
      Prod.mk.injEq] at h
    left; rw [← h.1]
  · simp only [handler_device_link_to] at h
    by_cases hrej : two_names_rejected (a0 :: a1 :: rest) = true
    · simp only [hrej, if_true, Except.ok.injEq, Prod.mk.injEq] at h
      left; rw [← h.1]
    · simp only [hrej, Bool.false_eq_true, if_false] at h
      cases hn : admin_name a with
      | error e => simp [hn] at h
      | ok p =>
        obtain ⟨name, a1s⟩ := p
        have hdev := (admin_name_again a name a1s hn).2.1
        simp only [hn] at h
        by_cases h1 : strcmp (arg_s env.raw a0) name = 0
        · simp only [h1, ne_eq, not_true_eq_false, if_false] at h
          cases h2 : find_router (arg_s env.raw a1) a.device.routers 0 with
          | some i =>
            simp only [h2, Except.ok.injEq, Prod.mk.injEq] at h
            left; rw [← h.1, hdev]
          | none =>
            simp only [h2] at h
            cases h3 : env.mapper_msg_parse_params rest with
            | none =>
              simp only [h3, Except.ok.injEq, Prod.mk.injEq] at h
              left; rw [← h.1, hdev]
            | some params =>
              simp only [h3] at h
              cases h4 : env.get_param_AT_IP params with
              | none =>
                simp only [h4, Except.ok.injEq, Prod.mk.injEq] at h
                left; rw [← h.1, hdev]
              | some host =>
                simp only [h4] at h
                cases h5 : env.get_param_AT_PORT params with
                | none =>
                  simp only [h5, Except.ok.injEq, Prod.mk.injEq] at h
                  left; rw [← h.1, hdev]
                | some port =>
                  simp only [h5, mapper_admin_send_osc, Except.ok.injEq, Prod.mk.injEq] at h
                  right
                  refine ⟨mapper_router_new host port (arg_s env.raw a1), ?_, ?_⟩
                  · exact (find_router_none_iff _ _ _).mp h2
                  · rw [← h.1]
                    rfl
        · simp only [h1, ne_eq, not_false_eq_true, if_true, Except.ok.injEq, Prod.mk.injEq] at h
          left; rw [← h.1, hdev]

/-- What an `/unlink` that the handler returns from does to the device. -/
theorem unlink_step {μ : Type} (env : link_env μ) (a b : admin_device) (args : List lo_arg)
    (out : List effect) (h : handler_device_unlink env a args = .ok (b, out)) :
    (b.device = a.device ∧ out = []) ∨
      ∃ (i : Nat) (a0 a1 : lo_arg) (rest : List lo_arg) (name : List Char) (a1s : admin_device),
        args = a0 :: a1 :: rest ∧ admin_name a = .ok (name, a1s) ∧
        strcmp name (arg_s env.raw a0) = 0 ∧ i < a.device.routers.length ∧
        (∃ r, a.device.routers.get? i = some r ∧
          strcmp r.target_name (arg_s env.raw a1) = 0) ∧
        b.device = { a.device with routers := a.device.routers.eraseIdx i,
                                   num_routers := a.device.num_routers - 1 } ∧
        out = [effect.send "/unlinked" [lo_arg.s name, lo_arg.s (arg_s env.raw a1)]] := by
  rcases args with _ | ⟨a0, _ | ⟨a1, rest⟩⟩
  · simp only [handler_device_unlink, two_names_rejected, if_true, Except.ok.injEq,
      Prod.mk.injEq] at h
    left; exact ⟨by rw [← h.1], h.2.symm⟩
  · simp only [handler_device_unlink, two_names_rejected, if_true, Except.ok.injEq,
      Prod.mk.injEq] at h
    left; exact ⟨by rw [← h.1], h.2.symm⟩
  · simp only [handler_device_unlink] at h
    by_cases hrej : two_names_rejected (a0 :: a1 :: rest) = true
    · simp only [hrej, if_true, Except.ok.injEq, Prod.mk.injEq] at h
      left; exact ⟨by rw [← h.1], h.2.symm⟩
    · simp only [hrej, Bool.false_eq_true, if_false] at h
      cases hn : admin_name a with
      | error e => simp [hn] at h
      | ok p =>
        obtain ⟨name, a1s⟩ := p
        have hdev := (admin_name_again a name a1s hn).2.1
        simp only [hn] at h
        by_cases h1 : strcmp name (arg_s env.raw a0) = 0
        · simp only [h1, if_true] at h
          cases h2 : find_router (arg_s env.raw a1) a.device.routers 0 with
          | some i =>
            simp only [h2, mapper_admin_send_osc, Except.ok.injEq, Prod.mk.injEq,
              List.flatMap_nil, List.append_nil] at h
            right
            obtain ⟨_, h5, h6, _⟩ := find_router_some _ _ _ _ h2
            refine ⟨i, a0, a1, rest, name, a1s, rfl, rfl, h1, by simpa using h5,
              by simpa using h6, ?_, h.2.symm⟩
            rw [← h.1]
            rfl
          | none =>
            simp only [h2, Except.ok.injEq, Prod.mk.injEq] at h
            left; exact ⟨by rw [← h.1, hdev], h.2.symm⟩
        · simp only [h1, if_false, Except.ok.injEq, Prod.mk.injEq] at h
          left; exact ⟨by rw [← h.1, hdev], h.2.symm⟩

/-- C30: in every state reachable through `handler_device_link_to` and
`handler_device_unlink` from a device without routers (and `num_routers` 0),
`num_routers` is the length of the router list and no two routers have the same
target name; and an `/unlink` either leaves the router list as it is or
unlinks one router, whose target name is the one in the message, and that
only when the sender name in the message is the device's own name. -/
theorem routers_counted {μ : Type} (env : link_env μ) (a0 a : admin_device)
    (h0 : a0.device.routers = []) (hn0 : a0.device.num_routers = 0)
    (h : link_reachable env a0 a) :
    a.device.num_routers = a.device.routers.length ∧
    (a.device.routers.map (fun r => r.target_name)).Nodup ∧
    (∀ args b out, handler_device_unlink env a args = .ok (b, out) →
      b.device.routers = a.device.routers ∨
      ∃ (i : Nat) (a0 a1 : lo_arg) (rest : List lo_arg) (name : List Char) (a1s : admin_device),
        args = a0 :: a1 :: rest ∧ admin_name a = .ok (name, a1s) ∧
        strcmp name (arg_s env.raw a0) = 0 ∧
        (∃ r, a.device.routers.get? i = some r ∧
          strcmp r.target_name (arg_s env.raw a1) = 0) ∧
        b.device.routers = a.device.routers.eraseIdx i ∧
        b.device.routers.length + 1 = a.device.routers.length) := by
  have inv : a.device.num_routers = a.device.routers.length ∧
      (a.device.routers.map (fun r => r.target_name)).Nodup := by
    induction h with
    | init => simp [h0, hn0]
    | link_to args out _ hs ih =>
      rcases link_to_step env _ _ args out hs with e | ⟨r, hr, e⟩
      · rw [e]; exact ih
      · rw [e]
        refine ⟨by simp [ih.1], ?_⟩
        simp only [List.map_cons, List.nodup_cons]
        refine ⟨?_, ih.2⟩
        intro hmem
        rw [List.mem_map] at hmem
        obtain ⟨s, hs1, hs2⟩ := hmem
        apply hr s hs1
        rw [hs2]
        exact strcmp_self _
    | unlink args out _ hs ih =>
      rcases unlink_step env _ _ args out hs with e | ⟨i, _, _, _, _, _, _, _, _, hi, _, e, _⟩
      · rw [e.1]; exact ih
      · rw [e]
        refine ⟨?_, ?_⟩
        · simp only [List.length_eraseIdx, hi, if_true, ih.1]
          have : 0 < _ := Nat.lt_of_le_of_lt (Nat.zero_le _) hi
          omega
        · exact ih.2.sublist (List.Sublist.map _ (List.eraseIdx_sublist _ _))
  refine ⟨inv.1, inv.2, ?_⟩
  intro args b out hs
  rcases unlink_step env _ _ args out hs with e | ⟨i, a0, a1, rest, name, a1s, h1, h2, h3, hi, h4, e, _⟩
  · left; rw [e.1]
  · right
    refine ⟨i, a0, a1, rest, name, a1s, h1, h2, h3, h4, by rw [e], ?_⟩
    rw [e]
    simp only [List.length_eraseIdx, hi, if_true]
    have : 0 < _ := Nat.lt_of_le_of_lt (Nat.zero_le _) hi
    omega

/-- C30 at a concrete input: `/test.1` after the `/link_to` for `/peer.1`. -/
theorem routers_counted_witness :
    linked_device.device.num_routers = linked_device.device.routers.length ∧
    (linked_device.device.routers.map (fun r => r.target_name)).Nodup :=
  ⟨(routers_counted sample_link_env lone_device linked_device rfl rfl
      (link_reachable.link_to link_to_peer
        [effect.send "/linked" [lo_arg.s "/test.1".toList, lo_arg.s "/peer.1".toList]]
        link_reachable.init (by decide))).1,
    (routers_counted sample_link_env lone_device linked_device rfl rfl
      (link_reachable.link_to link_to_peer
        [effect.send "/linked" [lo_arg.s "/test.1".toList, lo_arg.s "/peer.1".toList]]
        link_reachable.init (by decide))).2.1⟩

/-! ## Malformed messages -/

/-- The five handlers of two names drop a message with fewer than two arguments,
and one in which neither of the first two arguments is a string. -/
theorem two_names_dropped {μ : Type} (env : link_env μ) (a : admin_device) (args : List lo_arg)
    (h : two_names_rejected args = true) :
    handler_device_link env a args = .ok (a, []) ∧
    handler_device_link_to env a args = .ok (a, []) ∧
    handler_device_unlink env a args = .ok (a, []) ∧
    handler_param_connect env a args = .ok (a, []) ∧
    handler_param_disconnect env a args = .ok (a, []) := by
  simp [handler_device_link, handler_device_link_to, handler_device_unlink,
    handler_param_connect, handler_param_disconnect, h]

theorem two_names_rejected_iff (args : List lo_arg) :
    two_names_rejected args = true ↔
      args.length < 2 ∨ ∃ a0 a1 rest, args = a0 :: a1 :: rest ∧ a0.is_string = false ∧
        a1.is_string = false := by
  rcases args with _ | ⟨a0, _ | ⟨a1, rest⟩⟩
  · simp [two_names_rejected]
  · simp [two_names_rejected]
  · simp only [two_names_rejected, Bool.and_eq_true, Bool.not_eq_true_eq_eq_false,
      List.length_cons]
    constructor
    · intro h
      exact Or.inr ⟨a0, a1, rest, rfl, h.1, h.2⟩
    · rintro (h | ⟨b0, b1, r, e, h1, h2⟩)
      · omega
      · simp only [List.cons.injEq] at e
        obtain ⟨e0, e1, _⟩ := e
        subst e0 e1
        exact ⟨h1, h2⟩

/-- C25: a message whose first argument is the int 0 and whose second is a
string is not dropped.  `/test.1` answers the `/link` with such arguments by a
`/link_to`, and the `/connect` by a `/connect_to`, with the bytes of the int
read as the (empty) source name; `handler_param_connect_to`, whose test joins
the two type tests by `||`, drops the same arguments. -/
theorem one_string_is_enough :
    handler_device_link sample_link_env lone_device [lo_arg.i 0, lo_arg.s "/test.1".toList] =
      .ok ({ lone_device with admin := { lone_device.admin with name := some "/test.1".toList } },
        [effect.send "/link_to"
          [lo_arg.s [], lo_arg.s "/test.1".toList, lo_arg.s "@IP".toList,
            lo_arg.s "127.0.0.1".toList, lo_arg.s "@port".toList, lo_arg.i 9000,
            lo_arg.s "@canAlias".toList, lo_arg.s "no".toList]]) ∧
    handler_param_connect sample_link_env lone_device
        [lo_arg.i 0, lo_arg.s "/test.1/in".toList] =
      .ok ({ lone_device with admin := { lone_device.admin with name := some "/test.1".toList } },
        [effect.send "/connect_to"
          [lo_arg.s [], lo_arg.s "/test.1/in".toList, lo_arg.s "@type".toList,
            lo_arg.s "f".toList]]) ∧
    handler_param_connect_to sample_link_env lone_device
        [lo_arg.i 0, lo_arg.s "/test.1/in".toList] = .ok (lone_device, []) := by
  decide

/-! ## Announcements -/

/-- C26: the handlers of `/linked`, `/unlinked`, `/connected` and
`/disconnected` change nothing and call nothing: when they return, the admin
and its device are as before.  So it is for the well-formed announcements of
the link `/test.1` to `/peer.1` and of the connection `/test.1/out` to
`/peer.1/in`. -/
theorem announcements_ignored {μ : Type} (env : link_env μ) (a : admin_device)
    (args : List lo_arg) :
    handler_device_linked env a args = .ok (a, []) ∧
    handler_device_unlinked env a args = .ok (a, []) ∧
    (∀ r, handler_param_connected env a args = .ok r → r = (a, [])) ∧
    (∀ r, handler_param_disconnected env a args = .ok r → r = (a, [])) ∧
    handler_param_connected sample_link_env lone_device
      [lo_arg.s "/test.1/out".toList, lo_arg.s "/peer.1/in".toList] = .ok (lone_device, []) ∧
    handler_param_disconnected sample_link_env connected_device
      [lo_arg.s "/test.1/out".toList, lo_arg.s "/peer.1/in".toList] =
      .ok (connected_device, []) := by
  refine ⟨rfl, rfl, ?_, ?_, by decide, by decide⟩
  · intro r h
    unfold handler_param_connected at h
    split at h
    · simpa using h.symm
    · split at h
      · split at h
        · simp at h
        · simpa using h.symm
      · simpa using h.symm
  · intro r h
    unfold handler_param_disconnected at h
    split at h
    · simpa using h.symm
    · split at h
      · split at h
        · simp at h
        · simpa using h.symm
      · simpa using h.symm

/-! ## The property loops -/

/-- C27: a key without its values makes the property loops read behind the
arguments.  `/connection/modify` ending in `@expression` reads `argv[5]` of 5
arguments, `/connect_to` ending in `@scaling` reads `argv[3]` of 3, and
`@range` with two values reads `types[6]` of 5 arguments; `@range` with three
values is not dropped either: the three values are written into the range of
the mapping. -/
theorem property_loop_reads_past_end :
    handler_param_connection_modify sample_link_env connected_device
      [lo_arg.s "/test.1/out".toList, lo_arg.s "/peer.1/in".toList, lo_arg.s "@scaling".toList,
        lo_arg.s "linear".toList, lo_arg.s "@expression".toList] =
      .error (.read_past_end 5) ∧
    handler_param_connect_to sample_link_env linked_device
      [lo_arg.s "/test.1/out".toList, lo_arg.s "/peer.1/in".toList, lo_arg.s "@scaling".toList] =
      .error (.read_past_end 3) ∧
    handler_param_connection_modify sample_link_env connected_device
      [lo_arg.s "/test.1/out".toList, lo_arg.s "/peer.1/in".toList, lo_arg.s "@range".toList,
        lo_arg.i 1, lo_arg.i 2] =
      .error (.read_past_end 6) ∧
    (handler_param_connection_modify sample_link_env connected_device
      [lo_arg.s "/test.1/out".toList, lo_arg.s "/peer.1/in".toList, lo_arg.s "@range".toList,
        lo_arg.i 1, lo_arg.i 2, lo_arg.i 3]).toOption.map
      (fun r => r.1.device.routers.map (fun router => router.mappings.map (fun sm =>
        sm.mapping.map (fun m => m.range)))) =
      some [[[⟨1, 2, 3, 0⟩]]] := by
  decide

/-! ## Rounds of the property loops -/

theorem modify_step_pos {μ : Type} (env : link_env μ) (a : lo_arg) (rest : List lo_arg) (j : Nat)
    (st : _mapper_mapping × Option mapper_clipping_type)
    (r : (_mapper_mapping × Option mapper_clipping_type) × Nat)
    (h : modify_step env a rest j st = .ok r) : 1 ≤ r.2 := by
  unfold modify_step at h
  repeat' split at h
  all_goals first
    | (cases h; simp)
    | (exact absurd h (by simp))

/-- The property loop of `handler_param_connection_modify` ends within as many
rounds as it has arguments left: more rounds change nothing. -/
theorem modify_loop_fuel {μ : Type} (env : link_env μ) :
    ∀ (n m : Nat) (l : List lo_arg) (j : Nat)
      (st : _mapper_mapping × Option mapper_clipping_type),
      l.length ≤ n → l.length ≤ m → modify_loop env n l j st = modify_loop env m l j st := by
  intro n
  induction n with
  | zero =>
    intro m l j st h1 _
    have : l = [] := List.length_eq_zero.mp (Nat.le_zero.mp h1)
    subst this
    cases m <;> rfl
  | succ n ih =>
    intro m l j st h1 h2
    cases l with
    | nil => cases m <;> rfl
    | cons a rest =>
      cases m with
      | zero => simp at h2
      | succ m =>
        simp only [modify_loop]
        cases hs : modify_step env a rest j st with
        | error e => rfl
        | ok r =>
          simp only
          have hp := modify_step_pos env a rest j st r hs
          simp only [List.length_cons] at h1 h2
          apply ih
          · simp only [List.length_drop, List.length_cons]; omega
          · simp only [List.length_drop, List.length_cons]; omega

theorem modify_props_cons {μ : Type} (env : link_env μ) (a : lo_arg) (rest : List lo_arg)
    (j : Nat) (st : _mapper_mapping × Option mapper_clipping_type) :
    modify_props env (a :: rest) j st =
      match modify_step env a rest j st with
      | .error e => .error e
      | .ok r => modify_props env ((a :: rest).drop r.2) (j + r.2) r.1 := by
  simp only [modify_props, List.length_cons, modify_loop]
  cases hs : modify_step env a rest j st with
  | error e => rfl
  | ok r =>
    simp only
    have hp := modify_step_pos env a rest j st r hs
    apply modify_loop_fuel
    · simp only [List.length_drop, List.length_cons]; omega
    · exact Nat.le_refl _

theorem modify_props_nil {μ : Type} (env : link_env μ) (j : Nat)
    (st : _mapper_mapping × Option mapper_clipping_type) :
    modify_props env [] j st = .ok st := rfl

theorem connect_step_pos {μ : Type} (env : link_env μ) (a : lo_arg) (rest : List lo_arg) (j : Nat)
    (st : connect_state) (r : connect_state × Nat)
    (h : connect_step env a rest j st = .ok r) : 1 ≤ r.2 := by
  unfold connect_step at h
  repeat' split at h
  all_goals first
    | (cases h; simp)
    | (exact absurd h (by simp))

/-- The property loop of `handler_param_connect_to` ends within as many rounds
as it has arguments left: more rounds change nothing. -/
theorem connect_loop_fuel {μ : Type} (env : link_env μ) :
    ∀ (n m : Nat) (l : List lo_arg) (j : Nat) (st : connect_state),
      l.length ≤ n → l.length ≤ m → connect_loop env n l j st = connect_loop env m l j st := by
  intro n
  induction n with
  | zero =>
    intro m l j st h1 _
    have : l = [] := List.length_eq_zero.mp (Nat.le_zero.mp h1)
    subst this
    cases m <;> rfl
  | succ n ih =>
    intro m l j st h1 h2
    cases l with
    | nil => cases m <;> rfl
    | cons a rest =>
      cases m with
      | zero => simp at h2
      | succ m =>
        simp only [connect_loop]
        cases hs : connect_step env a rest j st with
        | error e => rfl
        | ok r =>
          simp only
          have hp := connect_step_pos env a rest j st r hs
          simp only [List.length_cons] at h1 h2
          apply ih
          · simp only [List.length_drop, List.length_cons]; omega
          · simp only [List.length_drop, List.length_cons]; omega

theorem connect_props_cons {μ : Type} (env : link_env μ) (a : lo_arg) (rest : List lo_arg)
    (j : Nat) (st : connect_state) :
    connect_props env (a :: rest) j st =
      match connect_step env a rest j st with
      | .error e => .error e
      | .ok r => connect_props env ((a :: rest).drop r.2) (j + r.2) r.1 := by
  simp only [connect_props, List.length_cons, connect_loop]
  cases hs : connect_step env a rest j st with
  | error e => rfl
  | ok r =>
    simp only
    have hp := connect_step_pos env a rest j st r hs
    apply connect_loop_fuel
    · simp only [List.length_drop, List.length_cons]; omega
    · exact Nat.le_refl _

/-! ## Modifying a connection -/

/-- `handler_param_connection_modify` on a message for a mapping it finds: the
property loop, then the announcement. -/
theorem modify_found {μ : Type} (env : link_env μ) (a : admin_device)
    (src dst name : List Char) (a1 : admin_device) (sig : _mapper_signal) (r : mapping_ref)
    (m : _mapper_mapping) (h : connection_found a src dst name a1 sig r m)
    (k v : lo_arg) (rest : List lo_arg) (hk : k.is_string = true) :
    handler_param_connection_modify env a (lo_arg.s src :: lo_arg.s dst :: k :: v :: rest) =
      match modify_props env (k :: v :: rest) 2 (m, none) with
      | .error e => .error e
      | .ok st =>
        match mapping_type_text st.1.type with
        | .error e => .error e
        | .ok mapping_type =>
          .ok ({ a1 with device := write_mapping a.device r st.1 },
            [effect.send "/connected"
              ([lo_arg.s (device_part src ++ param_part src),
                lo_arg.s (device_part dst ++ param_part dst)] ++
              (env.mapper_msg_prepare_varargs (.AT_SCALING mapping_type) ++
                (env.mapper_msg_prepare_varargs (.AT_RANGE st.1.range.src_min st.1.range.src_max
                  st.1.range.dest_min st.1.range.dest_max) ++
                (env.mapper_msg_prepare_varargs (.AT_EXPRESSION st.1.expression) ++
                (env.mapper_msg_prepare_varargs (.AT_CLIPMIN "none".toList) ++
                env.mapper_msg_prepare_varargs (.AT_CLIPMAX "none".toList))))))]) := by
  obtain ⟨h1, h2, h3, h4, h5, h6, h7⟩ := h
  have hagain := (admin_name_again a name a1 h1).1
  have hrej : modify_rejected (lo_arg.s src :: lo_arg.s dst :: k :: v :: rest) = false := by
    simp only [modify_rejected, hk, show (lo_arg.s src).is_string = true from rfl,
      show (lo_arg.s dst).is_string = true from rfl]
    rfl
  have hl1 : ¬ (1024 ≤ src.length) := by omega
  have hl2 : ¬ (1024 ≤ dst.length) := by omega
  have hs : ∀ x : List Char, arg_s env.raw (lo_arg.s x) = x := fun _ => rfl
  simp only [handler_param_connection_modify, hrej, Bool.false_eq_true, if_false, hs, ge_iff_le,
    hl1, hl2, h1, h4, ne_eq, not_true_eq_false, h5, h6, h7]
  cases hp : modify_props env (k :: v :: rest) 2 (m, none) with
  | error e => rfl
  | ok st =>
    simp only
    cases ht : mapping_type_text st.1.type with
    | error e => rfl
    | ok t =>
      simp only [mapper_admin_send_osc, hagain, List.flatMap_cons, List.flatMap_nil,
        List.append_nil]

theorem modify_step_expression {μ : Type} (env : link_env μ) (v : lo_arg)
    (rest : List lo_arg) (j : Nat) (st : _mapper_mapping × Option mapper_clipping_type) :
    modify_step env (lo_arg.s "@expression".toList) (v :: rest) j st =
      match set_expression env st.1 (arg_s env.raw v) with
      | .error e => .error e
      | .ok m => .ok ((m, st.2), 2) := by
  have e1 : strcmp "@expression".toList "@scaling".toList ≠ 0 := by decide
  have e2 : strcmp "@expression".toList "@range".toList ≠ 0 := by decide
  have e3 : strcmp "@expression".toList "@expression".toList = 0 := by decide
  have hs : arg_s env.raw (lo_arg.s "@expression".toList) = "@expression".toList := rfl
  have hk : (!(lo_arg.s "@expression".toList).is_string) = false := rfl
  unfold modify_step
  rw [hk, hs, if_neg (by simp), if_neg e1, if_neg e2, if_pos e3]

theorem modify_props_expression {μ : Type} (env : link_env μ) (v : lo_arg)
    (rest : List lo_arg) (j : Nat) (st : _mapper_mapping × Option mapper_clipping_type) :
    modify_props env (lo_arg.s "@expression".toList :: v :: rest) j st =
      match set_expression env st.1 (arg_s env.raw v) with
      | .error e => .error e
      | .ok m => modify_props env rest (j + 2) (m, st.2) := by
  rw [modify_props_cons, modify_step_expression]
  cases set_expression env st.1 (arg_s env.raw v) with
  | error e => rfl
  | ok m => rfl

/-- C22: `handler_param_connection_modify` on a `/connection/modify` with the one
property `@expression v`, for a mapping it finds (whose `type` is one of the
four scaling modes): when the parser turns `v` down, the mapping is written
back as it was, expression and tree included, and the `/connected` that is
sent carries the prior expression; when the parser returns the tree `T`, the
mapping gets the expression `v` and the tree `T`, and `/connected` carries
`v`.  At any place in the property loop, an `@expression` whose value is
turned down leaves the mapping as it is. -/
theorem modify_expression {μ : Type} (env : link_env μ) (a : admin_device)
    (src dst name : List Char) (a1 : admin_device) (sig : _mapper_signal) (r : mapping_ref)
    (m : _mapper_mapping) (v : List Char) (t : List Char)
    (h : connection_found a src dst name a1 sig r m) (hv : v.length < 1024)
    (ht : mapping_type_text m.type = .ok t) :
    (env.get_expr_Tree v = none →
      handler_param_connection_modify env a
        [lo_arg.s src, lo_arg.s dst, lo_arg.s "@expression".toList, lo_arg.s v] =
      .ok ({ a1 with device := write_mapping a.device r m },
        [effect.send "/connected"
          ([lo_arg.s (device_part src ++ param_part src),
            lo_arg.s (device_part dst ++ param_part dst)] ++
          (env.mapper_msg_prepare_varargs (.AT_SCALING t) ++
            (env.mapper_msg_prepare_varargs (.AT_RANGE m.range.src_min m.range.src_max
              m.range.dest_min m.range.dest_max) ++
            (env.mapper_msg_prepare_varargs (.AT_EXPRESSION m.expression) ++
            (env.mapper_msg_prepare_varargs (.AT_CLIPMIN "none".toList) ++
            env.mapper_msg_prepare_varargs (.AT_CLIPMAX "none".toList))))))])) ∧
    (∀ T, env.get_expr_Tree v = some T →
      handler_param_connection_modify env a
        [lo_arg.s src, lo_arg.s dst, lo_arg.s "@expression".toList, lo_arg.s v] =
      .ok ({ a1 with device :=
            write_mapping a.device r { m with expression := v, expr_tree := T } },
        [effect.send "/connected"
          ([lo_arg.s (device_part src ++ param_part src),
            lo_arg.s (device_part dst ++ param_part dst)] ++
          (env.mapper_msg_prepare_varargs (.AT_SCALING t) ++
            (env.mapper_msg_prepare_varargs (.AT_RANGE m.range.src_min m.range.src_max
              m.range.dest_min m.range.dest_max) ++
            (env.mapper_msg_prepare_varargs (.AT_EXPRESSION v) ++
            (env.mapper_msg_prepare_varargs (.AT_CLIPMIN "none".toList) ++
            env.mapper_msg_prepare_varargs (.AT_CLIPMAX "none".toList))))))])) ∧
    (∀ (w : lo_arg) (rest : List lo_arg) (j : Nat) (st : _mapper_mapping ×
        Option mapper_clipping_type),
      (arg_s env.raw w).length < 1024 → env.get_expr_Tree (arg_s env.raw w) = none →
      modify_props env (lo_arg.s "@expression".toList :: w :: rest) j st =
        modify_props env rest (j + 2) st) := by
  have hl : ¬ (1024 ≤ v.length) := by omega
  refine ⟨?_, ?_, ?_⟩
  · intro hp
    rw [modify_found env a src dst name a1 sig r m h (lo_arg.s "@expression".toList)
      (lo_arg.s v) [] rfl, modify_props_expression]
    have hs : arg_s env.raw (lo_arg.s v) = v := rfl
    simp only [set_expression, hs, ge_iff_le, hl, if_false, hp, modify_props_nil, ht]
  · intro T hp
    rw [modify_found env a src dst name a1 sig r m h (lo_arg.s "@expression".toList)
      (lo_arg.s v) [] rfl, modify_props_expression]
    have hs : arg_s env.raw (lo_arg.s v) = v := rfl
    simp only [set_expression, hs, ge_iff_le, hl, if_false, hp, modify_props_nil, ht]
  · intro w rest j st hw hp
    have hlw : ¬ (1024 ≤ (arg_s env.raw w).length) := by omega
    rw [modify_props_expression]
    simp only [set_expression, ge_iff_le, hlw, if_false, hp]

/-- C22 at a concrete input: the mapping of `/test.1/out` to `/peer.1/in` has the
expression `y=x`; the `@expression` `y=(` is turned down, and the `/connected`
that is sent carries `y=x`. -/
theorem modify_expression_witness :
    handler_param_connection_modify sample_link_env connected_device
      [lo_arg.s "/test.1/out".toList, lo_arg.s "/peer.1/in".toList,
        lo_arg.s "@expression".toList, lo_arg.s "y=(".toList] =
    .ok (connected_device,
      [effect.send "/connected"
        [lo_arg.s "/test.1/out".toList, lo_arg.s "/peer.1/in".toList, lo_arg.s "@scaling".toList,
          lo_arg.s "bypass".toList, lo_arg.s "@range".toList, lo_arg.f 0, lo_arg.f 0, lo_arg.f 0,
          lo_arg.f 0, lo_arg.s "@expression".toList, lo_arg.s "y=x".toList,
          lo_arg.s "@clipMin".toList, lo_arg.s "none".toList, lo_arg.s "@clipMax".toList,
          lo_arg.s "none".toList]]) :=
  ((modify_expression sample_link_env connected_device "/test.1/out".toList "/peer.1/in".toList
    "/test.1".toList connected_device ⟨1, "/out".toList, 'f', some 0, some 1⟩ first_mapping
    (sample_link_env.direct_mapping "/in".toList) "y=(".toList "bypass".toList
    (by unfold connection_found; decide) (by decide) (by decide)).1 (by decide)).trans
    (by decide)

/-- C23: `handler_param_connection_modify` on a message whose names fit their
buffers, for a device that has its name: when the device part of the first
argument is not the own name, when no output has the name in the rest of the
first argument, or when the search for the connection fails, the handler
returns with the device as it was and sends nothing.  The search fails when no
router has the device part of the second argument as target, when that router
has no entry for the signal, and when the entry has no mapping with the name
in the rest of the second argument.  A message with fewer than four arguments,
or with a non-string among the first three, is dropped too. -/
theorem modify_ignored {μ : Type} (env : link_env μ) (a : admin_device)
    (src dst name : List Char) (a1 : admin_device) (k v : lo_arg) (rest : List lo_arg)
    (hk : k.is_string = true) (hn : admin_name a = .ok (name, a1))
    (h2 : src.length < 1024) (h3 : dst.length < 1024) :
    (strcmp name (device_part src) ≠ 0 →
      handler_param_connection_modify env a (lo_arg.s src :: lo_arg.s dst :: k :: v :: rest) =
        .ok (a1, [])) ∧
    (find_signal (param_part src) a.device.outputs = none →
      handler_param_connection_modify env a (lo_arg.s src :: lo_arg.s dst :: k :: v :: rest) =
        .ok (a1, [])) ∧
    (∀ sig, find_signal (param_part src) a.device.outputs = some sig →
      find_connection a.device sig (device_part dst) (param_part dst) = none →
      handler_param_connection_modify env a (lo_arg.s src :: lo_arg.s dst :: k :: v :: rest) =
        .ok (a1, [])) ∧
    a1.device = a.device ∧
    (∀ sig, find_router (device_part dst) a.device.routers 0 = none →
      find_connection a.device sig (device_part dst) (param_part dst) = none) ∧
    (∀ sig ri router, find_router (device_part dst) a.device.routers 0 = some ri →
      a.device.routers.get? ri = some router →
      find_signal_mapping sig.ptr router.mappings 0 = none →
      find_connection a.device sig (device_part dst) (param_part dst) = none) ∧
    (∀ sig ri router si sm, find_router (device_part dst) a.device.routers 0 = some ri →
      a.device.routers.get? ri = some router →
      find_signal_mapping sig.ptr router.mappings 0 = some si →
      router.mappings.get? si = some sm → find_mapping (param_part dst) sm.mapping 0 = none →
      find_connection a.device sig (device_part dst) (param_part dst) = none) ∧
    (∀ args, modify_rejected args = true →
      handler_param_connection_modify env a args = .ok (a, [])) := by
  have hrej : modify_rejected (lo_arg.s src :: lo_arg.s dst :: k :: v :: rest) = false := by
    simp only [modify_rejected, hk, show (lo_arg.s src).is_string = true from rfl,
      show (lo_arg.s dst).is_string = true from rfl]
    rfl
  have hl1 : ¬ (1024 ≤ src.length) := by omega
  have hl2 : ¬ (1024 ≤ dst.length) := by omega
  have hs : ∀ x : List Char, arg_s env.raw (lo_arg.s x) = x := fun _ => rfl
  refine ⟨?_, ?_, ?_, (admin_name_again a name a1 hn).2.1, ?_, ?_, ?_, ?_⟩
  · intro h
    simp only [handler_param_connection_modify, hrej, Bool.false_eq_true, if_false, hs, ge_iff_le,
      hl1, hn, ne_eq, h, not_false_eq_true, if_true]
  · intro h
    by_cases hc : strcmp name (device_part src) = 0
    · simp only [handler_param_connection_modify, hrej, Bool.false_eq_true, if_false, hs,
        ge_iff_le, hl1, hl2, hn, ne_eq, hc, not_true_eq_false, h]
    · simp only [handler_param_connection_modify, hrej, Bool.false_eq_true, if_false, hs,
        ge_iff_le, hl1, hn, ne_eq, hc, not_false_eq_true, if_true]
  · intro sig h hf
    by_cases hc : strcmp name (device_part src) = 0
    · simp only [handler_param_connection_modify, hrej, Bool.false_eq_true, if_false, hs,
        ge_iff_le, hl1, hl2, hn, ne_eq, hc, not_true_eq_false, h, hf]
    · simp only [handler_param_connection_modify, hrej, Bool.false_eq_true, if_false, hs,
        ge_iff_le, hl1, hn, ne_eq, hc, not_false_eq_true, if_true]
  · intro sig h
    simp only [find_connection, h]
  · intro sig ri router h1 h4 h5
    simp only [find_connection, h1, h4, h5]
  · intro sig ri router si sm h1 h4 h5 h6 h7
    simp only [find_connection, h1, h4, h5, h6, h7]
  · intro args h
    simp only [handler_param_connection_modify, h, if_true]

/-- C23 at a concrete input: a `/connection/modify` that names `/other.1/out` as
source leaves `/test.1` as it is. -/
theorem modify_ignored_witness :
    handler_param_connection_modify sample_link_env connected_device
      [lo_arg.s "/other.1/out".toList, lo_arg.s "/peer.1/in".toList, lo_arg.s "@scaling".toList,
        lo_arg.s "linear".toList] = .ok (connected_device, []) :=
  (modify_ignored sample_link_env connected_device "/other.1/out".toList "/peer.1/in".toList
    "/test.1".toList connected_device (lo_arg.s "@scaling".toList) (lo_arg.s "linear".toList) []
    rfl (by decide) (by decide) (by decide)).1 (by decide)

/-- C24: the `/connected` that `handler_param_connection_modify` sends names
`none` for `@clipMin` and `@clipMax` whatever the mapping holds.  After
`@clipMin clamp` and `@clipMax wrap` the mapping has `clip_lower = CT_CLAMP` and
`clip_upper = CT_WRAP`, and the announcement says `@clipMin none @clipMax none`;
the scaling mode it names is the one of the mapping. -/
theorem announced_clip_is_none :
    (handler_param_connection_modify sample_link_env connected_device
      [lo_arg.s "/test.1/out".toList, lo_arg.s "/peer.1/in".toList, lo_arg.s "@scaling".toList,
        lo_arg.s "linear".toList, lo_arg.s "@clipMin".toList, lo_arg.s "clamp".toList,
        lo_arg.s "@clipMax".toList, lo_arg.s "wrap".toList]).toOption.map
      (fun r => (mapping_at r.1.device first_mapping, r.2)) =
    some (some { sample_link_env.direct_mapping "/in".toList with
        type := .LINEAR, clip_lower := .CT_CLAMP, clip_upper := .CT_WRAP },
      [effect.send "/connected"
        [lo_arg.s "/test.1/out".toList, lo_arg.s "/peer.1/in".toList, lo_arg.s "@scaling".toList,
          lo_arg.s "linear".toList, lo_arg.s "@range".toList, lo_arg.f 0, lo_arg.f 0, lo_arg.f 0,
          lo_arg.f 0, lo_arg.s "@expression".toList, lo_arg.s "y=x".toList,
          lo_arg.s "@clipMin".toList, lo_arg.s "none".toList, lo_arg.s "@clipMax".toList,
          lo_arg.s "none".toList]]) := by
  decide

/-! ## Making a connection -/

/-- C21 (as stated, refuted): the `/connect_to` for the float output `/out` and
the float target `/peer.1/in` carries `@range 0 1 0 10` and no `@scaling`.  The
handler adds two mappings for `/in`, the blank one with that range and a direct
one, and none of them is `LINEAR`. -/
theorem range_does_not_make_linear :
    (handler_param_connect_to sample_link_env linked_device connect_with_range).toOption.map
      (fun r => r.1.device.routers.map (fun router => router.mappings.map (fun sm =>
        sm.mapping.map (fun m => m.type)))) =
      some [[[mapper_scaling_type.BYPASS, mapper_scaling_type.BYPASS]]] ∧
    (handler_param_connect_to sample_link_env linked_device connect_with_range).toOption.map
      (fun r => r.1.device.routers.map (fun router => router.mappings.map (fun sm =>
        sm.mapping.map (fun m => m.range)))) =
      some [[[⟨0, 0, 0, 0⟩, ⟨0, 1, 0, 10⟩]]] := by
  decide

/-- C21 (amended): for a `/connect_to` that `handler_param_connect_to` accepts
(own source device, existing output `sig`, router `ri` to the target device):
without properties it adds a direct mapping to the router; with properties it
adds the blank mapping, set from the properties by the loop (which ends in the
state `st`), and then a default mapping: the linear range mapping from the
minimum and maximum of `sig` to `dest_range_min`, `dest_range_max` when
`range_update` is 2 and the type of `sig` and `dest_type` are `'i'` or `'f'`,
the direct mapping when `range_update` is not 2 or one of the two types is
another one.  It sends nothing. -/
theorem connect_to_default {μ : Type} (env : link_env μ) (a : admin_device)
    (src dst name : List Char) (a1 : admin_device) (sig : _mapper_signal) (ri : Nat)
    (k : lo_arg) (rest : List lo_arg) (st : connect_state)
    (h : link_found a src dst name a1 sig ri)
    (hp : connect_props env (k :: rest) 2 (connect_start env (param_part dst)) = .ok st) :
    (handler_param_connect_to env a [lo_arg.s src, lo_arg.s dst] =
      .ok ({ a1 with device := update_router a.device ri (fun router =>
        mapper_router_add_mapping router sig.ptr (env.direct_mapping (param_part dst))) }, [])) ∧
    (∀ t lo hi, st.range_update = 2 → (sig.type = 'i' ∨ sig.type = 'f') →
      st.dest_type = some t → (t = 'i' ∨ t = 'f') →
      sig.minimum = some lo → sig.maximum = some hi →
      handler_param_connect_to env a (lo_arg.s src :: lo_arg.s dst :: k :: rest) =
        .ok ({ a1 with device := update_router a.device ri (fun router =>
          mapper_router_add_mapping (mapper_router_add_mapping router sig.ptr st.m) sig.ptr
            (env.linear_range_mapping (param_part dst) lo hi st.dest_range_min
              st.dest_range_max)) }, [])) ∧
    ((st.range_update ≠ 2 ∨ ¬ (sig.type = 'i' ∨ sig.type = 'f') ∨
        ∃ t, st.dest_type = some t ∧ ¬ (t = 'i' ∨ t = 'f')) →
      handler_param_connect_to env a (lo_arg.s src :: lo_arg.s dst :: k :: rest) =
        .ok ({ a1 with device := update_router a.device ri (fun router =>
          mapper_router_add_mapping (mapper_router_add_mapping router sig.ptr st.m) sig.ptr
            (env.direct_mapping (param_part dst))) }, [])) := by
  obtain ⟨h1, h2, h3, h4, h5, h6⟩ := h
  have hl1 : ¬ (1024 ≤ src.length) := by omega
  have hl2 : ¬ (1024 ≤ dst.length) := by omega
  have hs : ∀ x : List Char, arg_s env.raw (lo_arg.s x) = x := fun _ => rfl
  have hrej : ∀ l, connect_to_rejected (lo_arg.s src :: lo_arg.s dst :: l) = false := by
    intro l
    rfl
  have hp2 : connect_props env (k :: rest) 2
      ⟨env.blank_mapping (param_part dst), none, none, 0, 1, 0⟩ = .ok st := hp
  refine ⟨?_, ?_, ?_⟩
  · simp only [handler_param_connect_to, hrej, Bool.false_eq_true, if_false, hs, ge_iff_le, hl1,
      hl2, h1, h4, ne_eq, not_true_eq_false, h5, h6]
  · intro t lo hi e1 e2 e3 e4 e5 e6
    simp only [handler_param_connect_to, hrej, Bool.false_eq_true, if_false, hs, ge_iff_le, hl1,
      hl2, h1, h4, ne_eq, not_true_eq_false, h5, h6, hp2, default_mapping, e1, e2, e3, e4, e5, e6,
      and_self, if_true]
  · intro hcase
    simp only [handler_param_connect_to, hrej, Bool.false_eq_true, if_false, hs, ge_iff_le, hl1,
      hl2, h1, h4, ne_eq, not_true_eq_false, h5, h6, hp2, default_mapping]
    by_cases hc : st.range_update = 2 ∧ (sig.type = 'i' ∨ sig.type = 'f')
    · rcases hcase with e | e | ⟨t, e1, e2⟩
      · exact absurd hc.1 e
      · exact absurd hc.2 e
      · simp only [hc, and_self, if_true, e1, e2, if_false]
    · simp only [hc, if_false]

/-- C21 (amended) at a concrete input: with `@type f`, `@min 0` and `@max 10` the
default mapping of `/test.1/out` to `/peer.1/in` is the linear one, from the
range 0..1 of the output to 0..10. -/
theorem connect_to_default_witness :
    (handler_param_connect_to sample_link_env linked_device connect_with_min_max).toOption.map
      (fun r => r.1.device.routers.map (fun router => router.mappings.map (fun sm =>
        sm.mapping.map (fun m => m.type)))) =
      some [[[mapper_scaling_type.LINEAR, mapper_scaling_type.BYPASS]]] ∧
    (handler_param_connect_to sample_link_env linked_device connect_with_min_max).toOption.map
      (fun r => r.1.device.routers.map (fun router => router.mappings.map (fun sm =>
        sm.mapping.map (fun m => m.range)))) =
      some [[[⟨0, 1, 0, 10⟩, ⟨0, 0, 0, 0⟩]]] := by
  have e := (connect_to_default sample_link_env linked_device "/test.1/out".toList
    "/peer.1/in".toList "/test.1".toList linked_device
    ⟨1, "/out".toList, 'f', some 0, some 1⟩ 0
    (lo_arg.s "@type".toList) (connect_with_min_max.drop 3)
    ⟨sample_link_env.blank_mapping "/in".toList, none, some 'f', 0, 10, 2⟩
    (by unfold link_found; decide) (by decide)).2.1 'f' 0 1 rfl (by decide) rfl (by decide) rfl rfl
  rw [show handler_param_connect_to sample_link_env linked_device connect_with_min_max = _
    from e]
  decide

/-! ## Locked resources -/

theorem admin_step_keeps_locked {a b : mapper_admin_t} (h : admin_step a b) (r : resource_ref)
    (hl : (a.get r).locked = true) :
    (b.get r).locked = true ∧ (b.get r).value = (a.get r).value := by
  cases h with
  | poll e =>
    have hs := mapper_admin_poll_spec a e
    have hf := ((recv_loop_frame (e.inbox.take 10) a).1.2.2 r)
    have hl2 : ((recv_loop a (e.inbox.take 10)).1.get r).locked = true := by rw [hf.1]; exact hl
    cases r with
    | port =>
      simp only [mapper_admin_t.get] at hl hl2 hf ⊢
      rw [hs.1, check_collisions_locked_eq _ _ _ _ hl2]
      exact ⟨hl2, hf.2.1⟩
    | ordinal =>
      simp only [mapper_admin_t.get] at hl hl2 hf ⊢
      rw [hs.2.1, check_collisions_locked_eq _ _ _ _ hl2]
      exact ⟨hl2, hf.2.1⟩
  | handler m =>
    have hf := ((dispatch_frame a m).1.2.2 r)
    exact ⟨by rw [hf.1]; exact hl, hf.2.1⟩

/-- C28: from any state `a` of an admin (so from every state reachable from
`mapper_admin_new`), in every state `b` reached by polls and by the handlers of
the probe and registered messages, a resource that is locked in `a` is locked
in `b` with the value it has in `a`; and `check_collisions` on it returns 0,
changes nothing and calls nothing. -/
theorem locked_stays (a b : mapper_admin_t) (r : resource_ref) (h : admin_reachable a b)
    (hl : (a.get r).locked = true) :
    (b.get r).locked = true ∧ (b.get r).value = (a.get r).value ∧
    ∀ now now2 rnd, check_collisions (b.get r) now now2 rnd = ⟨0, b.get r, []⟩ := by
  have inv : (b.get r).locked = true ∧ (b.get r).value = (a.get r).value := by
    induction h with
    | init => exact ⟨hl, rfl⟩
    | step _ hs ih =>
      have := admin_step_keeps_locked hs r ih.1
      exact ⟨this.1, this.2.trans ih.2⟩
  exact ⟨inv.1, inv.2, fun now now2 rnd => check_collisions_locked_eq _ now now2 rnd inv.1⟩

/-- C28 at a concrete input: the registered lone device keeps its ordinal 1
through a poll eight seconds later that finds a probe for its name. -/
theorem locked_stays_witness :
    ((mapper_admin_poll registered_admin
      ⟨[⟨"/name/probe", [lo_arg.s "/test.1".toList], 9000000, []⟩], 10000000, 10000000, 3,
        10000000, 10000000, 3⟩).admin.get .ordinal).value = 1 :=
  (locked_stays registered_admin _ .ordinal
    (admin_reachable.step admin_reachable.init (admin_step.poll _ _)) (by decide)).2.1.trans
    (by decide)

/-! ## Property queries -/

/-- C29: `cmp_query_devices_by_property` accepts a device for `MAPPER_OP_EXISTS`
exactly when the lookup of the property succeeds and for
`MAPPER_OP_DOES_NOT_EXIST` exactly when it fails, so for exactly one of the two;
and for every other operator, `MAPPER_OP_NOT_EQUAL` included, it turns down a
device whose property has another type or another length than the query
value. -/
theorem property_query_ops {α : Type}
    (mapper_device_property : mapper_device α → List Char → Option (Int × Char × value_array))
    (length : Int) (type : Char) (value : value_array) (property : List Char)
    (dev : mapper_device α) :
    (cmp_query_devices_by_property mapper_device_property .MAPPER_OP_EXISTS length type value
        property dev ≠ 0 ↔ mapper_device_property dev property ≠ none) ∧
    (cmp_query_devices_by_property mapper_device_property .MAPPER_OP_DOES_NOT_EXIST length type
        value property dev ≠ 0 ↔ mapper_device_property dev property = none) ∧
    (cmp_query_devices_by_property mapper_device_property .MAPPER_OP_EXISTS length type value
        property dev ≠ 0 ↔
      ¬ cmp_query_devices_by_property mapper_device_property .MAPPER_OP_DOES_NOT_EXIST length
        type value property dev ≠ 0) ∧
    (∀ op l t v, op ≠ .MAPPER_OP_EXISTS → mapper_device_property dev property = some (l, t, v) →
      (t ≠ type ∨ l ≠ length) →
      cmp_query_devices_by_property mapper_device_property op length type value property dev
        = 0) := by
  refine ⟨?_, ?_, ?_, ?_⟩
  · cases h : mapper_device_property dev property <;>
      simp [cmp_query_devices_by_property, h]
  · cases h : mapper_device_property dev property <;>
      simp [cmp_query_devices_by_property, h]
  · cases h : mapper_device_property dev property <;>
      simp [cmp_query_devices_by_property, h]
  · intro op l t v hop h hne
    simp only [cmp_query_devices_by_property, h, hop, if_false]
    split
    · rfl
    · simp [hne]

end Mapper
